import Mathlib

/-!
Verification development for the xsodus_converter compilation pipeline.

The definitions below are a shallow embedding, translated from the Python
sources of the repository:

  * `src/core/src/x2s_core/models/types.py` and `models.py` (IR data model),
  * `src/core/src/x2s_core/parser/scenario_parser.py` (reference cleaning),
  * `src/pipelines/xml-to-sql/src/xml_to_sql/parser/type_inference.py`,
  * `src/pipelines/xml-to-sql/src/renderer/renderer.py` (graph resolver and
    SQL renderer),
  * `src/pipelines/xml-to-sql/src/translator/function_translator.py`,
  * `src/pipelines/xml-to-sql/src/xml_to_sql/sql/validator.py`.

Python strings are modelled by Lean `String` (all inputs of interest are
ASCII), Python `Dict[str, T]` by insertion-ordered association lists
`List (String × T)`, Python sets by lists together with an explicit
enumeration parameter wherever CPython iteration order is observable, and
Python's `re` module by a small executable regular-expression engine in
which every concrete pattern of the source is transcribed as a syntax tree.
Exceptions (`raise ValueError`) are modelled with `Except String`.
-/

/-! ## Python string primitives -/

/-- The single-quote character (codepoint 39). -/
def sqC : Char := Char.ofNat 39

/-- The backslash character (codepoint 92). -/
def bsl : Char := Char.ofNat 92

/-- One-character string holding a single quote. -/
def sqS : String := String.mk [sqC]

/-- Python `str.isspace` on one character: the six ASCII whitespace
characters recognised by `str.strip`. -/
def pyIsSpace (c : Char) : Bool :=
  c = ' ' || c = Char.ofNat 9 || c = Char.ofNat 10 || c = Char.ofNat 13 ||
    c = Char.ofNat 11 || c = Char.ofNat 12

/-- Python `str.strip()` with no argument. -/
def pyStrip (s : String) : String :=
  String.mk ((s.data.dropWhile pyIsSpace).reverse.dropWhile pyIsSpace |>.reverse)

/-- Python `str.lstrip()` with no argument. -/
def pyLstrip (s : String) : String :=
  String.mk (s.data.dropWhile pyIsSpace)

/-- Python `str.rstrip()` with no argument. -/
def pyRstrip (s : String) : String :=
  String.mk (s.data.reverse.dropWhile pyIsSpace |>.reverse)

/-- Python `str.lstrip(chars)`: drop leading characters belonging to the set. -/
def pyLstripChars (s : String) (chars : List Char) : String :=
  String.mk (s.data.dropWhile (fun c => chars.contains c))

/-- Python `str.strip(chars)`. -/
def pyStripChars (s : String) (chars : List Char) : String :=
  String.mk ((s.data.dropWhile (fun c => chars.contains c)).reverse.dropWhile
    (fun c => chars.contains c) |>.reverse)

/-- ASCII decimal digit. Python's `str.isdigit` also accepts some non-ASCII
digit characters; the inputs of this pipeline are ASCII. -/
def pyIsDigit (c : Char) : Bool := ('0' ≤ c && c ≤ '9')

/-- Python `str.isdigit()`: non-empty and all digits. -/
def pyIsDigitStr (s : String) : Bool :=
  !s.data.isEmpty && s.data.all pyIsDigit

/-- ASCII letter. -/
def pyIsAlpha (c : Char) : Bool :=
  ('a' ≤ c && c ≤ 'z') || ('A' ≤ c && c ≤ 'Z')

/-- ASCII letter or digit (Python `str.isalnum` restricted to ASCII). -/
def pyIsAlnumChar (c : Char) : Bool := pyIsAlpha c || pyIsDigit c

/-- Python `str.isalnum()`: non-empty, all alphanumeric. -/
def pyIsAlnumStr (s : String) : Bool :=
  !s.data.isEmpty && s.data.all pyIsAlnumChar

/-- Python `str.isalpha()` restricted to ASCII: non-empty, all letters. -/
def pyIsAlphaStr (s : String) : Bool :=
  !s.data.isEmpty && s.data.all pyIsAlpha

/-- Regex `\w` / Python identifier continuation character. -/
def isWordChar (c : Char) : Bool := pyIsAlnumChar c || c = '_'

/-- Python `str.isidentifier()` restricted to ASCII. -/
def pyIsIdentifier (s : String) : Bool :=
  match s.data with
  | [] => false
  | c :: cs => (pyIsAlpha c || c = '_') && cs.all isWordChar

/-- Python `str.upper()` (ASCII). -/
def pyUpper (s : String) : String := String.mk (s.data.map Char.toUpper)

/-- Python `str.lower()` (ASCII). -/
def pyLower (s : String) : String := String.mk (s.data.map Char.toLower)

/-- Split a character list on a non-empty separator (Lean `String.splitOn`
semantics, reimplemented structurally so that kernel reduction works). -/
def splitOnL (sep : List Char) (fuel : Nat) (s : List Char)
    (cur : List Char) (acc : List (List Char)) : List (List Char) :=
  match fuel with
  | 0 => (cur.reverse :: acc).reverse
  | fuel + 1 =>
    if sep ≠ [] && sep.isPrefixOf s then
      splitOnL sep fuel (s.drop sep.length) [] (cur.reverse :: acc)
    else
      match s with
      | [] => (cur.reverse :: acc).reverse
      | c :: cs => splitOnL sep fuel cs (c :: cur) acc

/-- Python-style `str.split(sep)` for a non-empty separator (also the
behaviour of Lean `String.splitOn` away from the empty separator). -/
def pySplitStr (s sep : String) : List String :=
  if sep = "" then [s]
  else (splitOnL sep.data (s.length + 1) s.data [] []).map String.mk

/-- String concatenation of a list with a separator. -/
def strIntercalate (sep : String) : List String → String
  | [] => ""
  | [x] => x
  | x :: xs => x ++ sep ++ strIntercalate sep xs

/-- Python `a in b` substring test. -/
def pyContains (hay needle : String) : Bool :=
  (pySplitStr hay needle).length > 1

/-- Python `str.find(sub, start)`: first index `≥ start` where `sub` occurs,
`-1` (here `none`) when absent. Index is in characters. -/
def pyFindFrom (s sub : String) (start : Nat) : Option Nat :=
  let n := s.length
  let rec go (i : Nat) (fuel : Nat) : Option Nat :=
    match fuel with
    | 0 => none
    | fuel + 1 =>
      if i + sub.length ≤ n then
        if (s.data.drop i).take sub.length = sub.data then some i
        else go (i + 1) fuel
      else none
  go start (n + 1)

/-- Python `str.count(sub)` for a one-character needle. -/
def pyCountChar (s : String) (c : Char) : Nat :=
  s.data.countP (fun d => d = c)

/-- Python `str.count(sub)`: non-overlapping occurrences of a substring. -/
def pyCountSub (s sub : String) : Nat :=
  (pySplitStr s sub).length - 1

/-- Python `str.replace(old, new)` (all occurrences). -/
def pyReplace (s old new : String) : String :=
  strIntercalate new (pySplitStr s old)

/-- Python `str.startswith`. -/
def pyStartsWith (s p : String) : Bool := p.data.isPrefixOf s.data

/-- Python `str.endswith`. -/
def pyEndsWith (s p : String) : Bool :=
  p.data.reverse.isPrefixOf s.data.reverse

/-- Python `str.join`. -/
def pyJoin (sep : String) (parts : List String) : String :=
  strIntercalate sep parts

/-- Python `str.splitlines()` for `\n`-separated text (no trailing empty
line entry when the string ends with a newline). -/
def pySplitlines (s : String) : List String :=
  if s = "" then []
  else
    let parts := pySplitStr s "\n"
    match parts.reverse with
    | last :: rest => if last = "" && rest ≠ [] then rest.reverse else parts
    | [] => parts

/-! ## IR data model (x2s_core/models/types.py and models.py) -/

inductive DatabaseMode where
  | SNOWFLAKE
  | HANA
deriving Repr, DecidableEq

inductive HanaVersion where
  | HANA_1_0
  | HANA_2_0
  | HANA_2_0_SPS01
  | HANA_2_0_SPS03
  | HANA_2_0_SPS04
deriving Repr, DecidableEq

/-- The string value of a `HanaVersion` enum member; the source compares
versions by these strings (it is a `str` enum). -/
def HanaVersion.value : HanaVersion → String
  | .HANA_1_0 => "1.0"
  | .HANA_2_0 => "2.0"
  | .HANA_2_0_SPS01 => "2.0_SPS01"
  | .HANA_2_0_SPS03 => "2.0_SPS03"
  | .HANA_2_0_SPS04 => "2.0_SPS04"

/-- Lexicographic string comparison used by Python `<`/`>=` on `str` enums. -/
def strLt (a b : String) : Bool := a < b

def HanaVersion.lt (a b : HanaVersion) : Bool := strLt a.value b.value

def HanaVersion.ge (a b : HanaVersion) : Bool := !a.lt b

inductive XMLFormat where
  | CALCULATION_SCENARIO
  | COLUMN_VIEW
deriving Repr, DecidableEq

inductive SnowflakeType where
  | VARCHAR
  | NUMBER
  | BOOLEAN
  | DATE
  | TIMESTAMP_NTZ
deriving Repr, DecidableEq

def SnowflakeType.value : SnowflakeType → String
  | .VARCHAR => "VARCHAR"
  | .NUMBER => "NUMBER"
  | .BOOLEAN => "BOOLEAN"
  | .DATE => "DATE"
  | .TIMESTAMP_NTZ => "TIMESTAMP_NTZ"

structure DataTypeSpec where
  type : SnowflakeType
  length : Option Nat := none
  scale : Option Nat := none
deriving Repr, DecidableEq

inductive DataSourceType where
  | TABLE
  | VIEW
  | CALCULATION_VIEW
  | UNKNOWN
deriving Repr, DecidableEq

structure Attribute where
  name : String
  data_type : DataTypeSpec
  description : Option String := none
deriving Repr, DecidableEq

inductive ExpressionType where
  | COLUMN
  | LITERAL
  | FUNCTION
  | CASE
  | RAW
deriving Repr, DecidableEq

/-- `Expression`: tagged value with optional nested arguments. The Python
field `arguments : Sequence[Expression] | None` is modelled as a plain list;
the only consumer reads it as `expr.arguments or []`, which identifies
`None` with the empty list. -/
inductive Expression where
  | mk (expression_type : ExpressionType) (value : String)
      (arguments : List Expression) (data_type : Option DataTypeSpec)
      (language : Option String)

def Expression.expression_type : Expression → ExpressionType
  | .mk t _ _ _ _ => t

def Expression.value : Expression → String
  | .mk _ v _ _ _ => v

def Expression.arguments : Expression → List Expression
  | .mk _ _ a _ _ => a

def Expression.data_type : Expression → Option DataTypeSpec
  | .mk _ _ _ d _ => d

def Expression.language : Expression → Option String
  | .mk _ _ _ _ l => l

/-- Convenience constructor: expression with no arguments, type, language. -/
def Expression.simple (t : ExpressionType) (v : String) : Expression :=
  .mk t v [] none none

structure AttributeMapping where
  target_name : String
  expression : Expression
  data_type : Option DataTypeSpec := none
  source_node : Option String := none

structure CalculatedAttribute where
  name : String
  expression : Expression
  data_type : Option DataTypeSpec := none
  description : Option String := none
  hidden : Bool := false
  properties : List (String × String) := []

inductive PredicateKind where
  | COMPARISON
  | BETWEEN
  | IN_LIST
  | IS_NULL
  | RAW
deriving Repr, DecidableEq

def PredicateKind.value : PredicateKind → String
  | .COMPARISON => "COMPARISON"
  | .BETWEEN => "BETWEEN"
  | .IN_LIST => "IN_LIST"
  | .IS_NULL => "IS_NULL"
  | .RAW => "RAW"

structure Predicate where
  kind : PredicateKind
  left : Expression
  operator : Option String := none
  right : Option Expression := none
  including : Bool := true

inductive NodeKind where
  | PROJECTION
  | JOIN
  | AGGREGATION
  | CALCULATION
  | UNION
  | RANK
deriving Repr, DecidableEq

def NodeKind.value : NodeKind → String
  | .PROJECTION => "PROJECTION"
  | .JOIN => "JOIN"
  | .AGGREGATION => "AGGREGATION"
  | .CALCULATION => "CALCULATION"
  | .UNION => "UNION"
  | .RANK => "RANK"

inductive JoinType where
  | INNER
  | LEFT_OUTER
  | RIGHT_OUTER
  | FULL_OUTER
deriving Repr, DecidableEq

structure JoinCondition where
  left : Expression
  right : Expression
  operator : String := "="

structure AggregationSpec where
  target_name : String
  function : String
  expression : Expression
  data_type : Option DataTypeSpec := none

structure OrderBySpec where
  column : String
  direction : String := "ASC"
deriving Repr, DecidableEq

/-- Kind-specific payload of the open class hierarchy
`Node` / `JoinNode` / `AggregationNode` / `UnionNode` / `RankNode`.
`isinstance` checks of the source become matches on this variant. -/
inductive NodeExt where
  | base
  | join (join_type : JoinType) (conditions : List JoinCondition)
  | agg (group_by : List String) (aggregations : List AggregationSpec)
  | union (union_all : Bool)
  | rank (partition_by : List String) (order_by : List OrderBySpec)
      (rank_column : String) (threshold : Option Int)

structure Node where
  node_id : String
  kind : NodeKind
  inputs : List String := []
  mappings : List AttributeMapping := []
  filters : List Predicate := []
  properties : List (String × String) := []
  output_attributes : List (String × Attribute) := []
  view_attributes : List String := []
  calculated_attributes : List (String × CalculatedAttribute) := []
  ext : NodeExt := .base

def Node.join_type (n : Node) : JoinType :=
  match n.ext with
  | .join jt _ => jt
  | _ => .INNER

def Node.conditions (n : Node) : List JoinCondition :=
  match n.ext with
  | .join _ cs => cs
  | _ => []

def Node.group_by (n : Node) : List String :=
  match n.ext with
  | .agg g _ => g
  | _ => []

def Node.aggregations (n : Node) : List AggregationSpec :=
  match n.ext with
  | .agg _ a => a
  | _ => []

def Node.union_all (n : Node) : Bool :=
  match n.ext with
  | .union u => u
  | _ => true

def Node.partition_by (n : Node) : List String :=
  match n.ext with
  | .rank p _ _ _ => p
  | _ => []

def Node.order_by (n : Node) : List OrderBySpec :=
  match n.ext with
  | .rank _ o _ _ => o
  | _ => []

def Node.rank_column (n : Node) : String :=
  match n.ext with
  | .rank _ _ r _ => r
  | _ => "RANK_COLUMN"

def Node.threshold (n : Node) : Option Int :=
  match n.ext with
  | .rank _ _ _ t => t
  | _ => none

def Node.isJoinNode (n : Node) : Bool :=
  match n.ext with
  | .join _ _ => true
  | _ => false

def Node.isAggregationNode (n : Node) : Bool :=
  match n.ext with
  | .agg _ _ => true
  | _ => false

def Node.isUnionNode (n : Node) : Bool :=
  match n.ext with
  | .union _ => true
  | _ => false

def Node.isRankNode (n : Node) : Bool :=
  match n.ext with
  | .rank _ _ _ _ => true
  | _ => false

structure CurrencyConversion where
  source_currency : Expression
  target_currency : Expression
  client : Expression
  reference_date : Expression
  rate_type : String
  schema : Option String := none

structure Measure where
  name : String
  expression : Expression
  aggregation : String
  data_type : DataTypeSpec
  currency_conversion : Option CurrencyConversion := none

structure Variable where
  variable_id : String
  description : Option String := none
  data_type : Option String := none
  mandatory : Bool := false
  default_value : Option String := none
  selection_type : Option String := none
  multi_line : Option Bool := none
  attribute_name : Option String := none
deriving Repr, DecidableEq

structure LogicalAttribute where
  name : String
  column_name : Option String := none
  column_object : Option String := none
  schema_name : Option String := none
  order : Option Int := none
  description : Option String := none
  key : Bool := false
  display : Bool := true
  hidden : Bool := false
  semantic_type : Option String := none
  local_variable : Option String := none
deriving Repr, DecidableEq

structure LogicalCalculatedAttribute where
  name : String
  expression : Expression
  data_type : Option DataTypeSpec := none
  order : Option Int := none
  description : Option String := none
  hidden : Bool := false

structure LogicalMeasure where
  name : String
  aggregation : Option String := none
  column_name : Option String := none
  description : Option String := none
  measure_type : Option String := none
  data_type : Option DataTypeSpec := none
  formula : Option String := none
  currency_attribute : Option String := none
  fixed_currency : Option String := none
  currency_conversion : Option CurrencyConversion := none

structure LogicalModel where
  model_id : String
  attributes : List LogicalAttribute := []
  calculated_attributes : List LogicalCalculatedAttribute := []
  measures : List LogicalMeasure := []
  base_node_id : Option String := none

structure DataSource where
  source_id : String
  source_type : DataSourceType
  schema_name : String
  object_name : String
  columns : List (String × Attribute) := []
  resource_uri : Option String := none
deriving Repr, DecidableEq

structure ScenarioMetadata where
  scenario_id : String
  description : Option String := none
  default_client : Option String := none
  default_language : Option String := none
deriving Repr, DecidableEq

/-- The Scenario IR. Python `Dict[str, _]` fields are insertion-ordered
association lists with distinct keys. -/
structure Scenario where
  metadata : ScenarioMetadata
  data_sources : List (String × DataSource) := []
  nodes : List (String × Node) := []
  measures : List Measure := []
  vars : List Variable := []
  logical_model : Option LogicalModel := none

/-- Association-list lookup modelling Python dict subscription. -/
def alookup {α : Type} (l : List (String × α)) (k : String) : Option α :=
  (l.find? (fun p => p.1 = k)).map (fun p => p.2)

/-- Python `k in dict`. -/
def amem {α : Type} (l : List (String × α)) (k : String) : Bool :=
  (alookup l k).isSome

/-! ## Reference cleaning (x2s_core/parser/scenario_parser.py, `_clean_ref`) -/

/-- `_clean_ref`: strip the XML-internal reference prefixes
`#//`, `#/N/` (any text up to the second slash), and a bare leading `#`. -/
def clean_ref (value : String) : String :=
  let text := pyStrip value
  if pyStartsWith text "#//" then String.mk (text.data.drop 3)
  else if pyStartsWith text "#/" then
    match pyFindFrom text "/" 2 with
    | some second_slash => String.mk (text.data.drop (second_slash + 1))
    | none => String.mk (text.data.drop 2)
  else if pyStartsWith text "#" then String.mk (text.data.drop 1)
  else text

/-! ## Literal type inference (xml_to_sql/parser/type_inference.py) -/

/-- Regex `\d{8}` full match. -/
def isEightDigits (s : String) : Bool :=
  s.length = 8 && s.data.all pyIsDigit

/-- Regex `\d{4}-\d{2}-\d{2}` full match. -/
def isIsoDateShape (s : String) : Bool :=
  match s.data with
  | [a, b, c, d, h1, e, f, h2, g, h] =>
    pyIsDigit a && pyIsDigit b && pyIsDigit c && pyIsDigit d && h1 = '-' &&
      pyIsDigit e && pyIsDigit f && h2 = '-' && pyIsDigit g && pyIsDigit h
  | _ => false

/-- `guess_literal_type`: infer a type from a literal's textual form. -/
def guess_literal_type (value : String) : Option DataTypeSpec :=
  let stripped := pyStrip value
  if stripped = "" then none
  else if pyIsDigitStr stripped then
    some { type := .NUMBER, length := some (min stripped.length 38) }
  else if isEightDigits stripped || isIsoDateShape stripped then
    some { type := .DATE }
  else
    some { type := .VARCHAR, length := some (max stripped.length 10) }

/-! ## Operator negation (renderer.py, `_negate_operator`) -/

/-- `_negate_operator`: logically invert a comparison operator for
`including=False` filters; unknown operators fall back to a `NOT ` prefix. -/
def negate_operator (op : String) : String :=
  let op_upper := pyUpper op
  if op_upper = "=" then "<>"
  else if op_upper = "<>" then "="
  else if op_upper = "!=" then "="
  else if op_upper = ">" then "<="
  else if op_upper = ">=" then "<"
  else if op_upper = "<" then ">="
  else if op_upper = "<=" then ">"
  else if op_upper = "IN" then "NOT IN"
  else if op_upper = "NOT IN" then "IN"
  else if op_upper = "LIKE" then "NOT LIKE"
  else if op_upper = "NOT LIKE" then "LIKE"
  else if op_upper = "BETWEEN" then "NOT BETWEEN"
  else if op_upper = "NOT BETWEEN" then "BETWEEN"
  else "NOT " ++ op

/-! ## A small executable regular-expression engine

Python's `re` module is used by the source only with concrete patterns.
Each such pattern is transcribed below as an `RE` syntax tree; the engine
implements Python semantics for the features those patterns use: leftmost
match, ordered alternation, greedy and lazy bounded repetition, numbered
capturing groups, word boundaries, `^`/`$` anchors (no MULTILINE), one-char
lookbehind and lookahead.  Matching uses a backtracking continuation-passing
interpreter with a fuel counter that is far larger than any backtracking
the transcribed patterns can perform. -/

inductive RE where
  | eps
  | lit (ci : Bool) (s : List Char)
  | cls (p : Char → Bool)
  | seq (a b : RE)
  | alt (a b : RE)
  | rep (lo : Nat) (hi : Option Nat) (lazy : Bool) (r : RE)
  | grp (i : Nat) (r : RE)
  | bnd
  | bos
  | eos
  | la (neg : Bool) (r : RE)
  | lb1 (neg : Bool) (p : Char → Bool)

/-- Sequence a list of regexes. -/
def RE.cat (l : List RE) : RE := l.foldr RE.seq RE.eps

/-- Ordered alternation of a non-empty list. -/
def RE.alts : List RE → RE
  | [] => RE.eps
  | [r] => r
  | r :: rs => RE.alt r (RE.alts rs)

/-- Case-sensitive literal. -/
def RE.str (s : String) : RE := RE.lit false s.data

/-- Case-insensitive literal. -/
def RE.istr (s : String) : RE := RE.lit true s.data

/-- Single character. -/
def RE.ch (c : Char) : RE := RE.lit false [c]

/-- `r*` (greedy). -/
def RE.star (r : RE) : RE := RE.rep 0 none false r

/-- `r+` (greedy). -/
def RE.plus1 (r : RE) : RE := RE.rep 1 none false r

/-- `r?` (greedy). -/
def RE.opt (r : RE) : RE := RE.rep 0 (some 1) false r

/-- `\s` as used by `re` (ASCII subset). -/
def RE.wsp : RE := RE.cls pyIsSpace

/-- `\s*`. -/
def RE.wsS : RE := RE.star RE.wsp

/-- `\s+`. -/
def RE.wsP : RE := RE.plus1 RE.wsp

/-- `\w`. -/
def RE.wordC : RE := RE.cls isWordChar

/-- `\d`. -/
def RE.digitC : RE := RE.cls pyIsDigit

/-- Structural size, used to compute a fuel bound. -/
def RE.size : RE → Nat
  | .eps => 1
  | .lit _ s => s.length + 1
  | .cls _ => 1
  | .seq a b => a.size + b.size + 1
  | .alt a b => a.size + b.size + 1
  | .rep _ _ _ r => r.size + 1
  | .grp _ r => r.size + 1
  | .bnd => 1
  | .bos => 1
  | .eos => 1
  | .la _ r => r.size + 1
  | .lb1 _ _ => 1

/-- Captured groups: association list `(group index, content)`, most recent
write first. -/
def Caps := List (Nat × List Char)

/-- Group content; Python returns the empty string here only for groups that
participated with empty width, and the transcribed patterns never read a
group that did not participate. -/
def capGet (caps : Caps) (i : Nat) : List Char :=
  match List.find? (fun p => p.1 = i) caps with
  | some p => p.2
  | none => []

/-- Case-insensitive character comparison (ASCII). -/
def ciEq (ci : Bool) (a b : Char) : Bool :=
  if ci then a.toLower = b.toLower else a = b

/-- Match a literal prefix; returns remaining input and last consumed char. -/
def litMatch (ci : Bool) : List Char → Option Char → List Char →
    Option (Option Char × List Char)
  | [], prev, s => some (prev, s)
  | _ :: _, _, [] => none
  | l :: ls, prev, c :: cs =>
    if ciEq ci l c then litMatch ci ls (some c) cs else none

/-- Word-character test for `\b`, treating a missing character as non-word. -/
def optIsWord : Option Char → Bool
  | some c => isWordChar c
  | none => false

/-- The backtracking matcher.  `prev` is the character immediately before
the current position (`none` at the start of the haystack), `s` the
remaining input, `k` the continuation receiving the position after the
sub-match. -/
def mrun (fuel : Nat) (re : RE) (prev : Option Char) (s : List Char)
    (caps : Caps)
    (k : Option Char → List Char → Caps → Option (List Char × Caps)) :
    Option (List Char × Caps) :=
  match fuel with
  | 0 => none
  | fuel + 1 =>
    match re with
    | .eps => k prev s caps
    | .lit ci l =>
      match litMatch ci l prev s with
      | some (prev2, s2) => k prev2 s2 caps
      | none => none
    | .cls p =>
      match s with
      | [] => none
      | c :: cs => if p c then k (some c) cs caps else none
    | .seq a b =>
      mrun fuel a prev s caps (fun p2 s2 c2 => mrun fuel b p2 s2 c2 k)
    | .alt a b =>
      match mrun fuel a prev s caps k with
      | some r => some r
      | none => mrun fuel b prev s caps k
    | .rep lo hi lazy r =>
      if lo > 0 then
        mrun fuel r prev s caps (fun p2 s2 c2 =>
          mrun fuel (.rep (lo - 1) (hi.map (fun h => h - 1)) lazy r) p2 s2 c2 k)
      else
        match hi with
        | some 0 => k prev s caps
        | _ =>
          let once := fun () => mrun fuel r prev s caps (fun p2 s2 c2 =>
            if s2.length = s.length then none
            else
              mrun fuel (.rep 0 (hi.map (fun h => h - 1)) lazy r) p2 s2 c2 k)
          if lazy then
            match k prev s caps with
            | some res => some res
            | none => once ()
          else
            match once () with
            | some res => some res
            | none => k prev s caps
    | .grp i r =>
      mrun fuel r prev s caps (fun p2 s2 c2 =>
        k p2 s2 ((i, s.take (s.length - s2.length)) :: c2))
    | .bnd =>
      if optIsWord prev ≠ optIsWord s.head? then k prev s caps else none
    | .bos =>
      if prev = none then k prev s caps else none
    | .eos =>
      if s = [] || s = [Char.ofNat 10] then k prev s caps else none
    | .la neg r =>
      let probe := mrun fuel r prev s caps (fun _ s2 c2 => some (s2, c2))
      if neg then
        if probe.isSome then none else k prev s caps
      else
        if probe.isSome then k prev s caps else none
    | .lb1 neg p =>
      let m := match prev with
        | some c => p c
        | none => false
      if neg then
        if m then none else k prev s caps
      else
        if m then k prev s caps else none

/-- Fuel bound for one match attempt. -/
def reFuel (re : RE) (s : List Char) : Nat :=
  (s.length + 2) * (s.length + 2) * (re.size + 2) + 1000

/-- Try to match `re` exactly at the current position. -/
def reMatchAt (re : RE) (prev : Option Char) (s : List Char) :
    Option (List Char × Caps) :=
  mrun (reFuel re s) re prev s [] (fun _ rest caps => some (rest, caps))

/-- A successful search result: the haystack is `pre ++ matched ++ rest`. -/
structure MRes where
  pre : List Char
  matched : List Char
  rest : List Char
  caps : Caps

/-- Leftmost search, accumulating the scanned prefix. -/
def reSearchCore (re : RE) (preAcc : List Char) (prev : Option Char)
    (s : List Char) : Option MRes :=
  match reMatchAt re prev s with
  | some (rest, caps) =>
    some ⟨preAcc.reverse, s.take (s.length - rest.length), rest, caps⟩
  | none =>
    match s with
    | [] => none
    | c :: cs => reSearchCore re (c :: preAcc) (some c) cs

/-- Python `re.search`. -/
def reSearch (re : RE) (s : String) : Option MRes :=
  reSearchCore re [] none s.data

/-- Python `re.search` with a start offset (`pattern.search(s, pos)`). -/
def reSearchFrom (re : RE) (s : String) (pos : Nat) : Option MRes :=
  let pre := s.data.take pos
  match reSearchCore re pre.reverse (pre.getLast?) (s.data.drop pos) with
  | some m => some ⟨m.pre, m.matched, m.rest, m.caps⟩
  | none => none

/-- One step of `re.sub`-style scanning: find all matches, non-overlapping,
left to right, returning the list of match results and the interleaving
unmatched segments.  `fuel` bounds the number of matches. -/
def reScanAll (fuel : Nat) (re : RE) (preAcc : List Char) (prev : Option Char)
    (s : List Char) (acc : List (List Char × MRes)) :
    List (List Char × MRes) × List Char :=
  match fuel with
  | 0 => (acc.reverse, preAcc.reverse ++ s)
  | fuel + 1 =>
    match reSearchCore re [] prev s with
    | none => (acc.reverse, preAcc.reverse ++ s)
    | some m =>
      let seg := preAcc.reverse ++ m.pre
      if m.matched = [] then
        -- Python substitutes the empty match and then copies one character.
        match m.rest with
        | [] => ((acc.reverse ++ [(seg, m)]).reverse.reverse, [])
        | c :: cs =>
          reScanAll fuel re [c] (some c)
            cs (({ m with rest := cs } |> fun m2 => (seg, m2)) :: acc)
      else
        reScanAll fuel re [] (m.matched.getLast? <|> m.pre.getLast? <|> prev)
          m.rest ((seg, m) :: acc)

/-- Python `re.sub` with a replacement function. -/
def reSub (re : RE) (repl : MRes → List Char) (s : String) : String :=
  let (ms, tail) := reScanAll (s.length + 1) re [] none s.data []
  String.mk ((ms.map (fun pm => pm.1 ++ repl pm.2)).flatten ++ tail)

/-- Python `re.findall` projecting group 1 of every match. -/
def reFindall1 (re : RE) (s : String) : List String :=
  let (ms, _) := reScanAll (s.length + 1) re [] none s.data []
  ms.map (fun pm => String.mk (capGet pm.2.caps 1))

/-- Number of matches (`len(re.findall(...))`). -/
def reCount (re : RE) (s : String) : Nat :=
  (reScanAll (s.length + 1) re [] none s.data []).1.length

/-- All matches as `MRes` values (`re.finditer`). -/
def reFinditer (re : RE) (s : String) : List MRes :=
  ((reScanAll (s.length + 1) re [] none s.data []).1).map (fun pm => pm.2)

/-- `re.search(...) is not None`. -/
def reTest (re : RE) (s : String) : Bool := (reSearch re s).isSome

/-! ## Expression/function translator (translator/function_translator.py) -/

/-- Python slice `s[lo:hi]` on character lists (clamping, no negatives). -/
def sliceL (s : List Char) (lo hi : Nat) : List Char := (s.take hi).drop lo

/-- Python slice `s[lo:]`. -/
def sliceFrom (s : List Char) (lo : Nat) : List Char := s.drop lo

/-- `''.join(...)` then `.strip()` on a reversed character accumulator. -/
def joinStrip (cur : List Char) : String := pyStrip (String.mk cur.reverse)

/-- Quote characters recognised by the translator scanners. -/
def isQuoteChar (c : Char) : Bool := c = '"' || c = sqC

/-- Forward scan of `_convert_in_function_to_operator` looking for the
parenthesis closing an `IN(`: index `i` is the absolute index of `c`,
`prev` the previous character of the whole string (for the escape test),
depth starts at 1.  Returns the absolute index of the closing parenthesis,
or `none` when the scan runs off the end with positive depth. -/
def inConvCloseScan : List Char → Nat → Option Char → Bool → Option Char →
    Int → Option Nat
  | [], _, _, _, _, _ => none
  | c :: cs, i, prev, inq, qc, depth =>
    let qstate :=
      if isQuoteChar c && (i = 0 || prev ≠ some bsl) then
        if !inq then (true, some c)
        else if some c = qc then (false, (none : Option Char))
        else (inq, qc)
      else (inq, qc)
    let inq2 := qstate.1
    let qc2 := qstate.2
    let depth2 :=
      if !inq2 then
        if c = '(' then depth + 1 else if c = ')' then depth - 1 else depth
      else depth
    if depth2 ≤ 0 then some i
    else inConvCloseScan cs (i + 1) (some c) inq2 qc2 depth2

/-- Argument splitting of `_convert_in_function_to_operator`: split the text
between `IN(` and its closing parenthesis at top-level commas, respecting
quotes (opening without escape test, closing with escape test) and nested
parentheses.  `cur` is the reversed current-argument accumulator. -/
def inConvSplit : List Char → Nat → Option Char → Bool → Option Char →
    Int → List Char → List String → List String
  | [], _, _, _, _, _, cur, acc =>
    if cur ≠ [] then acc ++ [joinStrip cur] else acc
  | c :: cs, j, prev, inq, qc, pd, cur, acc =>
    let qstate :=
      if isQuoteChar c then
        if !inq then (true, some c)
        else if some c = qc && (j = 0 || prev ≠ some bsl) then
          (false, (none : Option Char))
        else (inq, qc)
      else (inq, qc)
    let inq2 := qstate.1
    let qc2 := qstate.2
    if !inq2 && c = '(' then
      inConvSplit cs (j + 1) (some c) inq2 qc2 (pd + 1) (c :: cur) acc
    else if !inq2 && c = ')' then
      inConvSplit cs (j + 1) (some c) inq2 qc2 (pd - 1) (c :: cur) acc
    else if !inq2 && c = ',' && pd = 0 then
      inConvSplit cs (j + 1) (some c) inq2 qc2 pd [] (acc ++ [joinStrip cur])
    else
      inConvSplit cs (j + 1) (some c) inq2 qc2 pd (c :: cur) acc

/-- Regex `\bIN\s*\(`. -/
def reINCall : RE :=
  RE.cat [RE.bnd, RE.istr "IN", RE.wsS, RE.ch '(']

/-- One bounded pass of the `while` loop of
`_convert_in_function_to_operator`. -/
def convertInLoop (iterations : Nat) (result : String) (search_start : Nat) :
    String :=
  match iterations with
  | 0 => result
  | iterations + 1 =>
    let sliced := String.mk (sliceFrom result.data search_start)
    match reSearch reINCall sliced with
    | none => result
    | some m =>
      let in_start := search_start + m.pre.length
      let in_end := in_start + m.matched.length
      let prev := (result.data.take in_end).getLast?
      match inConvCloseScan (sliceFrom result.data in_end) in_end prev
          false none 1 with
      | none => result
      | some close_paren =>
        let args_str := sliceL result.data in_end close_paren
        let jprev := (result.data.take in_end).getLast?
        let args := inConvSplit args_str 0 jprev false none 0 [] []
        if args.length < 2 then result
        else
          let expression := args.headD ""
          let values := args.tail
          let replacement :=
            expression ++ " IN (" ++ pyJoin ", " values ++ ")"
          let result2 := String.mk (result.data.take in_start) ++ replacement ++
            String.mk (sliceFrom result.data (close_paren + 1))
          convertInLoop iterations result2 (in_start + replacement.length)

/-- `_convert_in_function_to_operator`: rewrite function-style
`IN(expr, v1, v2)` into operator-style `expr IN (v1, v2)`
(bounded at 20 iterations like the source). -/
def convert_in_function_to_operator (formula : String) : String :=
  convertInLoop 20 formula 0

/-- Character at index (strings are ASCII; out of range yields NUL, which the
source never observes because all accesses are bounds-guarded). -/
def nthc (s : List Char) (i : Nat) : Char := s.getD i (Char.ofNat 0)

/-- Shared `IF(`-argument extraction of `_remove_parameter_clauses_hana`
(BUG-031 block) and `_convert_if_to_case_for_hana`: scan from the character
after `IF(`, toggling one joint quote state on either quote character,
splitting top-level commas, stopping at the balancing parenthesis.  Returns
the collected arguments and the index of the closing parenthesis (or of the
end of the string when the scan runs out).  `cur` is reversed. -/
def ifArgsScan : List Char → Nat → Bool → Int → List Char → List String →
    (List String × Nat)
  | [], i, _, _, _, acc => (acc, i)
  | c :: cs, i, inq, depth, cur, acc =>
    let inq2 := if isQuoteChar c then !inq else inq
    if !inq2 && c = '(' then
      ifArgsScan cs (i + 1) inq2 (depth + 1) (c :: cur) acc
    else if !inq2 && c = ')' then
      if depth - 1 = 0 then
        let val := joinStrip cur
        (if val ≠ "" then acc ++ [val] else acc, i)
      else ifArgsScan cs (i + 1) inq2 (depth - 1) (c :: cur) acc
    else if !inq2 && c = ',' && depth = 1 then
      let val := joinStrip cur
      ifArgsScan cs (i + 1) inq2 depth []
        (if val ≠ "" then acc ++ [val] else acc)
    else
      ifArgsScan cs (i + 1) inq2 depth (c :: cur) acc

/-- Uppercase A-Z or underscore (regex `[A-Z_]`). -/
def isUpperOrUnderscore (c : Char) : Bool :=
  ('A' ≤ c && c ≤ 'Z') || c = '_'

/-- Regex `\$\$IP_[A-Z_]+\$\$` (case-sensitive). -/
def reIPParam : RE :=
  RE.cat [RE.str "$$IP_", RE.plus1 (RE.cls isUpperOrUnderscore), RE.str "$$"]

/-- Regex of the BUG-031 block:
`\bif\s*\(\s*\'(?:\$\$IP_[A-Z_]+\$\$|\'{0,3})\'\s*(!?=)\s*\'\'` (ci). -/
def reIfParamCheck : RE :=
  RE.cat [RE.bnd, RE.istr "if", RE.wsS, RE.ch '(', RE.wsS, RE.ch sqC,
    RE.alt (RE.cat [RE.str "$$IP_", RE.plus1 (RE.cls isUpperOrUnderscore),
      RE.str "$$"]) (RE.rep 0 (some 3) false (RE.ch sqC)),
    RE.ch sqC, RE.wsS,
    RE.grp 1 (RE.cat [RE.opt (RE.ch '!'), RE.ch '=']), RE.wsS,
    RE.ch sqC, RE.ch sqC]

/-- The BUG-031 `IF()` pre-evaluation loop of
`_remove_parameter_clauses_hana`. -/
def rpIfLoop : Nat → String → String
  | 0, result => result
  | n + 1, result =>
    match reSearch reIfParamCheck result with
    | none => result
    | some m =>
      let if_start := m.pre.length
      let args_start := if_start + m.matched.length
      let (args, if_end) :=
        ifArgsScan (sliceFrom result.data args_start) args_start false 1 [] []
      if args.length ≠ 2 then result
      else
        let operator := String.mk (capGet m.caps 1)
        let replacement0 :=
          if operator = "=" then args.headD "NULL"
          else args.getD 1 "NULL"
        let replacement :=
          if pyStrip replacement0 = sqS ++ sqS ||
             pyStrip replacement0 = sqS ++ sqS ++ sqS ++ sqS ||
             pyStrip replacement0 = "\"\"" then "NULL"
          else replacement0
        let result2 := String.mk (result.data.take if_start) ++ replacement ++
          String.mk (sliceFrom result.data (if_end + 1))
        rpIfLoop n result2

/-- Backward scan of the parameter-clause loop: find the opening parenthesis
of the clause containing a `$$IP_` parameter. -/
def rpBackScan (s : List Char) (paramPos : Nat) :
    Nat → Bool → Int → Option Nat
  | i, inq, depth =>
    let c := nthc s i
    let escOk := i = 0 || nthc s (i - 1) ≠ bsl
    let inq2 := if isQuoteChar c && escOk then !inq else inq
    let step : Option Nat ⊕ (Bool × Int) :=
      if inq2 then Sum.inr (inq2, depth)
      else if c = ')' then Sum.inr (inq2, depth + 1)
      else if c = '(' then
        if depth = 0 &&
            (let ahead := pyUpper (String.mk (sliceL s i (paramPos + 30)))
             pyContains ahead "IP_" &&
               (pyContains ahead "=" || pyContains ahead "IN(" ||
                 pyContains ahead "IN (")) then
          Sum.inl (some i)
        else Sum.inr (inq2, depth - 1)
      else Sum.inr (inq2, depth)
    match step with
    | Sum.inl r => r
    | Sum.inr (inq3, depth3) =>
      match i with
      | 0 => none
      | i + 1 => rpBackScan s paramPos i inq3 depth3

/-- Forward scan of the parameter-clause loop: find the matching closing
parenthesis and record whether a top-level ` OR`/`OR ` chunk occurs. -/
def rpFwdScan (s : List Char) (total : Nat) :
    List Char → Nat → Bool → Int → Bool → (Option Nat × Bool)
  | [], _, _, _, hasOr => (none, hasOr)
  | c :: cs, i, inq, depth, hasOr =>
    let escOk := i = 0 || nthc s (i - 1) ≠ bsl
    let inq2 := if isQuoteChar c && escOk then !inq else inq
    if !inq2 && c = '(' then rpFwdScan s total cs (i + 1) inq2 (depth + 1) hasOr
    else if !inq2 && c = ')' then
      if depth - 1 = 0 then (some i, hasOr)
      else rpFwdScan s total cs (i + 1) inq2 (depth - 1) hasOr
    else
      let hasOr2 :=
        if !inq2 && depth = 1 && i + 3 ≤ total then
          let chunk := pyUpper (String.mk (sliceL s i (i + 3)))
          hasOr || chunk = " OR" || chunk = "OR "
        else hasOr
      rpFwdScan s total cs (i + 1) inq2 depth hasOr2

/-- Strip a trailing `AND`/`OR` connective before a removed clause
(the source checks, in order: case-insensitive ` AND`, case-insensitive
` OR`, case-sensitive `AND`, case-sensitive `OR`; otherwise the unstripped
prefix is kept). -/
def rpTrimBefore (before : String) : String :=
  let bs := pyRstrip before
  if pyEndsWith (pyUpper bs) " AND" then String.mk (bs.data.take (bs.length - 4))
  else if pyEndsWith (pyUpper bs) " OR" then String.mk (bs.data.take (bs.length - 3))
  else if pyEndsWith bs "AND" then String.mk (bs.data.take (bs.length - 3))
  else if pyEndsWith bs "OR" then String.mk (bs.data.take (bs.length - 2))
  else before

/-- Strip a leading `AND `/`OR ` connective after a removed clause. -/
def rpTrimAfter (after : String) : String :=
  let as_ := pyLstrip after
  if pyStartsWith (pyUpper as_) "AND " then String.mk (as_.data.drop 4)
  else if pyStartsWith (pyUpper as_) "OR " then String.mk (as_.data.drop 3)
  else after

/-- The main parameter-clause removal loop of
`_remove_parameter_clauses_hana`. -/
def rpParamLoop : Nat → String → String
  | 0, result => result
  | n + 1, result =>
    match reSearch reIPParam result with
    | none => result
    | some m =>
      let param_pos := m.pre.length
      let param_end := param_pos + m.matched.length
      let dropParam := String.mk (result.data.take param_pos) ++ sqS ++ sqS ++
        String.mk (sliceFrom result.data param_end)
      let opening :=
        if param_pos = 0 then none
        else rpBackScan result.data param_pos (param_pos - 1) false 0
      match opening with
      | none => rpParamLoop n dropParam
      | some opening_paren =>
        let (closing, has_or) := rpFwdScan result.data result.length
          (sliceFrom result.data opening_paren) opening_paren false 0 false
        match closing with
        | none => rpParamLoop n dropParam
        | some closing_paren =>
          if !has_or then rpParamLoop n dropParam
          else
            let before := rpTrimBefore
              (String.mk (result.data.take opening_paren))
            let after := rpTrimAfter
              (String.mk (sliceFrom result.data (closing_paren + 1)))
            rpParamLoop n (before ++ after)

/-- Regex fragment `''{2,4}` (a quote followed by two to four quotes). -/
def reQuoteRun : RE :=
  RE.cat [RE.ch sqC, RE.rep 2 (some 4) false (RE.ch sqC)]

/-- `\s+` (whitespace collapse). -/
def reWsRun : RE := RE.wsP

/-- `[\s(]\(\s*\)[\s)]` (orphaned empty parentheses and their flanks). -/
def reOrphanEmptyParens : RE :=
  RE.cat [RE.cls (fun c => pyIsSpace c || c = '('), RE.ch '(', RE.wsS,
    RE.ch ')', RE.cls (fun c => pyIsSpace c || c = ')')]

/-- `\s*AND\s+AND\s*` (ci). -/
def reDoubleAnd : RE :=
  RE.cat [RE.wsS, RE.istr "AND", RE.wsP, RE.istr "AND", RE.wsS]

/-- `\s*OR\s+OR\s*` (ci). -/
def reDoubleOr : RE :=
  RE.cat [RE.wsS, RE.istr "OR", RE.wsP, RE.istr "OR", RE.wsS]

/-- Fragment pattern 1: `\(\s*\(\s*''{2,4}\s*=\s*\d+\s*\)\s+OR\s+[^)]+\)`. -/
def reFrag1 : RE :=
  RE.cat [RE.ch '(', RE.wsS, RE.ch '(', RE.wsS, reQuoteRun, RE.wsS,
    RE.ch '=', RE.wsS, RE.plus1 RE.digitC, RE.wsS, RE.ch ')', RE.wsP,
    RE.istr "OR", RE.wsP, RE.plus1 (RE.cls (fun c => c ≠ ')')), RE.ch ')']

/-- Fragment pattern 2:
`\(\s*\(\s*''{2,4}\s*=\s*''{2,4}\s*\)\s+OR\s+[^)]+\)`. -/
def reFrag2 : RE :=
  RE.cat [RE.ch '(', RE.wsS, RE.ch '(', RE.wsS, reQuoteRun, RE.wsS,
    RE.ch '=', RE.wsS, reQuoteRun, RE.wsS, RE.ch ')', RE.wsP,
    RE.istr "OR", RE.wsP, RE.plus1 (RE.cls (fun c => c ≠ ')')), RE.ch ')']

/-- Fragment pattern 3: `\(\s*''{2,4}\s*=\s*''{2,4}\s+OR\s+[^)]+\)`. -/
def reFrag3 : RE :=
  RE.cat [RE.ch '(', RE.wsS, reQuoteRun, RE.wsS, RE.ch '=', RE.wsS,
    reQuoteRun, RE.wsP, RE.istr "OR", RE.wsP,
    RE.plus1 (RE.cls (fun c => c ≠ ')')), RE.ch ')']

/-- Fragment pattern 4: `\([^(]+\s+OR\s+\(\s*''{2,4}\s*=\s*\d+\s*\)\s*\)`. -/
def reFrag4 : RE :=
  RE.cat [RE.ch '(', RE.plus1 (RE.cls (fun c => c ≠ '(')), RE.wsP,
    RE.istr "OR", RE.wsP, RE.ch '(', RE.wsS, reQuoteRun, RE.wsS, RE.ch '=',
    RE.wsS, RE.plus1 RE.digitC, RE.wsS, RE.ch ')', RE.wsS, RE.ch ')']

/-- Fragment pattern 5: `DATE\s*\(\s*''{2,4}\s*\)` (replaced by `NULL`). -/
def reFrag5 : RE :=
  RE.cat [RE.istr "DATE", RE.wsS, RE.ch '(', RE.wsS, reQuoteRun, RE.wsS,
    RE.ch ')']

/-- Fragment pattern 6:
`\(\s*DATE\([^)]+\)\s*[<>=]+\s*DATE\s*\(\s*''{2,4}\s*\)\s*\)`. -/
def reFrag6 : RE :=
  RE.cat [RE.ch '(', RE.wsS, RE.istr "DATE", RE.ch '(',
    RE.plus1 (RE.cls (fun c => c ≠ ')')), RE.ch ')', RE.wsS,
    RE.plus1 (RE.cls (fun c => c = '<' || c = '>' || c = '=')), RE.wsS,
    RE.istr "DATE", RE.wsS, RE.ch '(', RE.wsS, reQuoteRun, RE.wsS,
    RE.ch ')', RE.wsS, RE.ch ')']

/-- Splice out the first match of `re`, when present. -/
def spliceOut (re : RE) (s : String) : Option String :=
  match reSearch re s with
  | some m => some (String.mk (m.pre ++ m.rest))
  | none => none

/-- Replace the first match of `re` by `repl`, when present. -/
def spliceRepl (re : RE) (repl : String) (s : String) : Option String :=
  match reSearch re s with
  | some m => some (String.mk m.pre ++ repl ++ String.mk m.rest)
  | none => none

/-- The malformed-fragment cleanup loop of `_remove_parameter_clauses_hana`
(bounded at 20 iterations). -/
def rpFragLoop : Nat → String → String
  | 0, result => result
  | n + 1, result =>
    match spliceOut reFrag1 result with
    | some r => rpFragLoop n r
    | none =>
    match spliceOut reFrag2 result with
    | some r => rpFragLoop n r
    | none =>
    match spliceOut reFrag3 result with
    | some r => rpFragLoop n r
    | none =>
    match spliceOut reFrag4 result with
    | some r => rpFragLoop n r
    | none =>
    match spliceRepl reFrag5 "NULL" result with
    | some r => rpFragLoop n r
    | none =>
    match spliceOut reFrag6 result with
    | some r => rpFragLoop n r
    | none => result

/-- `\s+AND\s+\)` (ci). -/
def reAndCloseParen : RE :=
  RE.cat [RE.wsP, RE.istr "AND", RE.wsP, RE.ch ')']

/-- `\s+OR\s+\)` (ci). -/
def reOrCloseParen : RE :=
  RE.cat [RE.wsP, RE.istr "OR", RE.wsP, RE.ch ')']

/-- `\(\s+AND\s+` (ci). -/
def reOpenParenAnd : RE :=
  RE.cat [RE.ch '(', RE.wsP, RE.istr "AND", RE.wsP]

/-- `\(\s+OR\s+` (ci). -/
def reOpenParenOr : RE :=
  RE.cat [RE.ch '(', RE.wsP, RE.istr "OR", RE.wsP]

/-- `WHERE\s+AND\s+` (ci). -/
def reWhereAnd : RE :=
  RE.cat [RE.istr "WHERE", RE.wsP, RE.istr "AND", RE.wsP]

/-- `WHERE\s+OR\s+` (ci). -/
def reWhereOr : RE :=
  RE.cat [RE.istr "WHERE", RE.wsP, RE.istr "OR", RE.wsP]

/-- Constant-replacement `re.sub`. -/
def csub (re : RE) (repl : String) (s : String) : String :=
  reSub re (fun _ => repl.data) s

/-- `_remove_parameter_clauses_hana`: remove whole parameter filter clauses
before substitution (PRE-REMOVAL strategy), then run the textual cleanup
cascade of the source. -/
def remove_parameter_clauses_hana (formula : String) : String :=
  let result := formula
  let result := rpIfLoop 20 result
  let result := rpParamLoop 20 result
  let result := csub reWsRun " " result
  let result := csub reOrphanEmptyParens "" result
  let result := csub reDoubleAnd " AND " result
  let result := csub reDoubleOr " OR " result
  let result := rpFragLoop 20 result
  let result := csub reAndCloseParen " )" result
  let result := csub reOrCloseParen " )" result
  let result := csub reOpenParenAnd "(" result
  let result := csub reOpenParenOr "(" result
  let result := csub reWhereAnd "WHERE " result
  let result := csub reWhereOr "WHERE " result
  pyStrip result

/-- Pattern of `_translate_if_statements`:
`if\s*\(\s*([^,]+)\s*,\s*([^,]+)\s*,\s*([^)]+)\s*\)` (ci). -/
def reIfThreeArgs : RE :=
  RE.cat [RE.istr "if", RE.wsS, RE.ch '(', RE.wsS,
    RE.grp 1 (RE.plus1 (RE.cls (fun c => c ≠ ','))), RE.wsS, RE.ch ',',
    RE.wsS, RE.grp 2 (RE.plus1 (RE.cls (fun c => c ≠ ','))), RE.wsS,
    RE.ch ',', RE.wsS, RE.grp 3 (RE.plus1 (RE.cls (fun c => c ≠ ')'))),
    RE.wsS, RE.ch ')']

/-- `_translate_if_statements`: HANA `if()` to Snowflake `IFF()`. -/
def translate_if_statements (formula : String) : String :=
  reSub reIfThreeArgs (fun m =>
    ("IFF(" ++ pyStrip (String.mk (capGet m.caps 1)) ++ ", " ++
      pyStrip (String.mk (capGet m.caps 2)) ++ ", " ++
      pyStrip (String.mk (capGet m.caps 3)) ++ ")").data) formula

/-- `_translate_string_concatenation`: HANA `+` concatenation to `||`. -/
def translate_string_concatenation (formula : String) : String :=
  let result := formula
  let result := reSub
    (RE.cat [RE.ch sqC, RE.wsS, RE.ch '+', RE.wsS])
    (fun _ => (sqS ++ " || ").data) result
  let result := reSub
    (RE.cat [RE.wsS, RE.ch '+', RE.wsS, RE.ch sqC])
    (fun _ => (" || " ++ sqS).data) result
  let result := reSub
    (RE.cat [RE.ch '"', RE.grp 1 (RE.plus1 (RE.cls (fun c => c ≠ '"'))),
      RE.ch '"', RE.wsS, RE.ch '+', RE.wsS, RE.ch '"',
      RE.grp 2 (RE.plus1 (RE.cls (fun c => c ≠ '"'))), RE.ch '"'])
    (fun m => ("\"" ++ String.mk (capGet m.caps 1) ++ "\" || \"" ++
      String.mk (capGet m.caps 2) ++ "\"").data) result
  let result := reSub
    (RE.cat [RE.ch '"', RE.grp 1 (RE.plus1 (RE.cls (fun c => c ≠ '"'))),
      RE.ch '"', RE.wsS, RE.ch '+', RE.wsS,
      RE.grp 2 (RE.plus1 (RE.cls
        (fun c => !(c = '"' || c = '+' || pyIsSpace c))))])
    (fun m => ("\"" ++ String.mk (capGet m.caps 1) ++ "\" || " ++
      String.mk (capGet m.caps 2)).data) result
  let result := reSub
    (RE.cat [RE.grp 1 (RE.plus1 (RE.cls
        (fun c => !(c = '"' || c = sqC || pyIsSpace c)))),
      RE.wsS, RE.ch '+', RE.wsS, RE.ch '"',
      RE.grp 2 (RE.plus1 (RE.cls (fun c => c ≠ '"'))), RE.ch '"'])
    (fun m => (String.mk (capGet m.caps 1) ++ " || \"" ++
      String.mk (capGet m.caps 2) ++ "\"").data) result
  result

/-- `REGEXP_LIKE\s*\(` (ci). -/
def reRegexpLikeOpen : RE :=
  RE.cat [RE.istr "REGEXP_LIKE", RE.wsS, RE.ch '(']

/-- Absolute `(start, end)` spans of all non-overlapping matches. -/
def reFindSpans (fuel : Nat) (re : RE) (s : String) (pos : Nat)
    (acc : List (Nat × Nat)) : List (Nat × Nat) :=
  match fuel with
  | 0 => acc.reverse
  | fuel + 1 =>
    match reSearchFrom re s pos with
    | none => acc.reverse
    | some m =>
      let st := m.pre.length
      let en := st + m.matched.length
      if m.matched = [] then
        if en + 1 ≤ s.length then reFindSpans fuel re s (en + 1) ((st, en) :: acc)
        else ((st, en) :: acc).reverse
      else reFindSpans fuel re s en ((st, en) :: acc)

/-- Close-paren scan of `_translate_string_concat_to_hana`: from the index
after `REGEXP_LIKE(`, with one joint quote flag and escape test; returns
the index just past the balancing parenthesis when found. -/
def regexpLikeCloseScan (s : List Char) : List Char → Nat → Bool → Int →
    Option Nat
  | [], i, _, depth => if depth = 0 then some i else none
  | c :: cs, i, inq, depth =>
    if depth = 0 then some i
    else
      let escOk := i = 0 || nthc s (i - 1) ≠ bsl
      let inq2 := if isQuoteChar c && escOk then !inq else inq
      let depth2 :=
        if !inq2 then
          if c = '(' then depth + 1 else if c = ')' then depth - 1 else depth
        else depth
      regexpLikeCloseScan s cs (i + 1) inq2 depth2

/-- The protected `REGEXP_LIKE(...)` spans of
`_translate_string_concat_to_hana`. -/
def regexpLikeCalls (result : String) : List (Nat × Nat) :=
  (reFindSpans (result.length + 1) reRegexpLikeOpen result 0 []).filterMap
    (fun span =>
      match regexpLikeCloseScan result.data
          (sliceFrom result.data span.2) span.2 false 1 with
      | some i => some (span.1, i)
      | none => none)

/-- `_translate_string_concat_to_hana`: `||` to `+`, except inside
`REGEXP_LIKE(...)` calls. -/
def translate_string_concat_to_hana (formula : String) : String :=
  let result := formula
  let calls := regexpLikeCalls result
  if calls.isEmpty then pyReplace result "||" "+"
  else
    let step := calls.foldl
      (fun (st : List String × Nat) span =>
        let before := String.mk (sliceL result.data st.2 span.1)
        let content := String.mk (sliceL result.data span.1 span.2)
        (st.1 ++ [pyReplace before "||" "+", content], span.2))
      ([], 0)
    let after := String.mk (sliceFrom result.data step.2)
    pyJoin "" (step.1 ++ [pyReplace after "||" "+"])

/-- `\bif\s*\(` (ci). -/
def reIfOpen : RE := RE.cat [RE.bnd, RE.istr "if", RE.wsS, RE.ch '(']

/-- `_uppercase_if_statements`: rewrite `if(` (any case, any spacing) to
`IF(`. -/
def uppercase_if_statements (formula : String) : String :=
  csub reIfOpen "IF(" formula

/-- `\bIF\s*\(` (ci). -/
def reIFOpen : RE := RE.cat [RE.bnd, RE.istr "IF", RE.wsS, RE.ch '(']

/-- The bounded loop of `_convert_if_to_case_for_hana`. -/
def ifToCaseLoop : Nat → String → String
  | 0, result => result
  | n + 1, result =>
    match reSearch reIFOpen result with
    | none => result
    | some m =>
      let if_start := m.pre.length
      let args_start := if_start + m.matched.length
      let (args, if_end) :=
        ifArgsScan (sliceFrom result.data args_start) args_start false 1 [] []
      if args.length ≠ 3 then result
      else
        let condition := args.getD 0 ""
        let then_value := args.getD 1 ""
        let else_value0 := args.getD 2 ""
        let else_value := if else_value0 = sqS ++ sqS then "NULL" else else_value0
        let case_expr := "CASE WHEN " ++ condition ++ " THEN " ++ then_value ++
          " ELSE " ++ else_value ++ " END"
        let result2 := String.mk (result.data.take if_start) ++ case_expr ++
          String.mk (sliceFrom result.data (if_end + 1))
        ifToCaseLoop n result2

/-- `_convert_if_to_case_for_hana`: `IF(c, t, e)` to
`CASE WHEN c THEN t ELSE e END`. -/
def convert_if_to_case_for_hana (formula : String) : String :=
  ifToCaseLoop 20 formula

/-- `\s+IN\s*\(` (ci), the trigger of `_convert_in_to_or_for_hana`. -/
def reSpaceINOpen : RE :=
  RE.cat [RE.wsP, RE.istr "IN", RE.wsS, RE.ch '(']

/-- Backward scan of `convert_one_in_clause` for the parenthesis opening the
clause that contains the `IN`. -/
def inOrBackScan (s : List Char) : Nat → Bool → Int → Option Nat
  | i, inq, depth =>
    let c := nthc s i
    let escOk := i = 0 || nthc s (i - 1) ≠ bsl
    let inq2 := if isQuoteChar c && escOk then !inq else inq
    let next : Option Nat ⊕ Int :=
      if inq2 then Sum.inr depth
      else if c = ')' then Sum.inr (depth + 1)
      else if c = '(' then
        if depth = 0 then Sum.inl (some i) else Sum.inr (depth - 1)
      else Sum.inr depth
    match next with
    | Sum.inl r => r
    | Sum.inr depth3 =>
      match i with
      | 0 => none
      | i + 1 => inOrBackScan s i inq2 depth3

/-- Forward scan of `convert_one_in_clause` for the parenthesis closing the
`IN (` value list; the source initialises the result to the scan start and
keeps that value when the scan runs out. -/
def inOrFwdScan (s : List Char) (dflt : Nat) : List Char → Nat → Bool →
    Int → Nat
  | [], _, _, _ => dflt
  | c :: cs, i, inq, depth =>
    let escOk := i = 0 || nthc s (i - 1) ≠ bsl
    let inq2 := if isQuoteChar c && escOk then !inq else inq
    if inq2 then inOrFwdScan s dflt cs (i + 1) inq2 depth
    else if c = '(' then inOrFwdScan s dflt cs (i + 1) inq2 (depth + 1)
    else if c = ')' then
      if depth - 1 = 0 then i
      else inOrFwdScan s dflt cs (i + 1) inq2 (depth - 1)
    else inOrFwdScan s dflt cs (i + 1) inq2 depth

/-- Value splitting of `convert_one_in_clause` (joint quote flag, no
nesting awareness). -/
def inOrSplitValues : List Char → Bool → List Char → List String →
    List String
  | [], _, cur, acc =>
    let val := joinStrip cur
    if val ≠ "" then acc ++ [val] else acc
  | c :: cs, inq, cur, acc =>
    let inq2 := if isQuoteChar c then !inq else inq
    if c = ',' && !inq2 then
      let val := joinStrip cur
      inOrSplitValues cs inq2 [] (if val ≠ "" then acc ++ [val] else acc)
    else inOrSplitValues cs inq2 (c :: cur) acc

/-- Skip spaces, tabs, carriage returns and newlines from an index
(`fuel` at least the string length makes the bound unreachable). -/
def skipWsFromAux (s : List Char) : Nat → Nat → Nat
  | i, 0 => i
  | i, fuel + 1 =>
    if i < s.length then
      let c := nthc s i
      if c = ' ' || c = Char.ofNat 9 || c = Char.ofNat 10 || c = Char.ofNat 13
      then skipWsFromAux s (i + 1) fuel else i
    else i

/-- Skip spaces, tabs, carriage returns and newlines from an index. -/
def skipWsFrom (s : List Char) (i : Nat) : Nat :=
  skipWsFromAux s i (s.length + 1)

/-- `convert_one_in_clause` of `_convert_in_to_or_for_hana`. -/
def convertOneInClause (text : String) : String × Bool :=
  match reSearch reSpaceINOpen text with
  | none => (text, false)
  | some m =>
    let in_start := m.pre.length
    let in_end := in_start + m.matched.length
    let open_pos :=
      if in_start = 0 then none
      else inOrBackScan text.data (in_start - 1) false 0
    match open_pos with
    | none => (text, false)
    | some open_paren_pos =>
      let expr := pyStrip
        (String.mk (sliceL text.data (open_paren_pos + 1) in_start))
      let close_values_pos := inOrFwdScan text.data in_end
        (sliceFrom text.data in_end) in_end false 1
      let values_str := sliceL text.data in_end close_values_pos
      let values := inOrSplitValues values_str false [] []
      let or_clause := pyJoin " OR "
        (values.map (fun v => expr ++ " = " ++ v))
      let end_pos := skipWsFrom text.data (close_values_pos + 1)
      if end_pos < text.length && nthc text.data end_pos = ')' then
        (String.mk (text.data.take open_paren_pos) ++ "(" ++ or_clause ++ ")" ++
          String.mk (sliceFrom text.data (end_pos + 1)), true)
      else
        (String.mk (text.data.take open_paren_pos) ++ "(" ++ or_clause ++ ")" ++
          String.mk (sliceFrom text.data (close_values_pos + 1)), true)

/-- The bounded (10 iterations) driver of `_convert_in_to_or_for_hana`. -/
def inToOrLoop : Nat → String → String
  | 0, result => result
  | n + 1, result =>
    let (result2, changed) := convertOneInClause result
    if changed then inToOrLoop n result2 else result2

/-- `_convert_in_to_or_for_hana`. -/
def convert_in_to_or_for_hana (formula : String) : String :=
  inToOrLoop 10 formula

/-- `_translate_column_references`: uppercase every quoted identifier. -/
def translate_column_references (formula : String) : String :=
  reSub (RE.cat [RE.ch '"', RE.grp 1 (RE.plus1 (RE.cls (fun c => c ≠ '"'))),
    RE.ch '"'])
    (fun m => ("\"" ++ pyUpper (String.mk (capGet m.caps 1)) ++ "\"").data)
    formula

/-- `\bisnull\s*\(\s*([^)]+?)\s*\)` (ci, lazy group). -/
def reIsnullCall : RE :=
  RE.cat [RE.bnd, RE.istr "isnull", RE.wsS, RE.ch '(', RE.wsS,
    RE.grp 1 (RE.rep 1 none true (RE.cls (fun c => c ≠ ')'))), RE.wsS,
    RE.ch ')']

/-- `_normalize_isnull_calls`: `ISNULL(x)` to `((x) IS NULL)`. -/
def normalize_isnull_calls (formula : String) : String :=
  reSub reIsnullCall (fun m =>
    ("((" ++ pyStrip (String.mk (capGet m.caps 1)) ++ ") IS NULL)").data)
    formula

/-- Translation environment: the attributes the translator reads from the
render context, together with the two catalog-driven rewrite passes.
`applyPatternRewrites` and `applyCatalogRewrites` correspond to
`_apply_pattern_rewrites` / `_apply_catalog_rewrites`, whose behaviour is
determined by rule catalogs loaded from external resources at process start
(spec §6 collaborator interfaces); the embedding abstracts them as
parameters and proves its theorems for every choice of catalogs. -/
structure TransEnv where
  client : String
  language : String
  database_mode : DatabaseMode
  hana_version : Option HanaVersion
  applyPatternRewrites : DatabaseMode → String → String
  applyCatalogRewrites : String → String

/-- `_substitute_placeholders` (translator module): substitute client and
language placeholders, and for HANA first remove parameter clauses. -/
def substitute_placeholders_t (text : String) (env : TransEnv) : String :=
  let result := pyReplace text "$$client$$" env.client
  let result := pyReplace result "$$language$$" env.language
  if env.database_mode = .HANA then remove_parameter_clauses_hana result
  else result

/-- The `CASE`/`CASE_WHEN` argument pairing shared by both dialect
translators. -/
def caseParts : List String → List String
  | a :: b :: rest => ("WHEN " ++ a ++ " THEN " ++ b) :: caseParts rest
  | [a] => ["ELSE " ++ a]
  | [] => []

/-- `CASE` builder of the dialect translators. -/
def caseBuild (arg_strs : List String) : String :=
  pyJoin " " (["CASE"] ++ caseParts arg_strs ++ ["END"])

/-- `_translate_for_snowflake`: translate a HANA function call to Snowflake
SQL; `none` models Python`s `return None` fall-through. -/
def translate_for_snowflake (func_name : String) (arg_strs : List String) :
    Option String :=
  let fu := pyUpper func_name
  let n := arg_strs.length
  let a0 := arg_strs.getD 0 "NULL"
  let a1 := arg_strs.getD 1 "NULL"
  let a2 := arg_strs.getD 2 "NULL"
  if fu = "IF" && n ≥ 3 then
    some ("IFF(" ++ a0 ++ ", " ++ a1 ++ ", " ++ a2 ++ ")")
  else if (fu = "CASE" || fu = "CASE_WHEN") && n ≥ 2 then
    some (caseBuild arg_strs)
  else if (fu = "SUBSTRING" || fu = "SUBSTR") && n ≥ 2 then
    some ("SUBSTRING(" ++ a0 ++ ", " ++ a1 ++
      (if n > 2 then ", " ++ a2 else "") ++ ")")
  else if (fu = "CONCAT" || fu = "CONCATENATE") && n ≥ 2 then
    some (pyJoin " || " (arg_strs.map
      (fun a => "COALESCE(" ++ a ++ ", " ++ sqS ++ sqS ++ ")")))
  else if fu = "LENGTH" && n ≥ 1 then some ("LENGTH(" ++ a0 ++ ")")
  else if (fu = "UPPER" || fu = "UCASE") && n ≥ 1 then
    some ("UPPER(" ++ a0 ++ ")")
  else if (fu = "LOWER" || fu = "LCASE") && n ≥ 1 then
    some ("LOWER(" ++ a0 ++ ")")
  else if fu = "TRIM" && n ≥ 1 then some ("TRIM(" ++ a0 ++ ")")
  else if (fu = "ROUND" || fu = "CEIL" || fu = "FLOOR" || fu = "ABS") &&
      n ≥ 1 then
    some (fu ++ "(" ++ a0 ++ (if n > 1 then ", " ++ a1 else "") ++ ")")
  else if (fu = "COALESCE" || fu = "NVL" || fu = "IFNULL") && n ≥ 1 then
    some ("COALESCE(" ++ pyJoin ", " arg_strs ++ ")")
  else if fu = "TO_DATE" && n ≥ 1 then
    some ("TO_DATE(" ++ a0 ++ ", " ++
      (if n > 1 then a1 else sqS ++ "YYYYMMDD" ++ sqS) ++ ")")
  else if fu = "TO_TIMESTAMP" && n ≥ 1 then
    some ("TO_TIMESTAMP(" ++ a0 ++ (if n > 1 then ", " ++ a1 else "") ++ ")")
  else none

/-- `_translate_for_hana`: keep or version-adapt a function call for HANA.
In the source, the guard `version < HanaVersion.HANA_1_0` of the
`ADD_MONTHS` branch would execute `ctx.warnings.append` on a context object
that has no `warnings` attribute; that guard is unsatisfiable because
`"1.0"` is the lexicographically smallest enum value, so the write is
omitted here. -/
def translate_for_hana (func_name : String) (arg_strs : List String)
    (version : Option HanaVersion) : Option String :=
  let fu := pyUpper func_name
  let n := arg_strs.length
  let a0 := arg_strs.getD 0 "NULL"
  let a1 := arg_strs.getD 1 "NULL"
  let a2 := arg_strs.getD 2 "NULL"
  let modern := match version with
    | some v => v.ge .HANA_2_0
    | none => false
  if fu = "IF" && n ≥ 3 then
    some ("IF(" ++ a0 ++ ", " ++ a1 ++ ", " ++ a2 ++ ")")
  else if fu = "LEFTSTR" && modern && n ≥ 2 then
    some ("SUBSTRING(" ++ a0 ++ ", 1, " ++ a1 ++ ")")
  else if fu = "LEFTSTR" && n ≥ 1 then
    some ("LEFTSTR(" ++ pyJoin ", " arg_strs ++ ")")
  else if fu = "RIGHTSTR" && modern && n ≥ 2 then
    some ("RIGHT(" ++ a0 ++ ", " ++ a1 ++ ")")
  else if fu = "RIGHTSTR" && n ≥ 1 then
    some ("RIGHTSTR(" ++ pyJoin ", " arg_strs ++ ")")
  else if (fu = "CASE" || fu = "CASE_WHEN") && n ≥ 2 then
    some (caseBuild arg_strs)
  else if (fu = "SUBSTRING" || fu = "SUBSTR") && n ≥ 2 then
    some ("SUBSTRING(" ++ a0 ++ ", " ++ a1 ++
      (if n > 2 then ", " ++ a2 else "") ++ ")")
  else if (fu = "CONCAT" || fu = "CONCATENATE") && n ≥ 2 then
    some ("CONCAT(" ++ pyJoin ", " arg_strs ++ ")")
  else if fu = "LENGTH" && n ≥ 1 then some ("LENGTH(" ++ a0 ++ ")")
  else if (fu = "UPPER" || fu = "UCASE") && n ≥ 1 then
    some ("UPPER(" ++ a0 ++ ")")
  else if (fu = "LOWER" || fu = "LCASE") && n ≥ 1 then
    some ("LOWER(" ++ a0 ++ ")")
  else if fu = "TRIM" && n ≥ 1 then some ("TRIM(" ++ a0 ++ ")")
  else if (fu = "ROUND" || fu = "CEIL" || fu = "FLOOR" || fu = "ABS") &&
      n ≥ 1 then
    some (fu ++ "(" ++ a0 ++ (if n > 1 then ", " ++ a1 else "") ++ ")")
  else if (fu = "COALESCE" || fu = "NVL" || fu = "IFNULL") && n ≥ 1 then
    some ("COALESCE(" ++ pyJoin ", " arg_strs ++ ")")
  else if fu = "TO_DATE" && n ≥ 1 then
    some ("TO_DATE(" ++ a0 ++ ", " ++
      (if n > 1 then a1 else sqS ++ "YYYYMMDD" ++ sqS) ++ ")")
  else if fu = "TO_TIMESTAMP" && n ≥ 1 then
    some ("TO_TIMESTAMP(" ++ a0 ++ (if n > 1 then ", " ++ a1 else "") ++ ")")
  else if fu = "ADD_MONTHS" && n ≥ 2 then
    some ("ADD_MONTHS(" ++ a0 ++ ", " ++ a1 ++ ")")
  else none

/-- `translate_hana_function`: dispatch on the target database mode.
`arg_strs` are the argument expressions as rendered by the caller. -/
def translate_hana_function (func_name : String) (arg_strs : List String)
    (env : TransEnv) : Option String :=
  if env.database_mode = .HANA then
    translate_for_hana func_name arg_strs env.hana_version
  else
    translate_for_snowflake func_name arg_strs

/-- `translate_raw_formula`: the raw-formula translation pipeline. -/
def translate_raw_formula (formula : String) (env : TransEnv) : String :=
  if formula = "" then "NULL"
  else
    let result := substitute_placeholders_t formula env
    match env.database_mode with
    | .HANA =>
      let result := env.applyPatternRewrites .HANA result
      let result := env.applyCatalogRewrites result
      let result := normalize_isnull_calls result
      let result := uppercase_if_statements result
      let result := convert_in_function_to_operator result
      let result :=
        if (match env.hana_version with
            | some v => pyStartsWith v.value "1."
            | none => false) then
          convert_in_to_or_for_hana result
        else result
      let result := convert_if_to_case_for_hana result
      let result := translate_string_concat_to_hana result
      translate_column_references result
    | .SNOWFLAKE =>
      let result := env.applyPatternRewrites .SNOWFLAKE result
      let result := translate_if_statements result
      let result := env.applyCatalogRewrites result
      let result := translate_string_concatenation result
      translate_column_references result

/-! ## Render context (renderer.py, `RenderContext`) -/

/-- Python truthiness of an optional string (`None` and `""` are falsy). -/
def truthyStr : Option String → Bool
  | some s => s ≠ ""
  | none => false

/-- Python `a or b` on optional strings with a string fallback. -/
def orStr (a : Option String) (b : String) : String :=
  match a with
  | some s => if s = "" then b else s
  | none => b

/-- The render context.  The mutable Python attributes (`cte_aliases`,
`warnings`) are modelled by updating this record; `scenario` is carried
inside the record exactly as in the source, so that non-mutation of the IR
is a provable property rather than a modelling assumption.
`applyPatternRewrites`/`applyCatalogRewrites` abstract the external rule
catalogs (spec §6) and `get_package` abstracts the external package-path
lookup used for nested calculation views (spec §6). -/
structure RenderContext where
  scenario : Scenario
  schema_overrides : List (String × String)
  target_schema : Option String
  client : String
  language : String
  database_mode : DatabaseMode
  hana_version : Option HanaVersion
  xml_format : Option XMLFormat
  cte_aliases : List (String × String)
  warnings : List String
  currency_udf : Option String
  currency_schema : Option String
  currency_table : Option String
  applyPatternRewrites : DatabaseMode → String → String
  applyCatalogRewrites : String → String
  get_package : String → Option String

/-- `RenderContext.__init__`. -/
def RenderContext.init (scenario : Scenario)
    (schema_overrides : Option (List (String × String)) := none)
    (target_schema : Option String := none)
    (client : Option String := none)
    (language : Option String := none)
    (database_mode : DatabaseMode := .SNOWFLAKE)
    (hana_version : Option HanaVersion := none)
    (xml_format : Option XMLFormat := none)
    (currency_udf : Option String := none)
    (currency_schema : Option String := none)
    (currency_table : Option String := none)
    (applyPatternRewrites : DatabaseMode → String → String := fun _ s => s)
    (applyCatalogRewrites : String → String := fun s => s)
    (get_package : String → Option String := fun _ => none) : RenderContext :=
  { scenario := scenario
    schema_overrides := schema_overrides.getD []
    target_schema := target_schema
    client := orStr client (orStr scenario.metadata.default_client "PROD")
    language := orStr language (orStr scenario.metadata.default_language "EN")
    database_mode := database_mode
    hana_version := hana_version
    xml_format := xml_format
    cte_aliases := []
    warnings := []
    currency_udf := currency_udf
    currency_schema := currency_schema
    currency_table := currency_table
    applyPatternRewrites := applyPatternRewrites
    applyCatalogRewrites := applyCatalogRewrites
    get_package := get_package }

/-- The translator-environment view of a render context. -/
def RenderContext.transEnv (ctx : RenderContext) : TransEnv :=
  { client := ctx.client
    language := ctx.language
    database_mode := ctx.database_mode
    hana_version := ctx.hana_version
    applyPatternRewrites := ctx.applyPatternRewrites
    applyCatalogRewrites := ctx.applyCatalogRewrites }

/-- Append a warning (`ctx.warnings.append`). -/
def RenderContext.warn (ctx : RenderContext) (w : String) : RenderContext :=
  { ctx with warnings := ctx.warnings ++ [w] }

/-- Regex `^\d+/` removal (anchored, so at most the leading match). -/
def stripDigitSlashPrefix (s : String) : String :=
  let ds := s.data.takeWhile pyIsDigit
  if ds ≠ [] && nthc s.data ds.length = '/' then
    String.mk (s.data.drop (ds.length + 1))
  else s

/-- `RenderContext.get_cte_alias`: get or create a CTE alias for a node,
cleaning XML metadata prefixes and digit-slash prefixes first. -/
def RenderContext.get_cte_alias (ctx : RenderContext) (node_id : String) :
    RenderContext × String :=
  match alookup ctx.cte_aliases node_id with
  | some a => (ctx, a)
  | none =>
    let cleaned := clean_ref node_id
    let cleaned := stripDigitSlashPrefix cleaned
    let normalized :=
      pyReplace (pyReplace (pyLower cleaned) " " "_") "/" "_"
    ({ ctx with cte_aliases := ctx.cte_aliases ++ [(node_id, normalized)] },
      normalized)

/-- `RenderContext.resolve_schema`. -/
def RenderContext.resolve_schema (ctx : RenderContext) (schema_name : String) :
    String :=
  if truthyStr ctx.target_schema then ctx.target_schema.getD ""
  else (alookup ctx.schema_overrides schema_name).getD schema_name

/-! ## Identifier quoting (renderer.py) -/

/-- `_quote_identifier_part`. -/
def quote_identifier_part (name : String) : String :=
  if name = "" then "\"\""
  else if (match name.data.head? with
      | some c => pyIsAlpha c
      | none => false) && pyIsAlnumStr (pyReplace name "_" "") then
    pyUpper name
  else "\"" ++ name ++ "\""

/-- `_quote_identifier`: quote, preserving schema qualification (split on
the first dot). -/
def quote_identifier (name : String) : String :=
  if pyContains name "." then
    match pySplitStr name "." with
    | schema_part :: rest =>
      quote_identifier_part schema_part ++ "." ++
        quote_identifier_part (pyJoin "." rest)
    | [] => quote_identifier_part name
  else quote_identifier_part name

/-! ## Validators (xml_to_sql/sql/validator.py) -/

inductive ValidationSeverity where
  | ERROR
  | WARNING
  | INFO
deriving Repr, DecidableEq

def ValidationSeverity.upperName : ValidationSeverity → String
  | .ERROR => "ERROR"
  | .WARNING => "WARNING"
  | .INFO => "INFO"

structure ValidationIssue where
  severity : ValidationSeverity
  message : String
  code : String
  line_number : Option Nat := none
  column_number : Option Nat := none
deriving Repr, DecidableEq

/-- `ValidationIssue.__str__`. -/
def ValidationIssue.str (i : ValidationIssue) : String :=
  let location :=
    match i.line_number with
    | some n =>
      " (line " ++ toString n ++
        (match i.column_number with
         | some c => ", column " ++ toString c
         | none => "") ++ ")"
    | none => ""
  "[" ++ i.severity.upperName ++ "] " ++ i.code ++ ": " ++ i.message ++
    location

structure ValidationResult where
  errors : List ValidationIssue := []
  warnings : List ValidationIssue := []
  info : List ValidationIssue := []
deriving Repr, DecidableEq

def ValidationResult.has_errors (r : ValidationResult) : Bool :=
  r.errors.length > 0

def ValidationResult.add_error (r : ValidationResult) (message code : String)
    (line_number : Option Nat := none) : ValidationResult :=
  { r with errors := r.errors ++ [⟨.ERROR, message, code, line_number, none⟩] }

def ValidationResult.add_warning (r : ValidationResult)
    (message code : String) (line_number : Option Nat := none) :
    ValidationResult :=
  { r with
    warnings := r.warnings ++ [⟨.WARNING, message, code, line_number, none⟩] }

def ValidationResult.add_info (r : ValidationResult) (message code : String)
    (line_number : Option Nat := none) : ValidationResult :=
  { r with info := r.info ++ [⟨.INFO, message, code, line_number, none⟩] }

/-- Regex `(\w+)\s+AS\s*\(` (ci), the CTE-header pattern. -/
def reCteHeader : RE :=
  RE.cat [RE.grp 1 (RE.plus1 RE.wordC), RE.wsP, RE.istr "AS", RE.wsS,
    RE.ch '(']

/-- The duplicate-name scan of `validate_sql_structure`: for each position
`i`, report when `names[i]` already occurred. -/
def dupCteScan (names : List String) : List (Nat × String) :=
  ((names.zip (List.range names.length)).filter
    (fun p => (names.take p.2).contains p.1)).map (fun p => (p.2, p.1))

/-- `validate_sql_structure`: basic structural validation. -/
def validate_sql_structure (sql : String) : ValidationResult :=
  let result : ValidationResult := {}
  if sql = "" || pyStrip sql = "" then
    result.add_error "SQL is empty" "EMPTY_SQL"
  else
    let sql_upper := pyUpper sql
    let result :=
      if !pyContains sql_upper "SELECT" then
        result.add_error "SQL does not contain a SELECT statement"
          "NO_SELECT" (some 1)
      else result
    let open_parens := pyCountChar sql '('
    let close_parens := pyCountChar sql ')'
    let result :=
      if open_parens ≠ close_parens then
        result.add_error
          ("Unbalanced parentheses: " ++ toString open_parens ++
            " opening, " ++ toString close_parens ++ " closing")
          "UNBALANCED_PARENTHESES"
      else result
    let single_quotes :=
      pyCountChar sql sqC - pyCountSub sql (sqS ++ sqS) * 2
    let result :=
      if single_quotes % 2 ≠ 0 then
        result.add_warning "Possible unbalanced single quotes"
          "UNBALANCED_QUOTES"
      else result
    let result :=
      if pyContains sql_upper "WITH" then
        let cte_matches := reFindall1 reCteHeader sql
        let result :=
          if cte_matches.isEmpty then
            result.add_warning "WITH clause found but no CTEs with AS detected"
              "INVALID_CTE_STRUCTURE"
          else result
        let cte_names := cte_matches.map pyUpper
        let result := (dupCteScan cte_names).foldl
          (fun r p =>
            r.add_error ("Duplicate CTE name: " ++ p.2) "DUPLICATE_CTE"
              (some (p.1 + 1)))
          result
        let with_index := (pyFindFrom sql_upper "WITH" 0).getD 0
        let result :=
          match pyFindFrom sql_upper "SELECT" (with_index + 4) with
          | none =>
            result.add_error
              "WITH clause found but no SELECT statement after CTEs"
              "NO_SELECT_AFTER_CTE"
          | some _ => result
        result
      else result
    if pyCountSub sql_upper "SELECT" = 0 then
      result.add_error "No SELECT statement found" "NO_SELECT_STATEMENT"
    else result

/-- Regex `ON\s+1\s*=\s*1` (run on the uppercased SQL). -/
def reOnOneEqOne : RE :=
  RE.cat [RE.str "ON", RE.wsP, RE.str "1", RE.wsS, RE.ch '=', RE.wsS,
    RE.str "1"]

/-- Regex `SELECT\s+\*`. -/
def reSelectStar : RE := RE.cat [RE.str "SELECT", RE.wsP, RE.ch '*']

/-- `\bFROM\b`. -/
def reFromWord : RE := RE.cat [RE.bnd, RE.str "FROM", RE.bnd]

/-- `\bWHERE\b`. -/
def reWhereWord : RE := RE.cat [RE.bnd, RE.str "WHERE", RE.bnd]

/-- `\b<func>\s*\(`. -/
def reAggCall (func : String) : RE :=
  RE.cat [RE.bnd, RE.str func, RE.wsS, RE.ch '(']

/-- `validate_performance`: performance heuristics over the generated SQL. -/
def validate_performance (sql : String) (scenario : Scenario) :
    ValidationResult :=
  let result : ValidationResult := {}
  let sql_upper := pyUpper sql
  let result :=
    if reTest reOnOneEqOne sql_upper then
      result.add_warning
        "Cartesian product detected (JOIN ON 1=1) - may cause large result sets"
        "CARTESIAN_PRODUCT"
    else result
  let result :=
    if reTest reSelectStar sql_upper then
      if (match scenario.logical_model with
          | some lm => !lm.attributes.isEmpty
          | none => false) then
        result.add_warning
          "SELECT * used when explicit column list is available - consider using explicit columns"
          "SELECT_STAR_USAGE"
      else
        result.add_info
          "SELECT * used - consider explicit column list for better performance"
          "SELECT_STAR_USAGE"
    else result
  let from_count := reCount reFromWord sql_upper
  let where_count := reCount reWhereWord sql_upper
  let result :=
    if from_count > 0 && where_count = 0 then
      result.add_info
        "No WHERE clause found - consider adding filters for better performance"
        "MISSING_WHERE_CLAUSE"
    else result
  let agg_functions := ["COUNT", "SUM", "AVG", "MAX", "MIN", "STDDEV",
    "VARIANCE"]
  let has_agg := agg_functions.any (fun f => reTest (reAggCall f) sql_upper)
  let has_group_by := pyContains sql_upper "GROUP BY"
  if has_agg && !has_group_by && from_count > 1 then
    result.add_warning
      "Aggregation functions used without GROUP BY on multiple tables - verify correctness"
      "AGGREGATION_WITHOUT_GROUPBY"
  else result

/-- `\(\s*SELECT\s+`. -/
def reSubquery : RE :=
  RE.cat [RE.ch '(', RE.wsS, RE.str "SELECT", RE.wsP]

/-- `\bJOIN\b`. -/
def reJoinWord : RE := RE.cat [RE.bnd, RE.str "JOIN", RE.bnd]

/-- `analyze_query_complexity`: informational complexity thresholds. -/
def analyze_query_complexity (sql : String) (scenario : Scenario) :
    ValidationResult :=
  let result : ValidationResult := {}
  let cte_count := reCount reCteHeader sql
  let result :=
    if cte_count > 20 then
      result.add_warning
        ("High CTE count (" ++ toString cte_count ++
          ") - consider breaking into views for better maintainability")
        "HIGH_CTE_COUNT"
    else if cte_count > 10 then
      result.add_info
        ("Moderate CTE count (" ++ toString cte_count ++
          ") - query may benefit from view decomposition")
        "MODERATE_CTE_COUNT"
    else result
  let join_count := reCount reJoinWord (pyUpper sql)
  let result :=
    if join_count > 10 then
      result.add_warning
        ("High JOIN count (" ++ toString join_count ++
          ") - consider query optimization")
        "HIGH_JOIN_COUNT"
    else if join_count > 5 then
      result.add_info
        ("Moderate JOIN count (" ++ toString join_count ++
          ") - verify query performance")
        "MODERATE_JOIN_COUNT"
    else result
  let subquery_count := reCount reSubquery (pyUpper sql)
  let result :=
    if subquery_count > 5 then
      result.add_warning
        ("High subquery count (" ++ toString subquery_count ++
          ") - consider using CTEs or joins")
        "HIGH_SUBQUERY_COUNT"
    else result
  let node_count := scenario.nodes.length
  if node_count > 15 then
    result.add_info
      ("Complex scenario with " ++ toString node_count ++
        " nodes - verify conversion correctness")
      "COMPLEX_SCENARIO"
  else result

/-- The Snowflake reserved-keyword set of the validator. -/
def SNOWFLAKE_RESERVED_KEYWORDS : List String :=
  ["ACCOUNT", "ADMIN", "ALL", "ALTER", "AND", "ANY", "AS", "BETWEEN",
   "BY", "CASE", "CAST", "CHECK", "COLUMN", "CONNECT", "CONNECTION",
   "CONSTRAINT", "CREATE", "CROSS", "CURRENT", "CURRENT_DATE",
   "CURRENT_TIME", "CURRENT_TIMESTAMP", "CURRENT_USER", "DATABASE",
   "DELETE", "DISTINCT", "DROP", "ELSE", "END", "EXISTS", "FALSE",
   "FOLLOWING", "FOR", "FOREIGN", "FROM", "FULL", "FUNCTION", "GRANT",
   "GROUP", "GROUPING", "HAVING", "ILIKE", "IN", "INNER", "INSERT",
   "INTERSECT", "INTO", "IS", "ISSUE", "JOIN", "LATERAL", "LEFT",
   "LIKE", "LOCALTIME", "LOCALTIMESTAMP", "MINUS", "NATURAL", "NOT",
   "NULL", "NULLS", "OF", "ON", "OR", "ORDER", "ORGANIZATION",
   "OUTER", "OVER", "PARTITION", "PRECEDING", "PRIMARY", "QUALIFY",
   "REFERENCES", "REVOKE", "RIGHT", "RLIKE", "ROW", "ROWS", "SAMPLE",
   "SCHEMA", "SELECT", "SET", "SOME", "START", "TABLE", "TABLESAMPLE",
   "THEN", "TO", "TRIGGER", "TRUE", "TRY_CAST", "UNION", "UNIQUE",
   "UPDATE", "USING", "VALUES", "VIEW", "WHEN", "WHENEVER", "WHERE", "WITH"]

/-- `[A-Z_]`. -/
def clsUpper1 : RE := RE.cls isUpperOrUnderscore

/-- `[A-Z0-9_]*`. -/
def clsUpperRest : RE :=
  RE.star (RE.cls (fun c => isUpperOrUnderscore c || pyIsDigit c))

/-- `([A-Z_][A-Z0-9_]*)` as group 1. -/
def grpIdentifier : RE := RE.grp 1 (RE.cat [clsUpper1, clsUpperRest])

/-- The eleven identifier-context patterns of `validate_snowflake_specific`,
in source order. -/
def identifierContexts : List RE :=
  [RE.cat [RE.str "SELECT", RE.wsP, grpIdentifier, RE.wsP, RE.str "AS"],
   RE.cat [RE.str "SELECT", RE.wsP, grpIdentifier, RE.wsS, RE.ch ','],
   RE.cat [RE.str "SELECT", RE.wsP, grpIdentifier, RE.wsP, RE.str "FROM"],
   RE.cat [RE.str "FROM", RE.wsP, grpIdentifier, RE.wsP,
     RE.alts [RE.str "WHERE", RE.str "JOIN", RE.str "GROUP", RE.str "ORDER",
       RE.eos]],
   RE.cat [RE.str "JOIN", RE.wsP, grpIdentifier, RE.wsP,
     RE.alts [RE.str "ON", RE.str "WHERE", RE.eos]],
   RE.cat [RE.str "AS", RE.wsP, grpIdentifier, RE.wsS,
     RE.alts [RE.ch ',', RE.ch '(', RE.eos]],
   RE.cat [RE.str "GROUP", RE.wsP, RE.str "BY", RE.wsP, grpIdentifier,
     RE.wsS, RE.alts [RE.ch ',', RE.eos]],
   RE.cat [RE.str "ORDER", RE.wsP, RE.str "BY", RE.wsP, grpIdentifier,
     RE.wsS, RE.alts [RE.ch ',', RE.eos]],
   RE.cat [RE.str "WHERE", RE.wsP, grpIdentifier, RE.wsS,
     RE.cls (fun c => c = '=' || c = '<' || c = '>' || c = '!')],
   RE.cat [RE.ch '.', grpIdentifier, RE.wsS,
     RE.alts [RE.ch ',', RE.eos, RE.str "AS", RE.str "FROM", RE.str "WHERE",
       RE.str "JOIN", RE.str "GROUP", RE.str "ORDER"]],
   RE.cat [RE.ch '.', grpIdentifier, RE.wsS,
     RE.cls (fun c => c = '=' || c = '<' || c = '>' || c = '!')]]

/-- Keywords that `validate_snowflake_specific` never flags. -/
def excludedKeywords : List String :=
  ["NULL", "TRUE", "FALSE", "CURRENT_DATE", "CURRENT_TIME",
   "CURRENT_TIMESTAMP"]

/-- All matches of a pattern with absolute positions
(`re.finditer` semantics): `(start, end, caps)`. -/
def reFinditerAbs (re : RE) (s : String) : List (Nat × Nat × Caps) :=
  let rec go (fuel pos : Nat) (acc : List (Nat × Nat × Caps)) :
      List (Nat × Nat × Caps) :=
    match fuel with
    | 0 => acc.reverse
    | fuel + 1 =>
      if pos > s.length then acc.reverse
      else
        match reSearchFrom re s pos with
        | none => acc.reverse
        | some m =>
          let st := m.pre.length
          let en := st + m.matched.length
          let acc2 := (st, en, m.caps) :: acc
          if en = st then go fuel (en + 1) acc2 else go fuel en acc2
  go (s.length + 2) 0 []

/-- The `IS`/`IS NOT` context guard: `\b(IS|IS\s+NOT)\s+$` searched in the
ten characters before an identifier occurrence. -/
def reIsNotGuard : RE :=
  RE.cat [RE.bnd,
    RE.grp 1 (RE.alt (RE.str "IS")
      (RE.cat [RE.str "IS", RE.wsP, RE.str "NOT"])), RE.wsP, RE.eos]

/-- Add to an ordered set (first occurrence kept). -/
def setAdd (l : List String) (x : String) : List String :=
  if l.contains x then l else l ++ [x]

/-- The identifier collection of `validate_snowflake_specific`: run every
context pattern over the uppercased SQL, keep matches whose group is a
non-excluded reserved keyword and is not preceded by `IS`/`IS NOT`.
The Python set is modelled as a list ordered by first insertion. -/
def collectReservedIdentifiers (sql_upper : String) : List String :=
  let fromContexts := identifierContexts.foldl
    (fun acc pat =>
      (reFinditerAbs pat sql_upper).foldl
        (fun acc m =>
          let identifier := String.mk (capGet m.2.2 1)
          if !excludedKeywords.contains identifier &&
              SNOWFLAKE_RESERVED_KEYWORDS.contains identifier then
            let st := m.1
            let context_before :=
              String.mk (sliceL sql_upper.data (st - min st 10) st)
            if !(reTest reIsNotGuard context_before) then
              setAdd acc identifier
            else acc
          else acc)
        acc)
    []
  (reFinditerAbs (RE.cat [RE.str "WITH", RE.wsP, grpIdentifier, RE.wsP,
      RE.str "AS", RE.wsS, RE.ch '(']) sql_upper).foldl
    (fun acc m =>
      let identifier := String.mk (capGet m.2.2 1)
      if SNOWFLAKE_RESERVED_KEYWORDS.contains identifier then
        setAdd acc identifier
      else acc)
    fromContexts

/-- `\b([A-Z_][A-Z0-9_]{255,})\b`. -/
def reLongIdentifier : RE :=
  RE.cat [RE.bnd, clsUpper1,
    RE.rep 255 none false
      (RE.cls (fun c => isUpperOrUnderscore c || pyIsDigit c)), RE.bnd]

/-- `FROM\s+([A-Z_][A-Z0-9_]*)`. -/
def reFromTable : RE := RE.cat [RE.str "FROM", RE.wsP, grpIdentifier]

/-- `IFF\s*\([^)]*\)` (ci). -/
def reIffCall : RE :=
  RE.cat [RE.istr "IFF", RE.wsS, RE.ch '(',
    RE.star (RE.cls (fun c => c ≠ ')')), RE.ch ')']

/-- `(['\"][^'\"]*['\"])\s*\+\s*(['\"][^'\"]*['\"])`. -/
def reStringConcatPlus : RE :=
  let q := RE.cls isQuoteChar
  let nq := RE.star (RE.cls (fun c => !isQuoteChar c))
  RE.cat [RE.grp 1 (RE.cat [q, nq, q]), RE.wsS, RE.ch '+', RE.wsS,
    RE.grp 2 (RE.cat [q, nq, q])]

/-- `\bIF\s*\([^)]+,\s*[^)]+,\s*[^)]+\)` (ci). -/
def reHanaIfCall : RE :=
  let np := RE.plus1 (RE.cls (fun c => c ≠ ')'))
  RE.cat [RE.bnd, RE.istr "IF", RE.wsS, RE.ch '(', np, RE.ch ',', RE.wsS,
    np, RE.ch ',', RE.wsS, np, RE.ch ')']

/-- `::\s*[A-Z_][A-Z0-9_]*`. -/
def reTypeCast : RE :=
  RE.cat [RE.str "::", RE.wsS, clsUpper1, clsUpperRest]

/-- `\b(1|0)\s*(?:=|\!=|<>)\s*(?:TRUE|FALSE)`. -/
def reBooleanNumeric : RE :=
  RE.cat [RE.bnd, RE.grp 1 (RE.alt (RE.str "1") (RE.str "0")), RE.wsS,
    RE.alts [RE.str "=", RE.str "!=", RE.str "<>"], RE.wsS,
    RE.alts [RE.str "TRUE", RE.str "FALSE"]]

/-- `WITH\s+RECURSIVE`. -/
def reWithRecursive : RE := RE.cat [RE.str "WITH", RE.wsP, RE.str "RECURSIVE"]

/-- `CREATE\s+(?:OR\s+REPLACE\s+)?VIEW\s+(\w+)`. -/
def reCreateView : RE :=
  RE.cat [RE.str "CREATE", RE.wsP,
    RE.opt (RE.cat [RE.str "OR", RE.wsP, RE.str "REPLACE", RE.wsP]),
    RE.str "VIEW", RE.wsP, RE.grp 1 (RE.plus1 RE.wordC)]

/-- `\b<join_type>\s+JOIN`. -/
def reJoinOfType (jt : String) : RE :=
  RE.cat [RE.bnd, RE.str jt, RE.wsP, RE.str "JOIN"]

/-- `LATERAL\s+(?:FLATTEN|TABLE)`. -/
def reLateralUse : RE :=
  RE.cat [RE.str "LATERAL", RE.wsP,
    RE.alt (RE.str "FLATTEN") (RE.str "TABLE")]

/-- `\bSUBSTRING\s*\(` (ci). -/
def reSubstringCall : RE :=
  RE.cat [RE.bnd, RE.istr "SUBSTRING", RE.wsS, RE.ch '(']

/-- `\bTO_DATE\s*\([^)]*\)` (ci). -/
def reToDateCall : RE :=
  RE.cat [RE.bnd, RE.istr "TO_DATE", RE.wsS, RE.ch '(',
    RE.star (RE.cls (fun c => c ≠ ')')), RE.ch ')']

/-- `SAMPLE\s+(?:ROW|BLOCK|SYSTEM)\s*\([^)]+\)`. -/
def reSampleClause : RE :=
  RE.cat [RE.str "SAMPLE", RE.wsP,
    RE.alts [RE.str "ROW", RE.str "BLOCK", RE.str "SYSTEM"], RE.wsS,
    RE.ch '(', RE.plus1 (RE.cls (fun c => c ≠ ')')), RE.ch ')']

/-- `validate_snowflake_specific`: Snowflake syntax and dialect checks. -/
def validate_snowflake_specific (sql : String) : ValidationResult :=
  let result : ValidationResult := {}
  let sql_upper := pyUpper sql
  -- 1. Identifier validation
  let found_identifiers := collectReservedIdentifiers sql_upper
  let result := found_identifiers.foldl
    (fun r identifier =>
      r.add_warning
        ("Reserved keyword " ++ sqS ++ identifier ++ sqS ++
          " used as identifier - should be quoted")
        "RESERVED_KEYWORD_AS_IDENTIFIER")
    result
  let result :=
    if reTest reLongIdentifier sql_upper then
      result.add_warning
        "Unquoted identifier exceeds 255 characters - should be quoted"
        "IDENTIFIER_TOO_LONG"
    else result
  -- 2. Schema/table naming
  let result := (reFinditerAbs reFromTable sql_upper).foldl
    (fun r m =>
      let table_name := String.mk (capGet m.2.2 1)
      let g0 := String.mk (sliceL sql_upper.data m.1 m.2.1)
      if !SNOWFLAKE_RESERVED_KEYWORDS.contains table_name &&
          !pyContains g0 "." then
        r.add_info
          ("Unqualified table reference " ++ sqS ++ table_name ++ sqS ++
            " - consider using schema.table format")
          "UNQUALIFIED_TABLE_REFERENCE"
      else r)
    result
  -- 3. Snowflake function syntax
  let result := (reFinditerAbs reIffCall sql).foldl
    (fun r m =>
      let g0 := String.mk (sliceL sql.data m.1 m.2.1)
      if pyCountChar g0 ',' ≠ 2 then
        r.add_warning
          "IFF() function should have 3 parameters (condition, then, else)"
          "INVALID_IFF_SYNTAX"
      else r)
    result
  let result :=
    if reTest reStringConcatPlus sql then
      result.add_warning
        ("String concatenation using " ++ sqS ++ "+" ++ sqS ++
          " operator - should use " ++ sqS ++ "||" ++ sqS ++ " in Snowflake")
        "STRING_CONCAT_PLUS"
    else result
  let result :=
    if reTest reHanaIfCall sql then
      result.add_warning
        "HANA IF() function detected - should be translated to IFF() for Snowflake"
        "HANA_IF_NOT_TRANSLATED"
    else result
  -- 4. Data types
  let result := (reFinditerAbs reTypeCast sql_upper).foldl
    (fun r m =>
      let g0 := String.mk (sliceL sql_upper.data m.1 m.2.1)
      let type_name := pyStrip (String.mk (g0.data.drop 2))
      if (type_name = "CHAR" || type_name = "VARCHAR") &&
          !pyContains g0 "(" then
        r.add_warning
          ("Type casting to " ++ type_name ++ " without length specification")
          "TYPE_CAST_WITHOUT_LENGTH"
      else r)
    result
  let result :=
    if reTest reBooleanNumeric sql_upper then
      result.add_warning
        "Boolean comparison with numeric values - use TRUE/FALSE instead of 1/0"
        "BOOLEAN_NUMERIC_COMPARISON"
    else result
  -- 5. CTE structure
  let cte_count := reCount reCteHeader sql
  let result :=
    if cte_count > 100 then
      result.add_error
        ("CTE count (" ++ toString cte_count ++
          ") exceeds Snowflake limit of 100")
        "CTE_COUNT_EXCEEDED"
    else if cte_count > 20 then
      result.add_warning
        ("High CTE count (" ++ toString cte_count ++
          ") - consider breaking into views for better maintainability")
        "HIGH_CTE_COUNT"
    else result
  let result :=
    if pyContains sql_upper "RECURSIVE" && pyContains sql_upper "WITH" &&
        !reTest reWithRecursive sql_upper then
      result.add_warning
        "RECURSIVE keyword found but not in WITH RECURSIVE clause"
        "INVALID_RECURSIVE_CTE"
    else result
  -- 6. View creation
  let result :=
    if pyContains sql_upper "CREATE" && pyContains sql_upper "VIEW" then
      match reSearch reCreateView sql_upper with
      | some m =>
        let view_name := String.mk (capGet m.caps 1)
        if SNOWFLAKE_RESERVED_KEYWORDS.contains (pyUpper view_name) then
          result.add_error
            ("View name " ++ sqS ++ view_name ++ sqS ++
              " is a reserved keyword - must be quoted")
            "VIEW_NAME_RESERVED_KEYWORD"
        else result
      | none => result
    else result
  -- 7. JOIN syntax
  let join_types := ["INNER", "LEFT", "RIGHT", "FULL", "OUTER", "CROSS"]
  let result := join_types.foldl
    (fun r jt =>
      if reTest (reJoinOfType jt) sql_upper then
        if jt ≠ "CROSS" then
          (reFinditerAbs (reJoinOfType jt) sql_upper).foldl
            (fun r m =>
              let after_join :=
                String.mk (sliceL sql_upper.data m.2.1 (m.2.1 + 50))
              if !pyContains after_join "ON" then
                r.add_warning (jt ++ " JOIN without ON clause")
                  "JOIN_WITHOUT_ON"
              else r)
            r
        else r
      else r)
    result
  let result :=
    if pyContains sql_upper "LATERAL" && !reTest reLateralUse sql_upper then
      result.add_info
        "LATERAL keyword found - ensure proper usage with FLATTEN or TABLE functions"
        "LATERAL_JOIN_USAGE"
    else result
  -- 8. HANA-to-Snowflake compatibility
  let result :=
    if reTest reSubstringCall sql then
      result.add_info
        "SUBSTRING() function - verify parameter count (Snowflake uses 1-based indexing)"
        "HANA_FUNCTION_CHECK"
    else result
  let result :=
    if reTest reToDateCall sql then
      result.add_info
        "TO_DATE() function - verify date format string"
        "HANA_FUNCTION_CHECK"
    else result
  -- 10. Mixed statement types
  let ddl_keywords := ["CREATE", "ALTER", "DROP", "INSERT", "UPDATE",
    "DELETE", "TRUNCATE"]
  let has_select := pyContains sql_upper "SELECT"
  let has_ddl := ddl_keywords.any (fun kw => pyContains sql_upper kw)
  let result :=
    if has_select && has_ddl then
      result.add_warning
        "DDL/DML statements mixed with SELECT - ensure proper statement separation"
        "MIXED_STATEMENT_TYPES"
    else result
  -- 11. Performance-specific clauses
  let result :=
    if pyContains sql_upper "SAMPLE" && !reTest reSampleClause sql_upper then
      result.add_warning
        "SAMPLE clause found - verify syntax (SAMPLE ROW/BLOCK/SYSTEM)"
        "SAMPLE_CLAUSE_SYNTAX"
    else result
  if pyContains sql_upper "QUALIFY" &&
      !pyContains sql_upper "ROW_NUMBER" && !pyContains sql_upper "RANK" then
    result.add_info
      "QUALIFY clause found - typically used with window functions"
      "QUALIFY_CLAUSE_USAGE"
  else result

/-- `FROM\s+(\w+)` (ci). -/
def reFromRef : RE :=
  RE.cat [RE.istr "FROM", RE.wsP, RE.grp 1 (RE.plus1 RE.wordC)]

/-- `JOIN\s+(\w+)` (ci). -/
def reJoinRef : RE :=
  RE.cat [RE.istr "JOIN", RE.wsP, RE.grp 1 (RE.plus1 RE.wordC)]

/-- `validate_query_completeness`: reference completeness checks.  The two
Python sets (`all_cte_names`, `referenced_ctes`) are modelled as lists with
membership tests; `referenced_ctes` is iterated in first-insertion order. -/
def validate_query_completeness (scenario : Scenario) (sql : String)
    (ctx : RenderContext) : ValidationResult :=
  let result : ValidationResult := {}
  let cte_names_in_sql := (reFindall1 reCteHeader sql).map pyUpper
  let cte_aliases_from_ctx := ctx.cte_aliases.map (fun p => pyUpper p.2)
  let all_cte_names := cte_names_in_sql ++ cte_aliases_from_ctx
  let result := ctx.cte_aliases.foldl
    (fun r p =>
      let node_id := p.1
      if !amem scenario.nodes node_id && !amem scenario.data_sources node_id
      then
        r.add_error ("Node " ++ node_id ++
          " referenced but not found in scenario") "MISSING_NODE"
      else r)
    result
  let fromRefs := (reFinditerAbs reFromRef sql).map
    (fun m => pyUpper (String.mk (capGet m.2.2 1)))
  let joinRefs := (reFinditerAbs reJoinRef sql).map
    (fun m => pyUpper (String.mk (capGet m.2.2 1)))
  let referenced_ctes :=
    (fromRefs.filter (fun r => !pyContains r ".") ++
      joinRefs.filter (fun r => !pyContains r ".")).foldl setAdd []
  let result := referenced_ctes.foldl
    (fun r ref_cte =>
      if !all_cte_names.contains ref_cte then
        let is_data_source := scenario.data_sources.any
          (fun p => pyUpper p.2.object_name = ref_cte)
        if !is_data_source then
          r.add_warning ("CTE " ++ ref_cte ++
            " referenced in FROM/JOIN but not defined")
            "UNDEFINED_CTE_REFERENCE"
        else r
      else r)
    result
  let result := scenario.data_sources.foldl
    (fun r p =>
      let r :=
        if p.2.schema_name = "" || pyStrip p.2.schema_name = "" then
          r.add_warning ("Data source " ++ p.1 ++ " has empty schema name")
            "EMPTY_SCHEMA_NAME"
        else r
      if p.2.object_name = "" || pyStrip p.2.object_name = "" then
        r.add_warning ("Data source " ++ p.1 ++ " has empty object name")
          "EMPTY_OBJECT_NAME"
      else r)
    result
  if scenario.nodes.length > 0 then
    let final_node_id := (scenario.nodes.map (fun p => p.1)).find?
      (fun node_id =>
        !scenario.nodes.any (fun q => q.2.inputs.contains node_id))
    match final_node_id with
    | none =>
      result.add_warning "Could not determine final node in scenario"
        "NO_FINAL_NODE"
    | some _ => result
  else result

/-! ## WHERE-clause parameter cleanup (renderer.py,
`_cleanup_hana_parameter_conditions`) -/

/-- Anchored `re.match` at the start of a string. -/
def reMatchStart (re : RE) (s : String) : Option (Nat × Caps) :=
  match reMatchAt re none s.data with
  | some (rest, caps) => some (s.length - rest.length, caps)
  | none => none

/-- The quote character as a one-element regex. -/
def reQ : RE := RE.ch sqC

/-- `\((?:''|'''')\s*=\s*'[^']*'\s+OR\s+` (ci). -/
def reChpTrigger : RE :=
  RE.cat [RE.ch '(',
    RE.alt (RE.cat [reQ, reQ]) (RE.cat [reQ, reQ, reQ, reQ]), RE.wsS,
    RE.ch '=', RE.wsS, reQ, RE.star (RE.cls (fun c => c ≠ sqC)), reQ,
    RE.wsP, RE.istr "OR", RE.wsP]

/-- Forward scan of the first cleanup loop: find the index just past the
parenthesis balancing the clause opened at the trigger (depth starts 1),
with the joint quote flag and escape test. -/
def chpCloseScan (s : List Char) : List Char → Nat → Bool → Int →
    Option Nat
  | [], _, _, _ => none
  | c :: cs, i, inq, depth =>
    let escOk := i = 0 || nthc s (i - 1) ≠ bsl
    let inq2 := if isQuoteChar c && escOk then !inq else inq
    let depth2 :=
      if !inq2 then
        if c = '(' then depth + 1 else if c = ')' then depth - 1 else depth
      else depth
    if depth2 = 0 then some (i + 1)
    else chpCloseScan s cs (i + 1) inq2 depth2

/-- `\s+AND\s*$` (ci). -/
def reAndAtEnd : RE := RE.cat [RE.wsP, RE.istr "AND", RE.wsS, RE.eos]

/-- `\s+AND\s+` (ci), used with `re.match`. -/
def reAndAtStart : RE := RE.cat [RE.wsP, RE.istr "AND", RE.wsP]

/-- The always-true parameter-condition removal loop (bounded at 20). -/
def chpTriggerLoop : Nat → String → String
  | 0, result => result
  | n + 1, result =>
    match reSearch reChpTrigger result with
    | none => result
    | some m =>
      let clause_start := m.pre.length
      let scan_start := clause_start + m.matched.length
      match chpCloseScan result.data (sliceFrom result.data scan_start)
          scan_start false 1 with
      | none => result
      | some clause_end =>
        let before := String.mk (result.data.take clause_start)
        let start :=
          match reSearch reAndAtEnd before with
          | some mb => clause_start - mb.matched.length
          | none => clause_start
        let after := String.mk (sliceFrom result.data clause_end)
        let endPos :=
          match reMatchStart reAndAtStart after with
          | some (e, _) => clause_end + e
          | none => clause_end
        chpTriggerLoop n
          (String.mk (result.data.take start) ++
            String.mk (sliceFrom result.data endPos))

/-- `\$\$[^$]+\$\$`. -/
def reAnyParam : RE :=
  RE.cat [RE.str "$$", RE.plus1 (RE.cls (fun c => c ≠ '$')), RE.str "$$"]

/-- Backward scan of the BUG-026 block: find the parenthesis opening the
clause around a `$$...$$` parameter (no quote tracking; the scan keeps the
parameter position when it finds nothing). -/
def chpParamBackScan (s : List Char) (paramPos : Nat) :
    Nat → Int → Nat
  | i, depth =>
    let c := nthc s i
    if c = ')' then
      match i with
      | 0 => paramPos
      | i + 1 => chpParamBackScan s paramPos i (depth + 1)
    else if c = '(' then
      if depth = 0 then i
      else
        match i with
        | 0 => paramPos
        | i + 1 => chpParamBackScan s paramPos i (depth - 1)
    else
      match i with
      | 0 => paramPos
      | i + 1 => chpParamBackScan s paramPos i depth

/-- Forward scan of the BUG-026 block: find the index just past the
parenthesis closing the clause (quote flag with escape test; keeps the
parameter position when nothing is found). -/
def chpParamFwdScan (s : List Char) (dflt : Nat) : List Char → Nat → Bool →
    Int → Nat
  | [], _, _, _ => dflt
  | c :: cs, i, inq, depth =>
    let escOk := i = 0 || nthc s (i - 1) ≠ bsl
    let inq2 := if isQuoteChar c && escOk then !inq else inq
    if !inq2 && c = '(' then chpParamFwdScan s dflt cs (i + 1) inq2 (depth + 1)
    else if !inq2 && c = ')' then
      if depth = 0 then i + 1
      else chpParamFwdScan s dflt cs (i + 1) inq2 (depth - 1)
    else chpParamFwdScan s dflt cs (i + 1) inq2 depth

/-- `\s+(AND|OR)\s*$` (ci). -/
def reAndOrAtEnd : RE :=
  RE.cat [RE.wsP, RE.grp 1 (RE.alt (RE.istr "AND") (RE.istr "OR")), RE.wsS,
    RE.eos]

/-- `\s+(AND|OR)\s+` (ci), used with `re.match`. -/
def reAndOrAtStart : RE :=
  RE.cat [RE.wsP, RE.grp 1 (RE.alt (RE.istr "AND") (RE.istr "OR")), RE.wsP]

/-- The BUG-026 unsubstituted-parameter removal loop (bounded at 20). -/
def chpParamLoop : Nat → String → String
  | 0, result => result
  | n + 1, result =>
    match reSearch reAnyParam result with
    | none => result
    | some m =>
      let param_pos := m.pre.length
      let clause_start :=
        if param_pos = 0 then param_pos
        else chpParamBackScan result.data param_pos (param_pos - 1) 0
      let clause_end := chpParamFwdScan result.data param_pos
        (sliceFrom result.data param_pos) param_pos false 0
      let before := String.mk (result.data.take clause_start)
      let after := String.mk (sliceFrom result.data clause_end)
      let start :=
        match reSearch reAndOrAtEnd before with
        | some mb => clause_start - mb.matched.length
        | none => clause_start
      let endPos :=
        match reMatchStart reAndOrAtStart after with
        | some (e, _) => clause_end + e
        | none => clause_end
      chpParamLoop n
        (String.mk (result.data.take start) ++
          String.mk (sliceFrom result.data endPos))

/-- Trailing-parenthesis trimming of the final balance fix. -/
def chpTrimCloseParens : Nat → String → String
  | 0, result => result
  | n + 1, result =>
    let result := pyRstrip result
    if pyEndsWith result ")" then
      chpTrimCloseParens n (String.mk (result.data.take (result.length - 1)))
    else chpTrimCloseParens n result

/-- `[<>=!]`. -/
def clsCmpBang : RE :=
  RE.cls (fun c => c = '<' || c = '>' || c = '=' || c = '!')

/-- `['\"]` (single or double quote). -/
def clsQuote : RE := RE.cls isQuoteChar

/-- `_cleanup_hana_parameter_conditions`: the WHERE-clause cleanup cascade
for HANA mode, transcribed substitution by substitution from the source. -/
def cleanup_hana_parameter_conditions (where_clause : String) : String :=
  let result := where_clause
  let result := chpTriggerLoop 20 result
  -- Uppercase AND keywords
  let result := csub (RE.cat [RE.bnd, RE.istr "and", RE.bnd]) "AND" result
  -- Fix NOW() spelling
  let result := csub
    (RE.cat [RE.bnd, RE.istr "now", RE.bnd, RE.la true (RE.ch '(')])
    "NOW()" result
  let result := csub
    (RE.cat [RE.bnd, RE.istr "now", RE.str "()"]) "NOW()" result
  -- Normalise spacing of literal comparisons
  let result := csub
    (RE.cat [reQ, reQ, RE.wsS, RE.ch '=', RE.wsS, reQ, reQ])
    (sqS ++ sqS ++ " = " ++ sqS ++ sqS) result
  -- Move trailing AND to the next line
  let result := csub
    (RE.cat [RE.ch ')', RE.wsP, RE.str "AND", RE.wsS, RE.ch (Char.ofNat 10),
      RE.wsP])
    (")" ++ String.mk [Char.ofNat 10] ++ "    AND ") result
  -- Double AND
  let result := csub
    (RE.cat [RE.wsP, RE.istr "AND", RE.wsP, RE.istr "AND", RE.wsP])
    " AND " result
  -- Orphaned AND at the very start and end
  let result := csub (RE.cat [RE.bos, RE.wsS, RE.istr "AND", RE.wsP])
    "" result
  let result := csub (RE.cat [RE.wsP, RE.istr "AND", RE.wsS, RE.eos])
    "" result
  -- Orphaned AND before a closing parenthesis
  let result := csub
    (RE.cat [RE.bnd, RE.istr "and", RE.wsS, RE.star RE.wsp, RE.ch ')'])
    ")" result
  -- Adjacent parenthesis pairs
  let result := csub (RE.cat [RE.ch ')', RE.wsS, RE.ch '(']) ") AND ("
    result
  -- Malformed DATE comparisons
  let result := csub
    (RE.cat [RE.ch ')', RE.wsS, RE.plus1 clsCmpBang, RE.wsS,
      RE.istr "DATE", RE.wsS, RE.ch '(', RE.wsS, reQ, reQ, RE.wsS,
      RE.ch ')', RE.wsS, RE.ch ')'])
    ")" result
  let result := csub
    (RE.cat [RE.wsP, RE.plus1 clsCmpBang, RE.wsS, RE.istr "DATE", RE.wsS,
      RE.ch '(', RE.wsS, reQ, reQ, RE.wsS, RE.ch ')', RE.wsS, RE.ch ')'])
    ")" result
  let result := csub
    (RE.cat [RE.ch ')', RE.wsS, RE.ch ')', RE.wsS,
      RE.cls (fun c => c = '<' || c = '>' || c = '=')])
    ") " result
  let result := csub
    (RE.cat [RE.ch '(', RE.wsS, RE.ch '(', RE.wsS, reQ, reQ, RE.wsS,
      RE.ch '=', RE.wsS, RE.star (RE.cls (fun c => c ≠ ')')), RE.ch ')',
      RE.wsS, RE.ch ')'])
    "" result
  let result := csub
    (RE.cat [RE.wsP, RE.istr "AND", RE.wsP, RE.ch '(', RE.wsS, RE.ch ')'])
    "" result
  -- BUG-019: simplify always-true CASE WHEN inside REGEXP_LIKE
  let result := reSub
    (RE.cat [RE.istr "CASE", RE.wsP, RE.istr "WHEN", RE.wsP,
      RE.alt (RE.cat [reQ, reQ]) (RE.cat [reQ, reQ, reQ, reQ]), RE.wsS,
      RE.ch '=', RE.wsS, reQ, reQ, RE.wsP, RE.istr "THEN", RE.wsP, reQ,
      RE.grp 1 (RE.star (RE.cls (fun c => c ≠ sqC))), reQ, RE.wsP,
      RE.istr "ELSE", RE.wsP, RE.rep 0 none true (RE.cls (fun _ => true)),
      RE.istr "END"])
    (fun m => (sqS ++ String.mk (capGet m.caps 1) ++ sqS).data) result
  -- Remove wildcard REGEXP_LIKE filters
  let result := csub
    (RE.cat [RE.istr "REGEXP_LIKE", RE.wsS, RE.ch '(',
      RE.plus1 (RE.cls (fun c => c ≠ ',')), RE.ch ',', RE.wsS, reQ,
      RE.ch '*', reQ, RE.wsS, RE.ch ')', RE.wsP, RE.istr "AND", RE.wsP])
    "" result
  let result := csub
    (RE.cat [RE.wsP, RE.istr "AND", RE.wsP, RE.istr "REGEXP_LIKE", RE.wsS,
      RE.ch '(', RE.plus1 (RE.cls (fun c => c ≠ ',')), RE.ch ',', RE.wsS,
      reQ, RE.ch '*', reQ, RE.wsS, RE.ch ')'])
    "" result
  let result := csub
    (RE.cat [RE.istr "WHERE", RE.wsS, RE.ch '(', RE.wsS,
      RE.istr "REGEXP_LIKE", RE.wsS, RE.ch '(',
      RE.plus1 (RE.cls (fun c => c ≠ ')')), RE.ch ',', RE.wsS, reQ,
      RE.ch '*', reQ, RE.wsS, RE.ch ')', RE.wsS, RE.ch ')'])
    "" result
  let result := csub
    (RE.cat [RE.istr "WHERE", RE.wsS, RE.ch '(', RE.wsS, RE.ch ')'])
    "" result
  -- BUG-021: empty-string IN numeric patterns
  let result := reSub
    (RE.cat [RE.ch '(', RE.wsS, reQ, reQ, RE.wsP, RE.istr "IN", RE.wsP,
      RE.ch '(', RE.wsS, RE.plus1 RE.digitC, RE.wsS, RE.ch ')', RE.wsP,
      RE.istr "OR", RE.wsP, RE.grp 1 (RE.plus1 (RE.cls (fun c => c ≠ ')'))),
      RE.ch ')'])
    (fun m => ("(" ++ String.mk (capGet m.caps 1) ++ ")").data) result
  let result := csub
    (RE.cat [RE.wsP, RE.istr "AND", RE.wsP, reQ, reQ, RE.wsP, RE.istr "IN",
      RE.wsP, RE.ch '(', RE.wsS, RE.plus1 RE.digitC, RE.wsS, RE.ch ')',
      RE.wsP, RE.istr "AND", RE.wsP])
    " AND " result
  let result := csub
    (RE.cat [RE.ch '(', RE.wsS, reQ, reQ, RE.wsP, RE.istr "IN", RE.wsP,
      RE.ch '(', RE.wsS, RE.plus1 RE.digitC, RE.wsS, RE.ch ')', RE.wsP,
      RE.istr "AND", RE.wsP])
    "(" result
  let result := csub
    (RE.cat [RE.wsP, RE.istr "AND", RE.wsP, reQ, reQ, RE.wsP, RE.istr "IN",
      RE.wsP, RE.ch '(', RE.wsS, RE.plus1 RE.digitC, RE.wsS, RE.ch ')',
      RE.wsS, RE.ch ')'])
    ")" result
  -- BUG-022: empty WHERE clauses
  let result := csub
    (RE.cat [RE.bnd, RE.istr "WHERE", RE.wsP, RE.ch '(', RE.wsS, RE.ch ')'])
    "" result
  -- BUG-026: unsubstituted $$parameter$$ placeholders
  let result := chpParamLoop 20 result
  let result := csub reAnyParam "" result
  -- Orphaned IN before a comparison
  let result := csub
    (RE.cat [RE.bnd, RE.istr "IN", RE.wsP, RE.la false (RE.ch '=')])
    "" result
  -- DATE comparisons against NULL
  let result := csub
    (RE.cat [RE.alt (RE.istr "TO_DATE") (RE.istr "DATE"), RE.wsS,
      RE.ch '(', RE.plus1 (RE.cls (fun c => c ≠ ')')), RE.ch ')', RE.wsS,
      RE.alts [RE.str ">=", RE.str "<=", RE.str ">", RE.str "<", RE.str "=",
        RE.str "!="], RE.wsS, RE.istr "NULL"])
    "" result
  -- Orphaned OR/AND before a closing parenthesis
  let result := csub
    (RE.cat [RE.wsP, RE.alt (RE.istr "OR") (RE.istr "AND"), RE.wsS,
      RE.ch ')'])
    ")" result
  -- Double opening parentheses followed by a connective
  let result := csub
    (RE.cat [RE.ch '(', RE.wsS, RE.ch '(', RE.wsS,
      RE.alt (RE.istr "OR") (RE.istr "AND"), RE.wsP])
    "(" result
  -- Empty IN value lists joined by or
  let result := csub
    (RE.cat [RE.ch '"', RE.plus1 RE.wordC, RE.ch '"', RE.wsP, RE.str "IN",
      RE.wsP, RE.ch '(', reQ, RE.opt reQ, RE.ch ')', RE.wsP,
      RE.alt (RE.str "or") (RE.str "OR"), RE.wsP, RE.ch '(', reQ,
      RE.opt reQ, RE.ch ')'])
    "" result
  -- Comparisons with a missing left operand
  let result := csub
    (RE.cat [RE.wsS,
      RE.opt (RE.alt (RE.istr "AND") (RE.istr "OR")), RE.wsS, RE.ch '(',
      RE.wsS, RE.ch '=', RE.wsS, clsQuote,
      RE.star (RE.cls (fun c => !isQuoteChar c)), clsQuote, RE.wsS,
      RE.ch ')'])
    "" result
  -- Parentheses containing only a connective
  let result := csub
    (RE.cat [RE.ch '(', RE.wsS, RE.alt (RE.istr "AND") (RE.istr "OR"),
      RE.wsS, RE.ch ')'])
    "" result
  -- Comparisons with an empty-string left operand
  let result := csub
    (RE.cat [RE.wsS,
      RE.opt (RE.alt (RE.istr "AND") (RE.istr "OR")), RE.wsS, RE.ch '(',
      RE.wsS, RE.plus1 clsQuote, RE.wsS, RE.ch '=', RE.wsS,
      RE.plus1 clsQuote, RE.wsS, RE.ch ')'])
    "" result
  -- Empty IN value lists followed by a connective
  let result := csub
    (RE.cat [RE.ch '"', RE.plus1 RE.wordC, RE.ch '"', RE.wsP, RE.istr "IN",
      RE.wsP, RE.ch '(', clsQuote, RE.opt clsQuote, RE.ch ')', RE.wsP,
      RE.alts [RE.istr "or", RE.istr "and"]])
    "" result
  -- Empty WHERE clauses with nested parentheses
  let result := csub
    (RE.cat [RE.istr "WHERE", RE.wsP, RE.str "((", RE.wsS, RE.ch ')',
      RE.wsS, RE.ch ')'])
    "" result
  let result := csub
    (RE.cat [RE.istr "WHERE", RE.wsP, RE.ch '(', RE.wsS, RE.ch ')'])
    "" result
  -- Trailing connective inside a WHERE clause
  let result := csub
    (RE.cat [RE.istr "WHERE", RE.wsP, RE.ch '(', RE.wsS, RE.ch '(',
      RE.rep 0 none true (RE.cls (fun c => c ≠ Char.ofNat 10)), RE.ch ')',
      RE.wsP, RE.alt (RE.istr "AND") (RE.istr "OR"), RE.wsS, RE.ch ')'])
    "" result
  -- Extra closing parentheses before a clause keyword
  let result := csub
    (RE.cat [RE.ch ')', RE.wsS, RE.plus1 (RE.ch ')'),
      RE.la false (RE.cat [RE.wsS,
        RE.alts [RE.istr "FROM", RE.istr "GROUP", RE.istr "ORDER",
          RE.istr "LIMIT", RE.eos]])])
    ")" result
  -- Final parenthesis balancing
  let open_count := pyCountChar result '('
  let close_count := pyCountChar result ')'
  if open_count > close_count then
    result ++ String.mk (List.replicate (open_count - close_count) ')')
  else if close_count > open_count then
    chpTrimCloseParens (close_count - open_count) result
  else result

/-! ## Expression rendering (renderer.py) -/

def ExpressionType.value : ExpressionType → String
  | .COLUMN => "COLUMN"
  | .LITERAL => "LITERAL"
  | .FUNCTION => "FUNCTION"
  | .CASE => "CASE"
  | .RAW => "RAW"

/-- The renderer-local `_substitute_placeholders` (renderer.py line 1235):
this later definition shadows the translator import at call time, so RAW
fall-through substitution replaces only client and language. -/
def substitute_placeholders_r (text : String) (ctx : RenderContext) :
    String :=
  pyReplace (pyReplace text "$$client$$" ctx.client) "$$language$$"
    ctx.language

/-- `_render_column_ref`. -/
def render_column_ref (ctx : RenderContext) (column_name : String)
    (table_alias : Option String) : String :=
  if truthyStr table_alias then
    table_alias.getD "" ++ "." ++ quote_identifier column_name
  else quote_identifier column_name

/-- `_render_literal`. -/
def render_literal (value : String) (data_type : Option DataTypeSpec) :
    String :=
  let has_leading_zero := pyIsDigitStr value && value.length > 1 &&
    pyStartsWith value "0"
  if !has_leading_zero &&
      (pyIsDigitStr value ||
        (pyStartsWith value "-" &&
          pyIsDigitStr (String.mk (value.data.drop 1)))) then
    value
  else
    match data_type with
    | some dt =>
      if dt.type = .DATE then
        if value.length = 8 && pyIsDigitStr value then
          "TO_DATE(" ++ sqS ++ value ++ sqS ++ ", " ++ sqS ++ "YYYYMMDD" ++
            sqS ++ ")"
        else sqS ++ value ++ sqS ++ "::DATE"
      else if dt.type = .TIMESTAMP_NTZ then
        sqS ++ value ++ sqS ++ "::TIMESTAMP_NTZ"
      else sqS ++ pyReplace value sqS (sqS ++ sqS) ++ sqS
    | none => sqS ++ pyReplace value sqS (sqS ++ sqS) ++ sqS

mutual

/-- `_render_expression`: dispatch over the expression kind, threading the
context (whose warnings list the source mutates). -/
def render_expression (ctx : RenderContext) (expr : Expression)
    (table_alias : Option String) : RenderContext × String :=
  match expr with
  | .mk t v args dt _lang =>
    match t with
    | .COLUMN => (ctx, render_column_ref ctx v table_alias)
    | .LITERAL => (ctx, render_literal v dt)
    | .RAW =>
      let translated := translate_raw_formula v ctx.transEnv
      if translated ≠ v then (ctx, translated)
      else
        let result := substitute_placeholders_r v ctx
        -- BUG-027: qualify bare column names when a table alias is given
        if truthyStr table_alias &&
            pyIsIdentifier (pyStripChars result ['"']) &&
            !pyContains result "(" then
          (ctx, table_alias.getD "" ++ "." ++ result)
        else (ctx, result)
    | .FUNCTION => render_function ctx v args table_alias
    | .CASE =>
      (ctx.warn ("Unsupported expression type: " ++ t.value), "NULL")

/-- `_render_function`: render the arguments, attempt a dialect
translation, and fall back to a generic call (the source renders the
arguments again on fall-through). -/
def render_function (ctx : RenderContext) (v : String)
    (args : List Expression) (table_alias : Option String) :
    RenderContext × String :=
  let func_name := pyUpper v
  let p := render_expr_list ctx args table_alias
  let ctx1 := p.1
  let arg_strs := p.2
  match translate_hana_function func_name arg_strs ctx1.transEnv with
  | some t =>
    if t ≠ "" then (ctx1, t)
    else
      let p2 := render_expr_list ctx1 args table_alias
      (p2.1, func_name ++ "(" ++ pyJoin ", " p2.2 ++ ")")
  | none =>
    let p2 := render_expr_list ctx1 args table_alias
    (p2.1, func_name ++ "(" ++ pyJoin ", " p2.2 ++ ")")

/-- Render a list of argument expressions left to right. -/
def render_expr_list (ctx : RenderContext) (es : List Expression)
    (table_alias : Option String) : RenderContext × List String :=
  match es with
  | [] => (ctx, [])
  | e :: rest =>
    let p := render_expression ctx e table_alias
    let q := render_expr_list p.1 rest table_alias
    (q.1, p.2 :: q.2)

end

/-- `_render_filters`: render the WHERE conditions of a node. -/
def render_filters (ctx : RenderContext) (filters : List Predicate)
    (table_alias : Option String) : RenderContext × String :=
  if filters.isEmpty then (ctx, "")
  else
    let step := filters.foldl
      (fun (st : RenderContext × List String) pred =>
        let (ctx, conditions) := st
        match pred.kind with
        | .COMPARISON =>
          let (ctx, left) := render_expression ctx pred.left table_alias
          let op0 := orStr pred.operator "="
          -- BUG-034: `including=false` inverts the operator
          let op := if !pred.including then negate_operator op0 else op0
          (match pred.right with
           | some r =>
             let (ctx, right) := render_expression ctx r table_alias
             (ctx, conditions ++ [left ++ " " ++ op ++ " " ++ right])
           | none => (ctx, conditions))
        | .IS_NULL =>
          let (ctx, left) := render_expression ctx pred.left table_alias
          (ctx, conditions ++ [left ++ " IS NULL"])
        | .RAW =>
          let (ctx, raw_expr) := render_expression ctx pred.left table_alias
          if raw_expr ≠ "" then (ctx, conditions ++ ["(" ++ raw_expr ++ ")"])
          else (ctx, conditions)
        | k =>
          (ctx.warn ("Unsupported predicate kind: " ++ k.value), conditions))
      (ctx, [])
    (step.1, pyJoin " AND " step.2)

/-- `_map_join_type_to_sql`. -/
def map_join_type_to_sql : JoinType → String
  | .INNER => "INNER"
  | .LEFT_OUTER => "LEFT OUTER"
  | .RIGHT_OUTER => "RIGHT OUTER"
  | .FULL_OUTER => "FULL OUTER"

/-- Insert or overwrite in an insertion-ordered dict (Python dict update
keeps the original position of an existing key). -/
def dictSet {α : Type} (l : List (String × α)) (k : String) (v : α) :
    List (String × α) :=
  if amem l k then l.map (fun p => if p.1 = k then (k, v) else p)
  else l ++ [(k, v)]

/-- The external-CV reference pattern of `_render_from` (BUG-025 part 2):
`(?:#/0/(?:Star Join/)?)?([A-Za-z0-9_\.]+)::([A-Za-z0-9_]+)$`. -/
def reExternalCvRef : RE :=
  RE.cat [RE.opt (RE.cat [RE.str "#/0/", RE.opt (RE.str "Star Join/")]),
    RE.grp 1 (RE.plus1 (RE.cls (fun c => isWordChar c || c = '.'))),
    RE.str "::", RE.grp 2 (RE.plus1 (RE.cls isWordChar)), RE.eos]

/-- `_render_from`: render the FROM clause for a data source or CTE. -/
def render_from (ctx : RenderContext) (input_id : String) :
    RenderContext × String :=
  match alookup ctx.scenario.data_sources input_id with
  | some ds =>
    -- BUG-025: calculation-view references need a package path in HANA mode
    if ctx.database_mode = .HANA && ds.source_type = .CALCULATION_VIEW then
      let cv_name := ds.object_name
      let package : Option String :=
        if ds.schema_name ≠ "" && pyContains ds.schema_name "." then
          some ds.schema_name
        else ctx.get_package cv_name
      if truthyStr package then
        (ctx, "\"_SYS_BIC\"." ++
          quote_identifier (package.getD "" ++ "/" ++ cv_name))
      else
        (ctx.warn ("Package not found for CV " ++ cv_name ++
          ", using _SYS_BIC without path"),
          "\"_SYS_BIC\"." ++ quote_identifier cv_name)
    else if ctx.database_mode = .HANA && pyStartsWith ds.object_name "CV_"
    then
      let cv_name := ds.object_name
      let package : Option String :=
        if ds.schema_name ≠ "" && pyContains ds.schema_name "." then
          some ds.schema_name
        else ctx.get_package cv_name
      if truthyStr package then
        -- BUG-030: package paths contain dots; quote as one identifier
        (ctx, "\"_SYS_BIC\".\"" ++ package.getD "" ++ "/" ++ cv_name ++ "\"")
      else
        (ctx.warn ("Package not found for CV " ++ cv_name ++
          ", using _SYS_BIC without path"),
          "\"_SYS_BIC\".\"" ++ cv_name ++ "\"")
    else
      let schema := ctx.resolve_schema ds.schema_name
      if schema ≠ "" then
        (ctx, quote_identifier schema ++ "." ++
          quote_identifier ds.object_name)
      else (ctx, quote_identifier ds.object_name)
  | none =>
    let cvCase :=
      if ctx.database_mode = .HANA && pyContains input_id "::" &&
          pyContains input_id "CV_" then
        match reSearch reExternalCvRef input_id with
        | some m =>
          let package_path := String.mk (capGet m.caps 1)
          let cv_name := String.mk (capGet m.caps 2)
          some ("\"_SYS_BIC\"." ++
            quote_identifier (package_path ++ "/" ++ cv_name))
        | none => none
      else none
    match cvCase with
    | some s => (ctx, s)
    | none =>
      match alookup ctx.cte_aliases input_id with
      | some a => (ctx, a)
      | none => ctx.get_cte_alias input_id

/-- `"{name}"` as a case-insensitive literal pattern (the source builds it
with `re.escape`, so the name is literal). -/
def reQuotedNameCi (name : String) : RE :=
  RE.cat [RE.ch '"', RE.istr name, RE.ch '"']

/-- `(?<!\.)("[^"]+")`, the BUG-019 column-qualification pattern. -/
def reUnqualifiedQuoted : RE :=
  RE.cat [RE.lb1 true (fun c => c = '.'),
    RE.grp 1 (RE.cat [RE.ch '"', RE.plus1 (RE.cls (fun c => c ≠ '"')),
      RE.ch '"'])]

/-- `\(\s*''\s*=\s*'[^']*'\s+OR\s+[^)]+\)\s+AND\s+` (case-sensitive). -/
def reHanaParamAndAfter : RE :=
  RE.cat [RE.ch '(', RE.wsS, reQ, reQ, RE.wsS, RE.ch '=', RE.wsS, reQ,
    RE.star (RE.cls (fun c => c ≠ sqC)), reQ, RE.wsP, RE.str "OR", RE.wsP,
    RE.plus1 (RE.cls (fun c => c ≠ ')')), RE.ch ')', RE.wsP, RE.str "AND",
    RE.wsP]

/-- `AND\s+\(\s*''\s*=\s*'[^']*'\s+OR\s+[^)]+\)` (case-sensitive). -/
def reHanaParamAndBefore : RE :=
  RE.cat [RE.str "AND", RE.wsP, RE.ch '(', RE.wsS, reQ, reQ, RE.wsS,
    RE.ch '=', RE.wsS, reQ, RE.star (RE.cls (fun c => c ≠ sqC)), reQ,
    RE.wsP, RE.str "OR", RE.wsP, RE.plus1 (RE.cls (fun c => c ≠ ')')),
    RE.ch ')']

/-- `\s+AND\s*$` (case-sensitive). -/
def reTrailingAndCs : RE :=
  RE.cat [RE.wsP, RE.str "AND", RE.wsS, RE.eos]

/-- `^\s*AND\s+` (case-sensitive). -/
def reLeadingAndCs : RE :=
  RE.cat [RE.bos, RE.wsS, RE.str "AND", RE.wsP]

/-- The mapping-rendering step of `_render_projection`. -/
def projMapStep (from_clause : String)
    (st : RenderContext × List String × List (String × String))
    (mapping : AttributeMapping) :
    RenderContext × List String × List (String × String) :=
  let p := render_expression st.1 mapping.expression (some from_clause)
  (p.1,
    st.2.1 ++ [p.2 ++ " AS " ++ quote_identifier mapping.target_name],
    dictSet st.2.2 (pyUpper mapping.target_name) p.2)

/-- The calculated-attribute step of `_render_projection`. -/
def projCalcStep (from_clause : String)
    (target_sql_map : List (String × String))
    (st : RenderContext × List String × List String ×
      List (String × String))
    (pr : String × CalculatedAttribute) :
    RenderContext × List String × List String × List (String × String) :=
  let calc_name := pr.1
  let calc_attr := pr.2
  let ctx := st.1
  let columns := st.2.1
  let calc_column_names := setAdd st.2.2.1 (pyUpper calc_name)
  let calc_column_map := st.2.2.2
  let expanded_expr :=
    if calc_attr.expression.expression_type = .RAW then
      let formula := calc_attr.expression.value
      let formula := calc_column_map.foldl
        (fun f q =>
          if reTest (reQuotedNameCi q.1) f then
            reSub (reQuotedNameCi q.1) (fun _ => ("(" ++ q.2 ++ ")").data)
              f
          else f)
        formula
      let formula := target_sql_map.foldl
        (fun f q =>
          if reTest (reQuotedNameCi q.1) f then
            reSub (reQuotedNameCi q.1) (fun _ => q.2.data) f
          else f)
        formula
      Expression.mk .RAW formula [] calc_attr.expression.data_type
        calc_attr.expression.language
    else calc_attr.expression
  let p := render_expression ctx expanded_expr (some from_clause)
  (p.1, columns ++ [p.2 ++ " AS " ++ quote_identifier calc_name],
    calc_column_names, dictSet calc_column_map (pyUpper calc_name) p.2)

/-- `_render_projection`. -/
def render_projection (ctx : RenderContext) (node : Node) :
    RenderContext × String :=
  if node.inputs.isEmpty then
    (ctx.warn ("Projection " ++ node.node_id ++ " has no inputs"),
      "SELECT 1 AS placeholder")
  else
    let input_id := pyLstripChars (node.inputs.headD "") ['#']
    let p0 := render_from ctx input_id
    let ctx := p0.1
    let from_clause := p0.2
    let step1 := node.mappings.foldl (projMapStep from_clause) (ctx, [], [])
    let ctx := step1.1
    let columns0 := step1.2.1
    let target_sql_map := step1.2.2
    let step2 := node.calculated_attributes.foldl
      (projCalcStep from_clause target_sql_map) (ctx, columns0, [], [])
    let ctx := step2.1
    let columns := step2.2.1
    let calc_column_names := step2.2.2.1
    let columns := if columns.isEmpty then ["*"] else columns
    let select_clause := pyJoin ",\n    " columns
    let target_to_source_map := node.mappings.foldl
      (fun (m : List (String × String)) mapping =>
        if mapping.expression.expression_type = .COLUMN then
          let source_col := mapping.expression.value
          let target_col := mapping.target_name
          if source_col ≠ target_col then
            dictSet m (pyUpper target_col) source_col
          else m
        else m)
      []
    let pf := render_filters ctx node.filters (some from_clause)
    let ctx := pf.1
    let where_clause := pf.2
    let where_clause :=
      if where_clause ≠ "" && !target_to_source_map.isEmpty &&
          amem ctx.scenario.data_sources input_id then
        target_to_source_map.foldl
          (fun w q =>
            pyReplace w ("\"" ++ q.1 ++ "\"") ("\"" ++ q.2 ++ "\""))
          where_clause
      else where_clause
    let needs_subquery :=
      where_clause ≠ "" && !calc_column_names.isEmpty &&
        calc_column_names.any (fun calc_col =>
          pyContains where_clause ("\"" ++ calc_col ++ "\"") ||
            pyContains (pyUpper where_clause) calc_col)
    if needs_subquery && where_clause ≠ "" then
      let qualified := where_clause
      let qualified :=
        if ctx.database_mode = .HANA then
          csub reHanaParamAndBefore ""
            (csub reHanaParamAndAfter "" qualified)
        else qualified
      let qualified := reSub reUnqualifiedQuoted
        (fun m => ("calc." ++ String.mk (capGet m.caps 1)).data) qualified
      let qualified := pyReplace qualified "calc.calc." "calc."
      let qualified := pyReplace qualified ("PLACEHOLDER.calc.\"$$")
        ("PLACEHOLDER.\"$$")
      let qualified := csub reTrailingAndCs "" qualified
      let qualified := csub reLeadingAndCs "" qualified
      let qualified :=
        if ctx.database_mode = .HANA then
          let q := cleanup_hana_parameter_conditions qualified
          if pyStrip q = "" || pyStrip q = "()" then "" else q
        else qualified
      let inner := pyReplace select_clause "\n    " "\n      "
      if qualified ≠ "" then
        (ctx, "SELECT * FROM (\n  SELECT\n      " ++ inner ++ "\n  FROM " ++
          from_clause ++ "\n) AS calc\nWHERE " ++ qualified)
      else
        (ctx, "SELECT * FROM (\n  SELECT\n      " ++ inner ++ "\n  FROM " ++
          from_clause ++ "\n) AS calc")
    else
      let where_clause :=
        if ctx.database_mode = .HANA && where_clause ≠ "" then
          let w := cleanup_hana_parameter_conditions where_clause
          if pyStrip w = "" || pyStrip w = "()" then "" else w
        else where_clause
      let sql := "SELECT\n    " ++ select_clause ++ "\nFROM " ++ from_clause
      if where_clause ≠ "" then (ctx, sql ++ "\nWHERE " ++ where_clause)
      else (ctx, sql)

/-- The join-condition step of `_render_join`. -/
def joinCondStep (left_alias right_alias : String)
    (st : RenderContext × List String) (condition : JoinCondition) :
    RenderContext × List String :=
  let pl := render_expression st.1 condition.left (some left_alias)
  let pr := render_expression pl.1 condition.right (some right_alias)
  (pr.1, st.2 ++ [pl.2 ++ " = " ++ pr.2])

/-- The column-mapping step of `_render_join`. -/
def joinColStep (node : Node) (left_alias : String)
    (st : RenderContext × List String × List String ×
      List (String × String)) (mapping : AttributeMapping) :
    RenderContext × List String × List String × List (String × String) :=
  let ctx := st.1
  let columns := st.2.1
  let seen_targets := st.2.2.1
  let column_map := st.2.2.2
  if !node.view_attributes.isEmpty &&
      !node.view_attributes.contains mapping.target_name then
    (ctx, columns, seen_targets, column_map)
  else if seen_targets.contains mapping.target_name then
    (ctx, columns, seen_targets, column_map)
  else
    let seen_targets := seen_targets ++ [mapping.target_name]
    let pa :=
      if truthyStr mapping.source_node then
        RenderContext.get_cte_alias ctx
          (pyLstripChars (mapping.source_node.getD "") ['#'])
      else (ctx, left_alias)
    let pe := render_expression pa.1 mapping.expression (some pa.2)
    (pe.1,
      columns ++ [pe.2 ++ " AS " ++ quote_identifier mapping.target_name],
      seen_targets,
      dictSet column_map (pyUpper mapping.target_name) pe.2)

/-- The calculated-attribute step of `_render_join`. -/
def joinCalcStep (column_map : List (String × String)) (left_alias : String)
    (st : RenderContext × List String) (pr : String × CalculatedAttribute) :
    RenderContext × List String :=
  let calc_name := pr.1
  let calc_attr := pr.2
  let ctx := st.1
  let columns := st.2
  if calc_attr.expression.expression_type = .RAW then
    let formula := calc_attr.expression.value
    let formula := column_map.foldl
      (fun f q =>
        if reTest (reQuotedNameCi q.1) f then
          reSub (reQuotedNameCi q.1) (fun _ => ("(" ++ q.2 ++ ")").data)
            f
        else f)
      formula
    let calc_expr := translate_raw_formula formula ctx.transEnv
    (ctx, columns ++ [calc_expr ++ " AS " ++ quote_identifier calc_name])
  else
    let pe := render_expression ctx calc_attr.expression
      (some left_alias)
    (pe.1, columns ++ [pe.2 ++ " AS " ++ quote_identifier calc_name])

/-- `_render_join`. -/
def render_join (ctx : RenderContext) (node : Node) : RenderContext × String :=
  if node.inputs.length < 2 then
    (ctx.warn ("Join " ++ node.node_id ++ " has fewer than 2 inputs"),
      "SELECT 1 AS placeholder")
  else
    let left_id := pyLstripChars (node.inputs.getD 0 "") ['#']
    let right_id := pyLstripChars (node.inputs.getD 1 "") ['#']
    -- BUG-028: proper FROM clauses for both CTEs and data sources
    let p1 := render_from ctx left_id
    let p2 := render_from p1.1 right_id
    let left_from := p1.2
    let right_from := p2.2
    let p3 := RenderContext.get_cte_alias p2.1 left_id
    let p4 := RenderContext.get_cte_alias p3.1 right_id
    let left_alias := p3.2
    let right_alias := p4.2
    let ctx := p4.1
    let join_type_str := map_join_type_to_sql node.join_type
    let condStep := node.conditions.foldl
      (joinCondStep left_alias right_alias) (ctx, [])
    let ctx := condStep.1
    let conditions := condStep.2
    let condFix :=
      if conditions.isEmpty then
        -- critical: cartesian product
        (ctx.warn ("Join " ++ node.node_id ++
          " creates cartesian product (no join conditions)"), ["1=1"])
      else (ctx, conditions)
    let ctx := condFix.1
    let conditions := condFix.2
    let on_clause := pyJoin " AND " conditions
    let colStep := node.mappings.foldl (joinColStep node left_alias)
      (ctx, [], [], [])
    let ctx := colStep.1
    let columns0 := colStep.2.1
    let column_map := colStep.2.2.2
    -- BUG-033: expand calculated column references to mapped columns
    let calcStep := node.calculated_attributes.foldl
      (joinCalcStep column_map left_alias) (ctx, columns0)
    let ctx := calcStep.1
    let columns := calcStep.2
    let columns :=
      if columns.isEmpty then [left_alias ++ ".*", right_alias ++ ".*"]
      else columns
    let select_clause := pyJoin ",\n    " columns
    let pw := render_filters ctx node.filters (some left_alias)
    let ctx := pw.1
    let where_clause := pw.2
    -- BUG-022: clean up parameter conditions for HANA mode
    let where_clause :=
      if ctx.database_mode = .HANA && where_clause ≠ "" then
        let w := cleanup_hana_parameter_conditions where_clause
        if pyStrip w = "" || pyStrip w = "()" then "" else w
      else where_clause
    let sql := "SELECT\n    " ++ select_clause ++ "\nFROM " ++ left_from ++
      " AS " ++ left_alias ++ "\n" ++ join_type_str ++ " JOIN " ++
      right_from ++ " AS " ++ right_alias ++ " ON " ++ on_clause
    if where_clause ≠ "" then (ctx, sql ++ "\nWHERE " ++ where_clause)
    else (ctx, sql)

/-- `(?<!\.)"([A-Z_][A-Z0-9_]*)"`, the aggregation outer-query
qualification pattern (BUG-032). -/
def reUpperQuotedCol : RE :=
  RE.cat [RE.lb1 true (fun c => c = '.'), RE.ch '"',
    RE.grp 1 (RE.cat [clsUpper1, clsUpperRest]), RE.ch '"']

/-- The group-by rendering step of `_render_aggregation`. -/
def aggGbStep (from_clause : String) (calc_col_names : List String)
    (target_to_expr_map : List (String × Expression))
    (st : RenderContext × List String) (col_name : String) :
    RenderContext × List String :=
  if !calc_col_names.contains (pyUpper col_name) then
    match alookup target_to_expr_map (pyUpper col_name) with
    | some expr =>
      let p := render_expression st.1 expr (some from_clause)
      (p.1, st.2 ++ [p.2])
    | none => (st.1, st.2 ++ [quote_identifier col_name])
  else st

/-- The select-mapping step of `_render_aggregation`. -/
def aggSelStep (from_clause : String)
    (calc_col_names aggregated_col_names : List String)
    (st : RenderContext × List String) (mapping : AttributeMapping) :
    RenderContext × List String :=
  if !calc_col_names.contains (pyUpper mapping.target_name) &&
      !aggregated_col_names.contains (pyUpper mapping.target_name) then
    let p := render_expression st.1 mapping.expression
      (some from_clause)
    (p.1,
      st.2 ++ [p.2 ++ " AS " ++ quote_identifier mapping.target_name])
  else st

/-- The aggregation-spec step of `_render_aggregation`. -/
def aggAggStep (from_clause : String)
    (target_to_source_expr : List (String × Expression))
    (st : RenderContext × List String) (agg_spec : AggregationSpec) :
    RenderContext × List String :=
  let agg_func := pyUpper agg_spec.function
  let pe :=
    if agg_spec.expression.expression_type = .COLUMN then
      let col_name := agg_spec.expression.value
      match alookup target_to_source_expr (pyUpper col_name) with
      | some src => render_expression st.1 src (some from_clause)
      | none =>
        render_expression st.1 agg_spec.expression (some from_clause)
    else render_expression st.1 agg_spec.expression (some from_clause)
  (pe.1, st.2 ++ [agg_func ++ "(" ++ pe.2 ++ ") AS " ++
    quote_identifier agg_spec.target_name])

/-- The outer-query calculated-column step of `_render_aggregation`
(BUG-032). -/
def aggOutStep
    (st : RenderContext × List String × List (String × String))
    (pr : String × CalculatedAttribute) :
    RenderContext × List String × List (String × String) :=
  let calc_name := pr.1
  let calc_attr := pr.2
  let ctx := st.1
  let outer_select := st.2.1
  let calc_column_map := st.2.2
  let pe :=
    if calc_attr.expression.expression_type = .RAW then
      let formula := calc_attr.expression.value
      let formula := calc_column_map.foldl
        (fun f q =>
          if reTest (reQuotedNameCi q.1) f then
            reSub (reQuotedNameCi q.1)
              (fun _ => ("(" ++ q.2 ++ ")").data) f
          else f)
        formula
      let formula := reSub reUpperQuotedCol
        (fun m =>
          ("agg_inner.\"" ++ String.mk (capGet m.caps 1) ++ "\"").data)
        formula
      (ctx, translate_raw_formula formula ctx.transEnv)
    else render_expression ctx calc_attr.expression
      (some "agg_inner")
  (pe.1,
    outer_select ++ [pe.2 ++ " AS " ++ quote_identifier calc_name],
    dictSet calc_column_map (pyUpper calc_name) pe.2)

/-- `_render_aggregation`. -/
def render_aggregation (ctx : RenderContext) (node : Node) :
    RenderContext × String :=
  if node.inputs.isEmpty then
    (ctx.warn ("Aggregation " ++ node.node_id ++ " has no inputs"),
      "SELECT 1 AS placeholder")
  else
    let input_id := pyLstripChars (node.inputs.headD "") ['#']
    let p0 := render_from ctx input_id
    let ctx := p0.1
    let from_clause := p0.2
    let calc_col_names :=
      node.calculated_attributes.map (fun p => pyUpper p.1)
    let target_to_expr_map := node.mappings.foldl
      (fun (m : List (String × Expression)) mapping =>
        dictSet m (pyUpper mapping.target_name) mapping.expression)
      []
    let gbStep := node.group_by.foldl
      (aggGbStep from_clause calc_col_names target_to_expr_map) (ctx, [])
    let ctx := gbStep.1
    let group_by_cols := gbStep.2
    let aggregated_col_names :=
      node.aggregations.map (fun a => pyUpper a.target_name)
    let selStep := node.mappings.foldl
      (aggSelStep from_clause calc_col_names aggregated_col_names) (ctx, [])
    let ctx := selStep.1
    let select_items0 := selStep.2
    let target_to_source_expr := node.mappings.foldl
      (fun (m : List (String × Expression)) mapping =>
        dictSet m (pyUpper mapping.target_name) mapping.expression)
      []
    let aggStep := node.aggregations.foldl
      (aggAggStep from_clause target_to_source_expr) (ctx, select_items0)
    let ctx := aggStep.1
    let select_items := aggStep.2
    let select_items := if select_items.isEmpty then ["*"] else select_items
    let select_clause := pyJoin ",\n    " select_items
    let pw := render_filters ctx node.filters (some from_clause)
    let ctx := pw.1
    let where_clause := pw.2
    let where_clause :=
      if ctx.database_mode = .HANA && where_clause ≠ "" then
        let w := cleanup_hana_parameter_conditions where_clause
        if pyStrip w = "" || pyStrip w = "()" then "" else w
      else where_clause
    let group_by_clause :=
      if !group_by_cols.isEmpty then
        "GROUP BY " ++ pyJoin ", " group_by_cols
      else ""
    let has_calc_cols := node.calculated_attributes.length > 0
    if has_calc_cols then
      let inner_sql := "SELECT\n    " ++ select_clause ++ "\nFROM " ++
        from_clause
      let inner_sql :=
        if where_clause ≠ "" then inner_sql ++ "\nWHERE " ++ where_clause
        else inner_sql
      let inner_sql :=
        if group_by_clause ≠ "" then inner_sql ++ "\n" ++ group_by_clause
        else inner_sql
      -- BUG-032: outer query adds calculated columns
      let outStep := node.calculated_attributes.foldl aggOutStep
        (ctx, ["agg_inner.*"], [])
      let ctx := outStep.1
      let outer_clause := pyJoin ",\n    " outStep.2.1
      (ctx, "SELECT\n    " ++ outer_clause ++ "\nFROM (\n  " ++
        pyReplace inner_sql "\n" "\n  " ++ "\n) AS agg_inner")
    else
      let sql := "SELECT\n    " ++ select_clause ++ "\nFROM " ++ from_clause
      let sql :=
        if where_clause ≠ "" then sql ++ "\nWHERE " ++ where_clause else sql
      if group_by_clause ≠ "" then (ctx, sql ++ "\n" ++ group_by_clause)
      else (ctx, sql)

/-- The per-target-column select step of the union input loop. -/
def unionSelStep (input_alias : String)
    (input_mappings : List AttributeMapping)
    (st2 : RenderContext × List String) (target_col : String) :
    RenderContext × List String :=
  match input_mappings.find?
      (fun m => m.target_name = target_col) with
  | some mapping =>
    let pe := render_expression st2.1 mapping.expression
      (some input_alias)
    (pe.1, st2.2 ++
      [pe.2 ++ " AS " ++ quote_identifier target_col])
  | none =>
    (st2.1, st2.2 ++ ["NULL AS " ++ quote_identifier target_col])

/-- The per-input step of `_render_union`. -/
def unionInputStep (node : Node) (target_columns : List String)
    (st : RenderContext × List String) (input_id0 : String) :
    RenderContext × List String :=
  let ctx := st.1
  let union_queries := st.2
  let input_id := pyLstripChars input_id0 ['#']
  let pa :=
    if amem ctx.cte_aliases input_id then
      RenderContext.get_cte_alias ctx input_id
    else render_from ctx input_id
  let ctx := pa.1
  let input_alias := pa.2
  let input_mappings := node.mappings.filter
    (fun m =>
      pyLstripChars (m.source_node.getD "") ['#'] = input_id)
  if !input_mappings.isEmpty && !target_columns.isEmpty then
    let selStep := target_columns.foldl
      (unionSelStep input_alias input_mappings) (ctx, [])
    let select_clause := pyJoin ",\n    " selStep.2
    (selStep.1, union_queries ++
      ["SELECT\n    " ++ select_clause ++ "\nFROM " ++ input_alias])
  else
    (ctx, union_queries ++
      ["SELECT\n    *\nFROM " ++ input_alias])

/-- `_render_union`. -/
def render_union (ctx : RenderContext) (node : Node) :
    RenderContext × String :=
  if node.inputs.length < 2 then
    (ctx.warn ("Union " ++ node.node_id ++ " has fewer than 2 inputs"),
      "SELECT 1 AS placeholder")
  else
    let target_columns :=
      if !node.mappings.isEmpty then
        (node.mappings.map (fun m => m.target_name)).foldl setAdd []
      else []
    let step := node.inputs.foldl
      (unionInputStep node target_columns) (ctx, [])
    let ctx := step.1
    let union_keyword := if node.union_all then "UNION ALL" else "UNION"
    let sql := pyJoin ("\n" ++ union_keyword ++ "\n") step.2
    if !node.filters.isEmpty then
      let pw := render_filters ctx node.filters none
      let ctx := pw.1
      let where_clause := pw.2
      let where_clause :=
        if ctx.database_mode = .HANA && where_clause ≠ "" then
          let w := cleanup_hana_parameter_conditions where_clause
          if pyStrip w = "" || pyStrip w = "()" then "" else w
        else where_clause
      if where_clause ≠ "" then
        (ctx, "SELECT * FROM (\n" ++ sql ++ "\n) AS union_result\nWHERE " ++
          where_clause)
      else (ctx, sql)
    else (ctx, sql)

/-- `_indent_sql`. -/
def indent_sql (sql : String) (indent : String := "  ") : String :=
  pyJoin "\n" ((pySplitlines sql).map (fun line => indent ++ line))

/-- The mapping step of `_render_rank`. -/
def rankSelStep (from_clause : String)
    (st : RenderContext × List String) (mapping : AttributeMapping) :
    RenderContext × List String :=
  let pe := render_expression st.1 mapping.expression
    (some from_clause)
  (pe.1,
    st.2 ++ [pe.2 ++ " AS " ++ quote_identifier mapping.target_name])

/-- `_render_rank`. -/
def render_rank (ctx : RenderContext) (node : Node) :
    RenderContext × String :=
  if node.inputs.isEmpty then
    (ctx.warn ("Rank " ++ node.node_id ++ " has no inputs"),
      "SELECT 1 AS placeholder")
  else
    let input_id := pyLstripChars (node.inputs.headD "") ['#']
    let p0 := render_from ctx input_id
    let ctx := p0.1
    let from_clause := p0.2
    let selStep := node.mappings.foldl (rankSelStep from_clause) (ctx, [])
    let ctx := selStep.1
    let select_items0 := selStep.2
    let partition_exprs := (node.partition_by.filter (fun c => c ≠ "")).map
      (fun col => render_column_ref ctx col (some from_clause))
    let order_exprs := node.order_by.map
      (fun order_spec =>
        let order_col := render_column_ref ctx order_spec.column
          (some from_clause)
        let direction :=
          if order_spec.direction ≠ "" then pyUpper order_spec.direction
          else "ASC"
        order_col ++ " " ++ direction)
    let order_exprs := if order_exprs.isEmpty then ["1"] else order_exprs
    let window_parts :=
      (if !partition_exprs.isEmpty then
        ["PARTITION BY " ++ pyJoin ", " partition_exprs]
      else []) ++ ["ORDER BY " ++ pyJoin ", " order_exprs]
    let window_clause := pyJoin " " window_parts
    let rank_expr := "ROW_NUMBER() OVER (" ++ window_clause ++ ")"
    let select_items := select_items0 ++
      [rank_expr ++ " AS " ++ quote_identifier node.rank_column]
    let select_clause := pyJoin ",\n    " select_items
    let select_sql := "SELECT\n    " ++ select_clause ++ "\nFROM " ++
      from_clause
    match node.threshold with
    | some threshold =>
      let inner_sql := indent_sql select_sql
      (ctx, "SELECT * FROM (\n" ++ inner_sql ++ "\n) AS ranked\nWHERE " ++
        quote_identifier node.rank_column ++ " <= " ++ toString threshold)
    | none => (ctx, select_sql)

/-- `_render_calculation`. -/
def render_calculation (ctx : RenderContext) (node : Node) :
    RenderContext × String :=
  if node.inputs.isEmpty then
    (ctx.warn ("Calculation " ++ node.node_id ++ " has no inputs"),
      "SELECT 1 AS placeholder")
  else
    let input_id := pyLstripChars (node.inputs.headD "") ['#']
    let p0 := render_from ctx input_id
    let ctx := p0.1
    let from_clause := p0.2
    let colStep := node.mappings.foldl (rankSelStep from_clause) (ctx, [])
    let ctx := colStep.1
    let columns := if colStep.2.isEmpty then ["*"] else colStep.2
    let select_clause := pyJoin ",\n    " columns
    let pw := render_filters ctx node.filters (some from_clause)
    let ctx := pw.1
    let where_clause := pw.2
    let where_clause :=
      if ctx.database_mode = .HANA && where_clause ≠ "" then
        let w := cleanup_hana_parameter_conditions where_clause
        if pyStrip w = "" || pyStrip w = "()" then "" else w
      else where_clause
    let sql := "SELECT\n    " ++ select_clause ++ "\nFROM " ++ from_clause
    if where_clause ≠ "" then (ctx, sql ++ "\nWHERE " ++ where_clause)
    else (ctx, sql)

/-- `_render_node`: dispatch on node kind and runtime class. -/
def render_node (ctx : RenderContext) (node : Node) :
    RenderContext × String :=
  if node.kind = .PROJECTION then render_projection ctx node
  else if node.kind = .JOIN && node.isJoinNode then render_join ctx node
  else if node.kind = .AGGREGATION && node.isAggregationNode then
    render_aggregation ctx node
  else if node.kind = .UNION && node.isUnionNode then render_union ctx node
  else if node.kind = .RANK && node.isRankNode then render_rank ctx node
  else if node.kind = .CALCULATION then render_calculation ctx node
  else
    (ctx.warn ("Unsupported node type " ++ node.kind.value ++
      " - conversion not possible"), "SELECT 1 AS placeholder")

/-! ## Graph resolver (renderer.py, `_topological_sort` and
`_find_final_node`) -/

/-- The input cleaning used by the topological sort and alias generation:
`_clean_ref` followed by the `^\d+/` strip. -/
def cleanInputRef (input_id : String) : String :=
  stripDigitSlashPrefix (clean_ref input_id)

/-- Membership in `all_ids` (data-source keys union node keys). -/
def memIds (s : Scenario) (x : String) : Bool :=
  amem s.data_sources x || amem s.nodes x

/-- The resolvable dependency edges `(cleaned input, node)` of a Scenario,
in node-iteration and input order: the concatenation of all
`graph[cleaned].append(node_id)` calls of the source. -/
def topoEdges (s : Scenario) : List (String × String) :=
  s.nodes.flatMap (fun p =>
    p.2.inputs.filterMap (fun input_id =>
      let cleaned := cleanInputRef input_id
      if memIds s cleaned then some (cleaned, p.1) else none))

/-- Lookup with default 0 (Python `defaultdict(int)`). -/
def dgetI (m : List (String × Int)) (k : String) : Int :=
  (alookup m k).getD 0

/-- Initial in-degrees: each node counts its resolvable inputs; data
sources are explicitly zero. -/
def indegInit (s : Scenario) : List (String × Int) :=
  (s.data_sources.map (fun p => (p.1, (0 : Int)))) ++
    (s.nodes.map (fun p =>
      (p.1, (Int.ofNat ((topoEdges s).countP (fun e => e.2 = p.1))))))

/-- One decrement of the Kahn work loop: `in_degree[dep] -= 1`, enqueue on
reaching zero. -/
def kahnStep (st : List (String × Int) × List String) (dep : String) :
    List (String × Int) × List String :=
  let d := dgetI st.1 dep - 1
  let m := dictSet st.1 dep d
  if d = 0 then (m, st.2 ++ [dep]) else (m, st.2)

/-- Kahn's algorithm work loop (`while queue`).  Each vertex is enqueued at
most once — initially-zero vertices come from the distinct id set, and a
positive in-degree passes through zero at most once because it only
decreases — so `fuel` at least the number of vertices makes the fuel bound
unreachable. -/
def kahnLoop (graphE : List (String × String)) :
    Nat → List String → List (String × Int) → List String → List String
  | _, [], _, result => result
  | 0, _, _, result => result
  | fuel + 1, current :: queue, indeg, result =>
    let deps := (graphE.filter (fun e => e.1 = current)).map (fun e => e.2)
    let step := deps.foldl kahnStep (indeg, [])
    kahnLoop graphE fuel (queue ++ step.2) step.1 (result ++ [current])

/-- `_topological_sort`, parameterised by `idOrder`: the enumeration order
of the CPython set `all_ids`, which is observable in the initial queue and
in the appended remainder but is not specified by the language. -/
def topological_sort (s : Scenario) (idOrder : List String) : List String :=
  let graphE := topoEdges s
  let indeg0 := indegInit s
  let queue0 := idOrder.filter (fun id => dgetI indeg0 id = 0)
  let result := kahnLoop graphE (idOrder.length + 1) queue0 indeg0 []
  if result.length < idOrder.length then
    result ++ idOrder.filter (fun id => !result.contains id)
  else result

/-- The canonical `all_ids` enumeration used for concrete scenarios:
data-source keys then node keys (one admissible set order). -/
def allIds (s : Scenario) : List String :=
  ((s.data_sources.map (fun p => p.1)) ++ (s.nodes.map (fun p => p.1))).foldl
    setAdd []

/-- The referenced-id set of `_find_final_node`: every input of every node
with leading `#` characters stripped (note: not the full `_clean_ref`
cleaning used elsewhere). -/
def finalNodeReferenced (s : Scenario) : List String :=
  s.nodes.flatMap (fun p =>
    p.2.inputs.map (fun i => pyLstripChars i ['#']))

/-- `_find_final_node`: the declared logical-model base node when present,
otherwise the last id in sort order that is a node and is never referenced
(under `lstrip("#")`), otherwise the last id. -/
def find_final_node (s : Scenario) (ordered : List String) : Option String :=
  if ordered.isEmpty then none
  else
    let base :=
      match s.logical_model with
      | some lm => if truthyStr lm.base_node_id then lm.base_node_id else none
      | none => none
    match base with
    | some b => some b
    | none =>
      let referenced := finalNodeReferenced s
      match ordered.reverse.find?
          (fun node_id =>
            !referenced.contains node_id && amem s.nodes node_id) with
      | some node_id => some node_id
      | none => ordered.getLast?

/-! ## SQL assembly and the render driver (renderer.py) -/

/-- `_generate_view_statement`. -/
def generate_view_statement (view_name : String) (mode : DatabaseMode) :
    String :=
  let quoted_name :=
    if pyContains view_name "." then
      pyJoin "." ((pySplitStr view_name ".").map (fun part =>
        "\"" ++ part ++ "\""))
    else "\"" ++ view_name ++ "\""
  match mode with
  | .SNOWFLAKE => "CREATE OR REPLACE VIEW " ++ quoted_name ++ " AS"
  | .HANA =>
    "DROP VIEW " ++ quoted_name ++ " CASCADE;\nCREATE VIEW " ++ quoted_name ++
      " AS"

/-- `_assemble_sql`. -/
def assemble_sql (ctes : List String) (final_select : String)
    (warnings : List String) (view_name : Option String := none)
    (database_mode : DatabaseMode := .SNOWFLAKE) : String :=
  let lines : List String :=
    (if !warnings.isEmpty then
      ["-- Warnings:"] ++ warnings.map (fun w => "--   " ++ w) ++ [""]
    else []) ++
    (match view_name with
     | some v =>
       if v ≠ "" then [generate_view_statement v database_mode] else []
     | none => []) ++
    (if !ctes.isEmpty then ["WITH", pyJoin ",\n" ctes, ""] else []) ++
    [final_select]
  pyJoin "\n" lines

/-- The five validation passes run by `render_scenario`, in order. -/
def validateFive (scenario : Scenario) (sql : String)
    (ctx : RenderContext) : List ValidationResult :=
  [validate_sql_structure sql,
   validate_query_completeness scenario sql ctx,
   validate_performance sql scenario,
   validate_snowflake_specific sql,
   analyze_query_complexity sql scenario]

/-- All errors of the five passes in pass order. -/
def fiveErrors (results : List ValidationResult) : List ValidationIssue :=
  results.flatMap (fun r => r.errors)

/-- The aggregated failure message raised by `render_scenario`. -/
def aggregatedErrorMsg (results : List ValidationResult) : String :=
  "SQL validation failed: " ++
    pyJoin "; " ((fiveErrors results).map ValidationIssue.str)

/-- The warning/info merge of `render_scenario` after a successful
validation. -/
def mergeValidationWarnings (ctx : RenderContext)
    (results : List ValidationResult) : RenderContext :=
  results.foldl
    (fun ctx r =>
      let ctx := r.warnings.foldl (fun c w => c.warn w.message) ctx
      r.info.foldl (fun c i => c.warn ("Info: " ++ i.message)) ctx)
    ctx

/-- One iteration of the CTE-rendering loop of `render_scenario`. -/
def renderNodeStep (scenario : Scenario)
    (st : RenderContext × List String) (node_id : String) :
    RenderContext × List String :=
  if amem scenario.data_sources node_id then st
  else
    match alookup scenario.nodes node_id with
    | none =>
      (st.1.warn ("Node " ++ node_id ++ " referenced but not found"),
        st.2)
    | some node =>
      let p := render_node st.1 node
      if p.2 ≠ "" then
        let pa := RenderContext.get_cte_alias p.1 node_id
        (pa.1, st.2 ++ ["  " ++ pa.2 ++ " AS (\n    " ++
          pyReplace p.2 "\n" "\n    " ++ "\n  )"])
      else (p.1, st.2)

/-- The CTE-rendering loop of `render_scenario`. -/
def renderAllNodes (scenario : Scenario) (ordered : List String)
    (ctx : RenderContext) : RenderContext × List String :=
  ordered.foldl (renderNodeStep scenario) (ctx, [])

/-- The placeholder CTE emitted when nothing could be rendered. -/
def placeholderCte : String := "  final AS (\n    SELECT NULL AS placeholder\n  )"

/-- The final-SELECT construction of `render_scenario` for a terminal node
rendered as a CTE. -/
def finalSelectForNode (scenario : Scenario) (final_node_id : String)
    (final_alias : String) : String :=
  match alookup scenario.nodes final_node_id with
  | some final_node =>
    if !final_node.view_attributes.isEmpty then
      "SELECT " ++
        pyJoin ", " (final_node.view_attributes.map quote_identifier) ++
        " FROM " ++ final_alias
    else "SELECT * FROM " ++ final_alias
  | none => "SELECT * FROM " ++ final_alias

/-- The calculated-attribute step of the data-source-terminal final
SELECT. -/
def dsCalcStep (from_clause : String)
    (st : RenderContext × List String)
    (calc_attr : LogicalCalculatedAttribute) :
    RenderContext × List String :=
  let pe :=
    if calc_attr.expression.expression_type = .RAW then
      let formula := calc_attr.expression.value
      let formula := reSub
        (RE.cat [RE.ch '"',
          RE.grp 1 (RE.plus1 (RE.cls (fun c => c ≠ '"'))),
          RE.ch '"'])
        (fun m =>
          (from_clause ++ "." ++
            quote_identifier (String.mk (capGet m.caps 1))).data)
        formula
      (st.1, translate_raw_formula formula st.1.transEnv)
    else render_expression st.1 calc_attr.expression
      (some from_clause)
  (pe.1, st.2 ++ [pe.2 ++ " AS " ++ quote_identifier calc_attr.name])

/-- The data-source-terminal final SELECT of `render_scenario` (logical
model attributes and calculated attributes instead of `*`). -/
def finalSelectForDataSource (scenario : Scenario) (ctx : RenderContext)
    (from_clause : String) : RenderContext × String :=
  match scenario.logical_model with
  | some lm =>
    if !lm.attributes.isEmpty then
      let items0 := lm.attributes.filterMap
        (fun attr =>
          match attr.column_name with
          | some cn =>
            if cn ≠ "" then
              some (from_clause ++ "." ++ cn ++ " AS " ++
                quote_identifier attr.name)
            else none
          | none => none)
      let step := lm.calculated_attributes.foldl
        (dsCalcStep from_clause) (ctx, items0)
      let ctx := step.1
      let select_items := step.2
      if !select_items.isEmpty then
        (ctx, "SELECT\n    " ++ pyJoin ",\n    " select_items ++ "\nFROM " ++
          from_clause)
      else (ctx, "SELECT * FROM " ++ from_clause)
    else (ctx, "SELECT * FROM " ++ from_clause)
  | none => (ctx, "SELECT * FROM " ++ from_clause)

/-- The placeholder/last-CTE fallback of the terminal-node-is-a-CTE tail of
`render_scenario`. -/
def mainPathStep (ctx : RenderContext) (ctes : List String)
    (final final_alias0 : String) :
    RenderContext × List String × String :=
  if !amem ctx.cte_aliases final then
    if ctes.isEmpty then
      ({ (ctx.warn ("Final node " ++ final ++
          " referenced but not found in CTEs; using placeholder CTE"))
        with cte_aliases := ctx.cte_aliases ++ [("final", "final")] },
        [placeholderCte], final_alias0)
    else
      let ctx := ctx.warn ("Final node " ++ final ++
        " referenced but not found in CTEs; using last CTE")
      let last_alias :=
        if !ctx.cte_aliases.isEmpty then
          ((ctx.cte_aliases.map (fun q => q.2)).getLast?).getD "final"
        else "final"
      (ctx, ctes, last_alias)
  else (ctx, ctes, final_alias0)

/-- The terminal-node-is-a-CTE tail of `render_scenario` up to (but not
including) validation (continued): final SELECT and assembly. -/
def mainPathSqlCtx (scenario : Scenario) (create_view : Bool)
    (view_name : Option String) (ctx : RenderContext) (ctes : List String)
    (final : String) : String × RenderContext :=
  let final_alias0 := (alookup ctx.cte_aliases final).getD "final"
  let step := mainPathStep ctx ctes final final_alias0
  let ctx := step.1
  let ctes := step.2.1
  let final_alias := step.2.2
  let final_select := finalSelectForNode scenario final final_alias
  let sql :=
    if create_view then
      assemble_sql ctes final_select ctx.warnings
        (some (orStr view_name scenario.metadata.scenario_id))
        ctx.database_mode
    else
      assemble_sql ctes final_select ctx.warnings none ctx.database_mode
  (sql, ctx)

/-- `render_scenario`: the full rendering driver, returning either the
raised validation error or the SQL string together with the final context
(whose `warnings` field is what `return_warnings=True` exposes).
`idOrder` models the CPython enumeration order of the `all_ids` set, as in
`topological_sort`. -/
def render_scenario (scenario : Scenario) (idOrder : List String)
    (schema_overrides : Option (List (String × String)) := none)
    (target_schema : Option String := none)
    (client : Option String := none)
    (language : Option String := none)
    (database_mode : DatabaseMode := .SNOWFLAKE)
    (hana_version : Option HanaVersion := none)
    (xml_format : Option XMLFormat := none)
    (create_view : Bool := false)
    (view_name : Option String := none)
    (currency_udf : Option String := none)
    (currency_schema : Option String := none)
    (currency_table : Option String := none)
    (validate : Bool := true)
    (applyPatternRewrites : DatabaseMode → String → String := fun _ s => s)
    (applyCatalogRewrites : String → String := fun s => s)
    (get_package : String → Option String := fun _ => none) :
    Except String (String × RenderContext) :=
  let ctx := RenderContext.init scenario schema_overrides target_schema
    client language database_mode hana_version xml_format currency_udf
    currency_schema currency_table applyPatternRewrites applyCatalogRewrites
    get_package
  let ordered := topological_sort scenario idOrder
  let p := renderAllNodes scenario ordered ctx
  let ctx := p.1
  let ctes := p.2
  let final_node_id := find_final_node scenario ordered
  let finalTruthy :=
    match final_node_id with
    | some f => f ≠ ""
    | none => false
  if !finalTruthy then
    let error_msg := "No terminal node found - cannot generate valid SQL"
    let ctx := ctx.warn error_msg
    let fix :=
      if ctes.isEmpty then
        ({ ctx with cte_aliases := ctx.cte_aliases ++ [("final", "final")] },
          [placeholderCte])
      else (ctx, ctes)
    let ctx := fix.1
    let ctes := fix.2
    let final_select := if !ctes.isEmpty then "SELECT * FROM final" else ""
    let sql := assemble_sql ctes final_select ctx.warnings
    if validate then
      let validation_result := ValidationResult.add_error {} error_msg
        "MISSING_FINAL_NODE"
      if validation_result.has_errors then
        Except.error ("SQL validation failed: " ++
          pyJoin "; " (validation_result.errors.map ValidationIssue.str))
      else Except.ok (sql, ctx)
    else Except.ok (sql, ctx)
  else
    let final := (final_node_id.getD "")
    if amem scenario.data_sources final then
      let pf := render_from ctx final
      let ctx := pf.1
      let from_clause := pf.2
      let ps := finalSelectForDataSource scenario ctx from_clause
      let ctx := ps.1
      let final_select := ps.2
      let sql :=
        if create_view then
          assemble_sql ctes final_select ctx.warnings
            (some (orStr view_name scenario.metadata.scenario_id))
            ctx.database_mode
        else
          assemble_sql ctes final_select ctx.warnings none ctx.database_mode
      Except.ok (sql, ctx)
    else
      let q := mainPathSqlCtx scenario create_view view_name ctx ctes final
      let sql := q.1
      let ctx := q.2
      if validate then
        let results := validateFive scenario sql ctx
        if results.any (fun r => r.has_errors) then
          Except.error (aggregatedErrorMsg results)
        else
          let ctx := mergeValidationWarnings ctx results
          Except.ok (sql, ctx)
      else Except.ok (sql, ctx)

/-! ## Helper quantities for the graph resolver proofs -/

/-- Edges of a dependency-edge list that point into `v` (with
multiplicity). -/
def cntInto (graphE : List (String × String)) (v : String) : Nat :=
  graphE.countP (fun e => e.2 = v)

/-- Edges that point into `v` from a source inside `R` (with
multiplicity). -/
def cntFromInto (graphE : List (String × String)) (R : List String)
    (v : String) : Nat :=
  graphE.countP (fun e => R.contains e.1 && e.2 = v)

/-- A vertex list respects the dependency edges: every edge whose target
occurs also has its source occurring, strictly earlier. -/
def orderedOk (graphE : List (String × String)) (R : List String) : Prop :=
  ∀ e ∈ graphE, e.2 ∈ R → e.1 ∈ R ∧ List.indexOf e.1 R < List.indexOf e.2 R

/-! ## Spec-side definitions

These are NOT translated from the source: they follow the specification's
words, for comparison with the source-side definitions above. -/

/-- What the spec's final-node sentence describes: like `find_final_node`,
but with the referenced-id set computed with the same reference cleaning
(`_clean_ref` plus the `^\d+/` strip) that the topological sort applies to
`node.inputs`. -/
def findFinalNodeSpec (s : Scenario) (ordered : List String) :
    Option String :=
  if ordered.isEmpty then none
  else
    let base :=
      match s.logical_model with
      | some lm => if truthyStr lm.base_node_id then lm.base_node_id else none
      | none => none
    match base with
    | some b => some b
    | none =>
      let referenced := s.nodes.flatMap (fun p => p.2.inputs.map cleanInputRef)
      match ordered.reverse.find?
          (fun node_id =>
            !referenced.contains node_id && amem s.nodes node_id) with
      | some node_id => some node_id
      | none => ordered.getLast?

/-- The amended description of `guess_literal_type`: all-digit strings are
numeric (the 8-digit date clause is unreachable), only the `YYYY-MM-DD`
shape is a date, everything else is text. -/
def guessLiteralTypeAmended (value : String) : Option DataTypeSpec :=
  let stripped := pyStrip value
  if stripped = "" then none
  else if pyIsDigitStr stripped then
    some { type := .NUMBER, length := some (min stripped.length 38) }
  else if isIsoDateShape stripped then
    some { type := .DATE }
  else
    some { type := .VARCHAR, length := some (max stripped.length 10) }

/-! ## Concrete scenarios used by the theorems below -/

/-- A plain table data source. -/
def dsOf (id sch obj : String) : DataSource :=
  { source_id := id, source_type := .TABLE, schema_name := sch,
    object_name := obj }

/-- The end-to-end scenario of the cartesian-product claim: one INNER join
of two table data sources with zero join conditions. -/
def exJoinNode : Node :=
  { node_id := "J", kind := .JOIN, inputs := ["DS1", "DS2"],
    ext := .join .INNER [] }

def exJoinScenario : Scenario :=
  { metadata := { scenario_id := "SC" }
    data_sources := [("DS1", dsOf "DS1" "S" "T1"), ("DS2", dsOf "DS2" "S" "T2")]
    nodes := [("J", exJoinNode)] }

/-- A scenario on which `find_final_node` (which strips only leading `#`
characters from input references) and the cleaned-reference reading of the
spec disagree: `X` is referenced as `#/0/X` (cleans to `X`, lstrips to
`/0/X`), `Y` is referenced as `##Y` (cleans to `#Y`, lstrips to `Y`). -/
def exC3NodeX : Node :=
  { node_id := "X", kind := .PROJECTION, inputs := ["##Y"] }

def exC3NodeY : Node :=
  { node_id := "Y", kind := .PROJECTION, inputs := ["#/0/X"] }

def exC3Scenario : Scenario :=
  { metadata := { scenario_id := "SC3" }
    data_sources := []
    nodes := [("X", exC3NodeX), ("Y", exC3NodeY)] }

/-- A scenario whose two node ids `N 1` and `N_1` normalise to the same CTE
alias `n_1`, producing a duplicate-CTE validation error. -/
def exDupNodeA : Node :=
  { node_id := "N 1", kind := .PROJECTION, inputs := ["DS1"] }

def exDupNodeB : Node :=
  { node_id := "N_1", kind := .PROJECTION, inputs := ["DS1"] }

def exDupCteScenario : Scenario :=
  { metadata := { scenario_id := "SC2" }
    data_sources := [("DS1", dsOf "DS1" "S" "T1")]
    nodes := [("N 1", exDupNodeA), ("N_1", exDupNodeB)] }

/-- A SQL text whose parentheses are balanced outside string literals but
which holds a lone `(` inside a quoted literal. -/
def exLoneParenSql : String := "SELECT " ++ sqS ++ "(" ++ sqS ++ " FROM T"

/-! ## Theorems -/

/-- Claim C2: the IN-function rewrite of the expression converter is not
idempotent — a first application turns the functional form into the
operator form, and a second application corrupts the already-converted
text, so the rewrite pass must not run twice. -/
theorem convert_in_not_idempotent :
    convert_in_function_to_operator "IN(a, b, c)" = "a IN (b, c)" ∧
      convert_in_function_to_operator "a IN (b, c)" = "a b IN (c)" := by
  constructor <;> decide

/-- Claim C5 counterexample: an eight-digit literal is typed as NUMBER(8)
by `guess_literal_type`, never as DATE — the spec's eight-digit date
clause is unreachable. -/
theorem guess_literal_type_eight_digit_counterexample :
    guess_literal_type "20240101" =
        some { type := .NUMBER, length := some 8 } ∧
      guess_literal_type "20240101" ≠ some { type := .DATE } := by
  constructor <;> decide

/-- Claim C6 counterexample: `clean_ref` is not unconditionally
idempotent — a reference starting with two hashes loses one hash per
application, so a second application changes the value again. -/
theorem clean_ref_not_idempotent_on_double_hash :
    pyStartsWith "##Aggregation_1" "#" = true ∧
      clean_ref "##Aggregation_1" = "#Aggregation_1" ∧
      clean_ref (clean_ref "##Aggregation_1") = "Aggregation_1" ∧
      clean_ref (clean_ref "##Aggregation_1") ≠ clean_ref "##Aggregation_1" := by
  refine ⟨by decide, by decide, by decide, by decide⟩

/-- Claim C3 counterexample: `_find_final_node` strips only leading hash
characters from references, not the full `_clean_ref` cleaning, so a
`#/0/X`-style input leaves `X` looking unreferenced and the code disagrees
with a spec-faithful variant that uses the cleaned references. -/
theorem find_final_node_cleaning_mismatch :
    cleanInputRef "#/0/X" = "X" ∧
      find_final_node exC3Scenario
          (topological_sort exC3Scenario (allIds exC3Scenario)) = some "X" ∧
      findFinalNodeSpec exC3Scenario
          (topological_sort exC3Scenario (allIds exC3Scenario)) = some "Y" := by
  refine ⟨by decide, by decide, by decide⟩

/-- Claim C5 (amended): `guess_literal_type` maps every all-digit literal
(including eight-digit ones) to NUMBER with length capped at 38, maps
exactly the `YYYY-MM-DD` shape to DATE, and everything else to VARCHAR
with length at least 10. -/
theorem guess_literal_type_characterisation (value : String) :
    guess_literal_type value = guessLiteralTypeAmended value := by
  unfold guess_literal_type guessLiteralTypeAmended
  by_cases h0 : pyStrip value = ""
  · simp [h0]
  · simp only [h0, if_false]
    by_cases h1 : pyIsDigitStr (pyStrip value) = true
    · simp [h1]
    · have h8 : isEightDigits (pyStrip value) = false := by
        unfold isEightDigits
        unfold pyIsDigitStr at h1
        rcases hd : (pyStrip value).data with _ | ⟨c, cs⟩
        · exfalso
          apply h0
          have : pyStrip value = String.mk (pyStrip value).data := rfl
          rw [this, hd]
        · have hall : ¬((c :: cs).all pyIsDigit = true) := by
            intro h
            apply h1
            simp [hd, h]
          simp only [Bool.not_eq_true] at hall
          simp [hall]
      simp [h1, h8]

/-- Fixed points of stripping that do not start with a hash are fixed
points of reference cleaning. -/
theorem clean_ref_fixed (t : String) (hstrip : pyStrip t = t)
    (hhash : pyStartsWith t "#" = false) : clean_ref t = t := by
  have hd : t.data = [] ∨ ∃ c cs, t.data = c :: cs ∧ (c = '#') = False := by
    rcases ht : t.data with _ | ⟨c, cs⟩
    · exact Or.inl rfl
    · refine Or.inr ⟨c, cs, rfl, ?_⟩
      unfold pyStartsWith at hhash
      rw [ht] at hhash
      simp only [show ("#".data) = ['#'] from rfl, List.isPrefixOf,
        List.isPrefixOf_nil_left, Bool.and_true] at hhash
      simp only [eq_iff_iff, iff_false]
      intro hc
      rw [hc] at hhash
      simp at hhash
  have h3 : pyStartsWith t "#//" = false := by
    unfold pyStartsWith
    rcases hd with h | ⟨c, cs, h, hc⟩ <;> rw [h]
    · rfl
    · simp only [show ("#//".data) = ['#', '/', '/'] from rfl,
        List.isPrefixOf, Bool.and_eq_false_iff]
      left
      simpa using fun hx => (hc.mp hx.symm).elim
  have h2 : pyStartsWith t "#/" = false := by
    unfold pyStartsWith
    rcases hd with h | ⟨c, cs, h, hc⟩ <;> rw [h]
    · rfl
    · simp only [show ("#/".data) = ['#', '/'] from rfl,
        List.isPrefixOf, Bool.and_eq_false_iff]
      left
      simpa using fun hx => (hc.mp hx.symm).elim
  unfold clean_ref
  rw [hstrip]
  simp only [h3, h2, hhash]
  simp

/-- Claim C6 (amended): `clean_ref` is idempotent on every reference whose
cleaned form is whitespace-stripped and carries no remaining leading
hash — one application yields a fixed point in exactly that case. -/
theorem clean_ref_idempotent_amended (s : String)
    (hstrip : pyStrip (clean_ref s) = clean_ref s)
    (hhash : pyStartsWith (clean_ref s) "#" = false) :
    clean_ref (clean_ref s) = clean_ref s :=
  clean_ref_fixed (clean_ref s) hstrip hhash

/-- Witness for the amended `clean_ref` idempotence at a concrete
reference. -/
theorem clean_ref_idempotent_amended_witness :
    clean_ref "#//Aggregation_1" = "Aggregation_1" ∧
      clean_ref (clean_ref "#//Aggregation_1") = clean_ref "#//Aggregation_1" :=
  ⟨by decide,
    clean_ref_idempotent_amended "#//Aggregation_1" (by decide) (by decide)⟩

/-- Claim C7: a `COMPARISON` predicate with operator `=` and
`including = false` is rendered through `negate_operator` as
`left <> right`, and operator negation is an involution on `=`. -/
theorem negated_equals_renders_not_equals :
    (∀ (ctx : RenderContext) (l r : Expression) (ta : Option String),
      render_filters ctx
          [{ kind := .COMPARISON, left := l, operator := some "=",
             right := some r, including := false }] ta =
        ((render_expression (render_expression ctx l ta).1 r ta).1,
          (render_expression ctx l ta).2 ++ " <> " ++
            (render_expression (render_expression ctx l ta).1 r ta).2)) ∧
      negate_operator "=" = "<>" ∧
      negate_operator (negate_operator "=") = "=" := by
  refine ⟨fun ctx l r ta => ?_, by decide, by decide⟩
  unfold render_filters
  rcases hp : render_expression ctx l ta with ⟨c1, ls⟩
  rcases hq : render_expression c1 r ta with ⟨c2, rs⟩
  simp +decide [hp, hq, orStr, negate_operator, pyUpper, pyJoin,
    strIntercalate]
  rw [String.append_assoc ls " " "<>"]
  rw [show (" " : String) ++ "<>" = " <>" from rfl]
  rw [String.append_assoc ls " <>" " "]
  rw [show (" <>" : String) ++ " " = " <> " from rfl]

/-- Two-element permutation case split. -/
theorem perm2_cases (l : List String) (a b : String)
    (h : List.Perm l [a, b]) : l = [a, b] ∨ l = [b, a] := by
  have hlen : l.length = 2 := by simpa using h.length_eq
  match l, hlen with
  | [x, y], _ =>
    have hx : x ∈ [a, b] := h.mem_iff.mp (by simp)
    rcases (by simpa using hx : x = a ∨ x = b) with rfl | rfl
    · have h2 : List.Perm [y] [b] := h.cons_inv
      left
      simpa using h2.mem_iff.mp (by simp)
    · have h2 : List.Perm [y] [a] :=
        List.Perm.cons_inv (h.trans (List.Perm.swap x a []))
      right
      simpa using h2.mem_iff.mp (by simp)

/-- Three-element permutation case split. -/
theorem perm3_cases (l : List String) (a b c : String)
    (h : List.Perm l [a, b, c]) :
    l = [a, b, c] ∨ l = [a, c, b] ∨ l = [b, a, c] ∨ l = [b, c, a] ∨
      l = [c, a, b] ∨ l = [c, b, a] := by
  have hlen : l.length = 3 := by simpa using h.length_eq
  match l, hlen with
  | x :: rest, _ =>
    have hx : x ∈ [a, b, c] := h.mem_iff.mp (by simp)
    rcases (by simpa using hx : x = a ∨ x = b ∨ x = c) with rfl | rfl | rfl
    · rcases perm2_cases rest b c h.cons_inv with rfl | rfl
      · exact Or.inl rfl
      · exact Or.inr (Or.inl rfl)
    · have h2 : List.Perm rest [a, c] :=
        List.Perm.cons_inv (h.trans (List.Perm.swap x a [c]))
      rcases perm2_cases rest a c h2 with rfl | rfl
      · exact Or.inr (Or.inr (Or.inl rfl))
      · exact Or.inr (Or.inr (Or.inr (Or.inl rfl)))
    · have h2 : List.Perm rest [a, b] := by
        have g1 : List.Perm [a, b, x] [a, x, b] :=
          List.Perm.cons a (List.Perm.swap x b [])
        have g2 : List.Perm [a, x, b] [x, a, b] := List.Perm.swap x a [b]
        exact List.Perm.cons_inv (h.trans (g1.trans g2))
      rcases perm2_cases rest a b h2 with rfl | rfl
      · exact Or.inr (Or.inr (Or.inr (Or.inr (Or.inl rfl))))
      · exact Or.inr (Or.inr (Or.inr (Or.inr (Or.inr rfl))))

/-- `render_scenario` depends on the id-enumeration order only through the
topological sort. -/
theorem render_scenario_ordered_congr (s : Scenario) (o1 o2 : List String)
    (h : topological_sort s o1 = topological_sort s o2) :
    render_scenario s o1 = render_scenario s o2 := by
  unfold render_scenario
  rw [h]

set_option maxRecDepth 100000 in
/-- Claim C4: a join node with no join conditions renders as a CTE whose
join carries the fallback condition `1=1` — a cartesian product — and the
renderer records the corresponding warning. -/
theorem join_without_conditions_cartesian (idOrder : List String)
    (h : List.Perm idOrder (allIds exJoinScenario)) :
    (match render_scenario exJoinScenario idOrder with
     | .ok (sql, ctx) =>
       pyContains sql "ON 1=1" &&
         ((ctx.warnings.filter (fun w => pyContains w "cartesian")).length == 1)
     | .error _ => false) = true := by
  have hids : allIds exJoinScenario = ["DS1", "DS2", "J"] := by decide
  rw [hids] at h
  have h6 := perm3_cases idOrder "DS1" "DS2" "J" h
  have hA : (match render_scenario exJoinScenario ["DS1", "DS2", "J"] with
     | .ok (sql, ctx) =>
       pyContains sql "ON 1=1" &&
         ((ctx.warnings.filter (fun w => pyContains w "cartesian")).length == 1)
     | .error _ => false) = true := by decide
  have hB : (match render_scenario exJoinScenario ["DS2", "DS1", "J"] with
     | .ok (sql, ctx) =>
       pyContains sql "ON 1=1" &&
         ((ctx.warnings.filter (fun w => pyContains w "cartesian")).length == 1)
     | .error _ => false) = true := by decide
  rcases h6 with rfl | rfl | rfl | rfl | rfl | rfl
  · exact hA
  · rw [render_scenario_ordered_congr exJoinScenario ["DS1", "J", "DS2"]
      ["DS1", "DS2", "J"] (by decide)]
    exact hA
  · exact hB
  · rw [render_scenario_ordered_congr exJoinScenario ["DS2", "J", "DS1"]
      ["DS2", "DS1", "J"] (by decide)]
    exact hB
  · rw [render_scenario_ordered_congr exJoinScenario ["J", "DS1", "DS2"]
      ["DS1", "DS2", "J"] (by decide)]
    exact hA
  · rw [render_scenario_ordered_congr exJoinScenario ["J", "DS2", "DS1"]
      ["DS2", "DS1", "J"] (by decide)]
    exact hB

/-- Witness for the cartesian-join rendering on the two-table example
scenario. -/
theorem join_without_conditions_cartesian_witness :
    (match render_scenario exJoinScenario (allIds exJoinScenario) with
     | .ok (sql, ctx) =>
       pyContains sql "ON 1=1" &&
         ((ctx.warnings.filter (fun w => pyContains w "cartesian")).length == 1)
     | .error _ => false) = true :=
  join_without_conditions_cartesian (allIds exJoinScenario)
    (List.Perm.refl (allIds exJoinScenario))

/-- Adding a warning leaves the error list unchanged. -/
theorem errors_add_warning (r : ValidationResult) (m c : String)
    (ln : Option Nat) : (r.add_warning m c ln).errors = r.errors := rfl

/-- Adding an info leaves the error list unchanged. -/
theorem errors_add_info (r : ValidationResult) (m c : String)
    (ln : Option Nat) : (r.add_info m c ln).errors = r.errors := rfl

/-- The error list after `add_error`. -/
theorem errors_add_error (r : ValidationResult) (m c : String)
    (ln : Option Nat) :
    (r.add_error m c ln).errors =
      r.errors ++ [⟨.ERROR, m, c, ln, none⟩] := rfl

/-- The error list after the duplicate-CTE fold. -/
theorem errors_dup_foldl (l : List (Nat × String)) (r : ValidationResult) :
    (l.foldl (fun r p =>
        r.add_error ("Duplicate CTE name: " ++ p.2) "DUPLICATE_CTE"
          (some (p.1 + 1))) r).errors =
      r.errors ++ l.map (fun p =>
        ⟨.ERROR, "Duplicate CTE name: " ++ p.2, "DUPLICATE_CTE",
          some (p.1 + 1), none⟩) := by
  induction l generalizing r with
  | nil => simp
  | cons p t ih =>
    rw [List.foldl_cons, ih]
    simp [ValidationResult.add_error]

/-- An all-whitespace string has no parentheses. -/
theorem count_paren_of_strip_empty (sql : String) (h : pyStrip sql = "")
    (c : Char) (hc : pyIsSpace c = false) : pyCountChar sql c = 0 := by
  unfold pyStrip at h
  have h2 : (sql.data.dropWhile pyIsSpace).reverse.dropWhile pyIsSpace = [] := by
    have := congrArg String.data h
    simpa using this
  have h3 : ∀ x ∈ (sql.data.dropWhile pyIsSpace).reverse, pyIsSpace x := by
    simpa [List.dropWhile_eq_nil_iff] using h2
  have h4 : ∀ x ∈ sql.data, pyIsSpace x := by
    intro x hx
    have hx2 : x ∈ List.takeWhile pyIsSpace sql.data ++
        List.dropWhile pyIsSpace sql.data := by
      rw [List.takeWhile_append_dropWhile]
      exact hx
    rcases List.mem_append.mp hx2 with h | h
    · exact List.mem_takeWhile_imp h
    · exact h3 x (List.mem_reverse.mpr h)
  unfold pyCountChar
  rw [List.countP_eq_zero]
  intro x hx
  have := h4 x hx
  simp only [decide_eq_true_eq]
  intro rfl_eq
  rw [rfl_eq] at this
  rw [hc] at this
  exact Bool.noConfusion this

/-- An `ite` that at most adds a warning does not change the errors. -/
theorem errors_ite_warning (c : Prop) [Decidable c] (r : ValidationResult)
    (m k : String) (ln : Option Nat) :
    (if c then r.add_warning m k ln else r).errors = r.errors := by
  split <;> rfl

set_option maxHeartbeats 2000000 in
/-- Claim C10: the parenthesis-balance validation counts raw characters,
so on SQL containing a quoted lone parenthesis `validate_sql_syntax`
reports the unbalanced-parentheses error even though the statement's
effective parentheses are balanced. -/
theorem unbalanced_parentheses_raw_count :
    (∀ sql : String,
      ((validate_sql_structure sql).errors.any
          (fun e => e.code = "UNBALANCED_PARENTHESES")) =
        !(pyCountChar sql '(' == pyCountChar sql ')')) ∧
      ((validate_sql_structure exLoneParenSql).errors.any
          (fun e => e.code = "UNBALANCED_PARENTHESES")) = true ∧
      pyCountChar exLoneParenSql '(' = 1 ∧
      pyCountChar exLoneParenSql ')' = 0 := by
  refine ⟨fun sql => ?_, by decide, by decide, by decide⟩
  by_cases h0 : (sql = "" || pyStrip sql = "") = true
  · have hop : pyCountChar sql '(' = 0 := by
      rcases Bool.or_eq_true_iff.mp h0 with h | h
      · simp only [decide_eq_true_eq] at h
        rw [h]
        rfl
      · simp only [decide_eq_true_eq] at h
        exact count_paren_of_strip_empty sql h '(' rfl
    have hcl : pyCountChar sql ')' = 0 := by
      rcases Bool.or_eq_true_iff.mp h0 with h | h
      · simp only [decide_eq_true_eq] at h
        rw [h]
        rfl
      · simp only [decide_eq_true_eq] at h
        exact count_paren_of_strip_empty sql h ')' rfl
    simp only [validate_sql_structure, if_pos h0, hop, hcl]
    simp [ValidationResult.add_error]
  · simp only [validate_sql_structure, if_neg h0]
    cases hfind : pyFindFrom (pyUpper sql) "SELECT"
        ((pyFindFrom (pyUpper sql) "WITH" 0).getD 0 + 4) <;>
      by_cases h1 : (!pyContains (pyUpper sql) "SELECT") = true <;>
      by_cases h2 : pyCountChar sql '(' = pyCountChar sql ')' <;>
      by_cases h4 : pyContains (pyUpper sql) "WITH" = true <;>
      by_cases h7 : pyCountSub (pyUpper sql) "SELECT" = 0 <;>
        (simp_all +decide [errors_add_error, errors_dup_foldl,
          errors_ite_warning, errors_add_warning, errors_add_info]) <;>
        (intro x i mstr hmem hx
         subst hx
         simp +decide)

/-- `find?` skips a prefix on which the predicate fails. -/
theorem find_skip_head {α : Type} (p : α → Bool) (l1 l2 : List α)
    (h : ∀ x ∈ l1, p x = false) :
    (l1 ++ l2).find? p = l2.find? p := by
  induction l1 with
  | nil => rfl
  | cons a t ih =>
    rw [List.cons_append, List.find?_cons, h a (by simp)]
    exact ih (fun x hx => h x (by simp [hx]))

/-- Claim C3 (amended): without a declared base node, `_find_final_node`
returns the last id in topological order that names a node and is
referenced by no input after stripping only leading hash characters (not
after full reference cleaning). -/
theorem find_final_node_last_unreferenced (s : Scenario)
    (ordered pre post : List String) (n : String)
    (hbase : match s.logical_model with
      | some lm => truthyStr lm.base_node_id = false
      | none => True)
    (hsplit : ordered = pre ++ n :: post)
    (hn : amem s.nodes n = true)
    (hnref : (finalNodeReferenced s).contains n = false)
    (hpost : ∀ m ∈ post, amem s.nodes m = false ∨
      (finalNodeReferenced s).contains m = true) :
    find_final_node s ordered = some n := by
  subst hsplit
  unfold find_final_node
  rw [if_neg (by simp)]
  have hbase2 : (match s.logical_model with
      | some lm => if truthyStr lm.base_node_id then lm.base_node_id else none
      | none => none) = (none : Option String) := by
    rcases hsl : s.logical_model with _ | lm
    · rfl
    · simp only [hsl] at hbase
      simp [hbase]
  simp only [hbase2]
  have hrev : (pre ++ n :: post).reverse = post.reverse ++ n :: pre.reverse := by
    rw [List.reverse_append, List.reverse_cons, List.append_assoc]
    rfl
  rw [hrev]
  rw [find_skip_head _ (post.reverse) (n :: pre.reverse)
    (fun m hm => by
      rcases hpost m (List.mem_reverse.mp hm) with h | h
      · rw [h, Bool.and_false]
      · rw [h, Bool.not_true, Bool.false_and])]
  rw [List.find?_cons, show (!(finalNodeReferenced s).contains n &&
    amem s.nodes n) = true by rw [hnref, hn]; rfl]

/-- Witness for the amended terminal-node selection on a concrete
scenario. -/
theorem find_final_node_last_unreferenced_witness :
    (topological_sort exC3Scenario (allIds exC3Scenario) =
        [] ++ "X" :: ["Y"]) ∧
      amem exC3Scenario.nodes "X" = true ∧
      (finalNodeReferenced exC3Scenario).contains "X" = false ∧
      find_final_node exC3Scenario
          (topological_sort exC3Scenario (allIds exC3Scenario)) = some "X" :=
  ⟨by decide, by decide, by decide,
    find_final_node_last_unreferenced exC3Scenario
      (topological_sort exC3Scenario (allIds exC3Scenario)) [] ["Y"] "X"
      (by trivial) (by decide) (by decide) (by decide)
      (by decide)⟩

/-- Claim C8: `render_scenario` gates its output on the five post-render
validators — when any of them reports errors the function returns the
aggregated error message instead of the generated SQL, and otherwise it
returns the SQL with the validators' warnings merged in. -/
theorem render_scenario_validation_gate (scenario : Scenario)
    (idOrder : List String) (f : String)
    (hf : find_final_node scenario (topological_sort scenario idOrder) =
      some f)
    (hne : f ≠ "")
    (hds : amem scenario.data_sources f = false) :
    render_scenario scenario idOrder =
      (let ctx0 := RenderContext.init scenario
       let ordered := topological_sort scenario idOrder
       let p := renderAllNodes scenario ordered ctx0
       let q := mainPathSqlCtx scenario false none p.1 p.2 f
       let results := validateFive scenario q.1 q.2
       if results.any (fun r => r.has_errors) then
         Except.error (aggregatedErrorMsg results)
       else Except.ok (q.1, mergeValidationWarnings q.2 results)) := by
  simp [render_scenario, hf, hne, hds]

set_option maxRecDepth 100000 in
set_option maxHeartbeats 4000000 in
/-- Witness: on a scenario whose rendered SQL fails validation,
`render_scenario` returns the aggregated error message. -/
theorem render_scenario_validation_gate_witness :
    find_final_node exDupCteScenario
        (topological_sort exDupCteScenario (allIds exDupCteScenario)) =
      some "N_1" ∧
    amem exDupCteScenario.data_sources "N_1" = false ∧
    render_scenario exDupCteScenario (allIds exDupCteScenario) =
      Except.error
        ("SQL validation failed: [ERROR] DUPLICATE_CTE: Duplicate CTE name: N_1 (line 2)") := by
  refine ⟨by decide, by decide, ?_⟩
  rw [render_scenario_validation_gate exDupCteScenario
    (allIds exDupCteScenario) "N_1" (by decide) (by decide) (by decide)]
  have hA : ((validateFive exDupCteScenario
      (mainPathSqlCtx exDupCteScenario false none
        (renderAllNodes exDupCteScenario
          (topological_sort exDupCteScenario (allIds exDupCteScenario))
          (RenderContext.init exDupCteScenario)).1
        (renderAllNodes exDupCteScenario
          (topological_sort exDupCteScenario (allIds exDupCteScenario))
          (RenderContext.init exDupCteScenario)).2 "N_1").1
      (mainPathSqlCtx exDupCteScenario false none
        (renderAllNodes exDupCteScenario
          (topological_sort exDupCteScenario (allIds exDupCteScenario))
          (RenderContext.init exDupCteScenario)).1
        (renderAllNodes exDupCteScenario
          (topological_sort exDupCteScenario (allIds exDupCteScenario))
          (RenderContext.init exDupCteScenario)).2 "N_1").2).any
      (fun r => r.has_errors)) = true := by decide
  simp only [hA, if_true]
  exact congrArg Except.error (by decide)

/-- `warn` does not touch the carried scenario. -/
theorem warn_scn (ctx : RenderContext) (w : String) :
    (ctx.warn w).scenario = ctx.scenario := rfl

/-- `get_cte_alias` does not touch the carried scenario. -/
theorem get_cte_alias_scn (ctx : RenderContext) (n : String) :
    (RenderContext.get_cte_alias ctx n).1.scenario = ctx.scenario := by
  unfold RenderContext.get_cte_alias
  split <;> rfl

/-- A fold whose step preserves the carried scenario preserves it. -/
theorem foldl_scn {α β : Type}
    (f : RenderContext × β → α → RenderContext × β)
    (h : ∀ st a, ((f st a).1).scenario = st.1.scenario) (l : List α) :
    ∀ st : RenderContext × β, ((l.foldl f st).1).scenario = st.1.scenario := by
  induction l with
  | nil => intro st; rfl
  | cons a t ih => intro st; rw [List.foldl_cons, ih, h]

/-- A fold over the bare context whose step preserves the scenario. -/
theorem foldl_scn1 {α : Type} (f : RenderContext → α → RenderContext)
    (h : ∀ c a, (f c a).scenario = c.scenario) (l : List α) :
    ∀ c : RenderContext, (l.foldl f c).scenario = c.scenario := by
  induction l with
  | nil => intro c; rfl
  | cons a t ih => intro c; rw [List.foldl_cons, ih, h]

mutual

theorem render_expression_scn : ∀ (ctx : RenderContext) (expr : Expression)
    (ta : Option String),
    (render_expression ctx expr ta).1.scenario = ctx.scenario
  | ctx, .mk t v args dt lang, ta => by
    cases t with
    | COLUMN => simp only [render_expression]
    | LITERAL => simp only [render_expression]
    | RAW =>
      simp only [render_expression]
      split
      · rfl
      · split <;> rfl
    | FUNCTION =>
      simp only [render_expression]
      exact render_function_scn ctx v args ta
    | CASE => simp only [render_expression, warn_scn]

theorem render_function_scn : ∀ (ctx : RenderContext) (v : String)
    (args : List Expression) (ta : Option String),
    (render_function ctx v args ta).1.scenario = ctx.scenario
  | ctx, v, args, ta => by
    simp only [render_function]
    split
    · split
      · exact render_expr_list_scn ctx args ta
      · rw [render_expr_list_scn, render_expr_list_scn]
    · rw [render_expr_list_scn, render_expr_list_scn]

theorem render_expr_list_scn : ∀ (ctx : RenderContext)
    (es : List Expression) (ta : Option String),
    (render_expr_list ctx es ta).1.scenario = ctx.scenario
  | ctx, [], ta => by simp only [render_expr_list]
  | ctx, e :: rest, ta => by
    simp only [render_expr_list]
    rw [render_expr_list_scn, render_expression_scn]

end

theorem render_filters_scn (ctx : RenderContext) (filters : List Predicate)
    (ta : Option String) :
    (render_filters ctx filters ta).1.scenario = ctx.scenario := by
  simp only [render_filters]
  split
  · rfl
  · exact foldl_scn _
      (fun st pred => by
        rcases st with ⟨c, conds⟩
        cases hk : pred.kind
        case COMPARISON =>
          rcases hp : render_expression c pred.left ta with ⟨c1, ls⟩
          have e1 : c1.scenario = c.scenario := by
            have h := render_expression_scn c pred.left ta
            rw [hp] at h
            exact h
          simp only [hp]
          rcases hr : pred.right with _ | r
          · simp only [hr]
            exact e1
          · simp only [hr]
            rcases hq : render_expression c1 r ta with ⟨c2, rs⟩
            have e2 : c2.scenario = c1.scenario := by
              have h := render_expression_scn c1 r ta
              rw [hq] at h
              exact h
            simp only [hq]
            rw [e2, e1]
        case IS_NULL =>
          rcases hp : render_expression c pred.left ta with ⟨c1, ls⟩
          have e1 : c1.scenario = c.scenario := by
            have h := render_expression_scn c pred.left ta
            rw [hp] at h
            exact h
          simp only [hp]
          exact e1
        case RAW =>
          rcases hp : render_expression c pred.left ta with ⟨c1, ls⟩
          have e1 : c1.scenario = c.scenario := by
            have h := render_expression_scn c pred.left ta
            rw [hp] at h
            exact h
          simp only [hp]
          split <;> exact e1
        case BETWEEN => rfl
        case IN_LIST => rfl)
      filters (ctx, [])

theorem render_from_scn (ctx : RenderContext) (input_id : String) :
    (render_from ctx input_id).1.scenario = ctx.scenario := by
  simp only [render_from]
  repeat' split
  all_goals first
    | rfl
    | exact get_cte_alias_scn _ _


theorem projMapStep_scn (fc : String)
    (st : RenderContext × List String × List (String × String))
    (a : AttributeMapping) :
    ((projMapStep fc st a).1).scenario = st.1.scenario := by
  simp only [projMapStep, render_expression_scn]

theorem projCalcStep_scn (fc : String) (tsm : List (String × String))
    (st : RenderContext × List String × List String ×
      List (String × String)) (a : String × CalculatedAttribute) :
    ((projCalcStep fc tsm st a).1).scenario = st.1.scenario := by
  simp only [projCalcStep, render_expression_scn]

theorem render_projection_scn (ctx : RenderContext) (node : Node) :
    (render_projection ctx node).1.scenario = ctx.scenario := by
  unfold render_projection
  split
  · rfl
  · lift_lets
    extract_lets input_id p0 c1 from_clause step1 c2 columns0
      target_sql_map step2 c3 columns1 calc_column_names columns2
      select_clause target_to_source_map pf c4 wc1 wc2 needs_subquery
      q1 q2 q3 q4 q5 q6 q7 q8 inner w where_clause sql
    have hc4 : c4.scenario = ctx.scenario := by
      show (render_filters c3 node.filters (some from_clause)).1.scenario =
        ctx.scenario
      rw [render_filters_scn]
      show (List.foldl (projCalcStep from_clause target_sql_map)
        (c2, columns0, [], []) node.calculated_attributes).1.scenario =
        ctx.scenario
      rw [foldl_scn _ (projCalcStep_scn from_clause target_sql_map)]
      show (List.foldl (projMapStep from_clause) (c1, [], [])
        node.mappings).1.scenario = ctx.scenario
      rw [foldl_scn _ (projMapStep_scn from_clause)]
      show (render_from ctx input_id).1.scenario = ctx.scenario
      exact render_from_scn ctx input_id
    split
    · split <;> exact hc4
    · split <;> exact hc4

theorem joinCondStep_scn (la ra : String)
    (st : RenderContext × List String) (a : JoinCondition) :
    ((joinCondStep la ra st a).1).scenario = st.1.scenario := by
  simp only [joinCondStep, render_expression_scn]

theorem joinColStep_scn (node : Node) (la : String)
    (st : RenderContext × List String × List String ×
      List (String × String)) (a : AttributeMapping) :
    ((joinColStep node la st a).1).scenario = st.1.scenario := by
  simp only [joinColStep]
  repeat' split
  all_goals simp only [render_expression_scn, get_cte_alias_scn]

theorem joinCalcStep_scn (cm : List (String × String)) (la : String)
    (st : RenderContext × List String) (a : String × CalculatedAttribute) :
    ((joinCalcStep cm la st a).1).scenario = st.1.scenario := by
  simp only [joinCalcStep]
  repeat' split
  all_goals simp only [render_expression_scn]


theorem render_join_scn (ctx : RenderContext) (node : Node) :
    (render_join ctx node).1.scenario = ctx.scenario := by
  unfold render_join
  split
  · rfl
  · lift_lets
    extract_lets left_id right_id p1 p2 left_from right_from p3 p4
      left_alias right_alias c1 join_type_str condStep c2 conditions
      condFix c3 conditions2 on_clause colStep c4 columns0 column_map
      calcStep c5 columns1 columns2 select_clause pw c6 wc1 w wc2 sql
    have hc6 : c6.scenario = ctx.scenario := by
      show (render_filters c5 node.filters (some left_alias)).1.scenario =
        ctx.scenario
      rw [render_filters_scn]
      show (List.foldl (joinCalcStep column_map left_alias) (c4, columns0)
        node.calculated_attributes).1.scenario = ctx.scenario
      rw [foldl_scn _ (joinCalcStep_scn column_map left_alias)]
      show (List.foldl (joinColStep node left_alias) (c3, [], [], [])
        node.mappings).1.scenario = ctx.scenario
      rw [foldl_scn _ (joinColStep_scn node left_alias)]
      show (condFix.1).scenario = ctx.scenario
      have hc2 : c2.scenario = ctx.scenario := by
        show (List.foldl (joinCondStep left_alias right_alias) (c1, [])
          node.conditions).1.scenario = ctx.scenario
        rw [foldl_scn _ (joinCondStep_scn left_alias right_alias)]
        show ((RenderContext.get_cte_alias p3.1 right_id).1).scenario =
          ctx.scenario
        rw [get_cte_alias_scn]
        show ((RenderContext.get_cte_alias p2.1 left_id).1).scenario =
          ctx.scenario
        rw [get_cte_alias_scn]
        show ((render_from p1.1 right_id).1).scenario = ctx.scenario
        rw [render_from_scn]
        show ((render_from ctx left_id).1).scenario = ctx.scenario
        rw [render_from_scn]
      show ((if conditions.isEmpty then
          (c2.warn ("Join " ++ node.node_id ++
            " creates cartesian product (no join conditions)"), ["1=1"])
        else (c2, conditions)).1).scenario = ctx.scenario
      split
      · exact hc2
      · exact hc2
    split
    · exact hc6
    · exact hc6

theorem aggGbStep_scn (fc : String) (ccn : List String)
    (tem : List (String × Expression)) (st : RenderContext × List String)
    (a : String) : ((aggGbStep fc ccn tem st a).1).scenario = st.1.scenario := by
  simp only [aggGbStep]
  repeat' split
  all_goals simp only [render_expression_scn]

theorem aggSelStep_scn (fc : String) (ccn acn : List String)
    (st : RenderContext × List String) (a : AttributeMapping) :
    ((aggSelStep fc ccn acn st a).1).scenario = st.1.scenario := by
  simp only [aggSelStep]
  repeat' split
  all_goals simp only [render_expression_scn]

theorem aggAggStep_scn (fc : String) (tse : List (String × Expression))
    (st : RenderContext × List String) (a : AggregationSpec) :
    ((aggAggStep fc tse st a).1).scenario = st.1.scenario := by
  simp only [aggAggStep]
  repeat' split
  all_goals simp only [render_expression_scn]

theorem aggOutStep_scn
    (st : RenderContext × List String × List (String × String))
    (a : String × CalculatedAttribute) :
    ((aggOutStep st a).1).scenario = st.1.scenario := by
  simp only [aggOutStep]
  repeat' split
  all_goals simp only [render_expression_scn]

theorem render_aggregation_scn (ctx : RenderContext) (node : Node) :
    (render_aggregation ctx node).1.scenario = ctx.scenario := by
  unfold render_aggregation
  split
  · rfl
  · lift_lets
    extract_lets input_id p0 c1 from_clause calc_col_names
      target_to_expr_map gbStep c2 group_by_cols aggregated_col_names
      selStep c3 select_items0 aggStep c4 select_items1 select_items2
      select_clause pw c5 wc1 w wc2 group_by_clause has_calc_cols
      inner2 inner1 inner0 outStep c6 outer_clause
    have hc5 : c5.scenario = ctx.scenario := by
      show (render_filters c4 node.filters (some from_clause)).1.scenario =
        ctx.scenario
      rw [render_filters_scn]
      show (List.foldl (aggAggStep from_clause target_to_expr_map)
        (c3, select_items0) node.aggregations).1.scenario = ctx.scenario
      rw [foldl_scn _ (aggAggStep_scn from_clause target_to_expr_map)]
      show (List.foldl
        (aggSelStep from_clause calc_col_names aggregated_col_names)
        (c2, []) node.mappings).1.scenario = ctx.scenario
      rw [foldl_scn _
        (aggSelStep_scn from_clause calc_col_names aggregated_col_names)]
      show (List.foldl
        (aggGbStep from_clause calc_col_names target_to_expr_map)
        (c1, []) node.group_by).1.scenario = ctx.scenario
      rw [foldl_scn _
        (aggGbStep_scn from_clause calc_col_names target_to_expr_map)]
      show ((render_from ctx input_id).1).scenario = ctx.scenario
      rw [render_from_scn]
    have hc6 : c6.scenario = ctx.scenario := by
      show (List.foldl aggOutStep (c5, ["agg_inner.*"], [])
        node.calculated_attributes).1.scenario = ctx.scenario
      rw [foldl_scn _ aggOutStep_scn]
      exact hc5
    split
    · exact hc6
    · split
      · exact hc5
      · exact hc5

theorem unionSelStep_scn (ia : String) (im : List AttributeMapping)
    (st : RenderContext × List String) (a : String) :
    ((unionSelStep ia im st a).1).scenario = st.1.scenario := by
  simp only [unionSelStep]
  repeat' split
  all_goals simp only [render_expression_scn]

theorem unionInputStep_scn (node : Node) (tc : List String)
    (st : RenderContext × List String) (a : String) :
    ((unionInputStep node tc st a).1).scenario = st.1.scenario := by
  unfold unionInputStep
  lift_lets
  extract_lets c uq input_id pa c2 input_alias input_mappings
  have hc2 : c2.scenario = st.1.scenario := by
    show ((if amem c.cte_aliases input_id then
        RenderContext.get_cte_alias c input_id
      else render_from c input_id).1).scenario = st.1.scenario
    split
    · rw [get_cte_alias_scn]
    · rw [render_from_scn]
  split
  · show ((List.foldl (unionSelStep input_alias input_mappings) (c2, [])
      tc).1).scenario = st.1.scenario
    rw [foldl_scn _ (unionSelStep_scn input_alias input_mappings)]
    exact hc2
  · exact hc2

theorem render_union_scn (ctx : RenderContext) (node : Node) :
    (render_union ctx node).1.scenario = ctx.scenario := by
  unfold render_union
  split
  · rfl
  · lift_lets
    extract_lets target_columns step c2 union_keyword sql pw c3 wc1 w wc2
    have hc2 : c2.scenario = ctx.scenario := by
      show ((List.foldl (unionInputStep node target_columns) (ctx, [])
        node.inputs).1).scenario = ctx.scenario
      rw [foldl_scn _ (unionInputStep_scn node target_columns)]
    have hc3 : c3.scenario = ctx.scenario := by
      show ((render_filters c2 node.filters none).1).scenario = ctx.scenario
      rw [render_filters_scn]
      exact hc2
    split
    · split
      · exact hc3
      · exact hc3
    · exact hc2

theorem rankSelStep_scn (fc : String) (st : RenderContext × List String)
    (a : AttributeMapping) :
    ((rankSelStep fc st a).1).scenario = st.1.scenario := by
  simp only [rankSelStep, render_expression_scn]

theorem render_rank_scn (ctx : RenderContext) (node : Node) :
    (render_rank ctx node).1.scenario = ctx.scenario := by
  unfold render_rank
  split
  · rfl
  · lift_lets
    extract_lets input_id p0 c1 from_clause selStep c2 select_items0
      partition_exprs order_exprs1 order_exprs2 window_parts window_clause
      rank_expr select_items select_clause select_sql inner_sql
    have hc2 : c2.scenario = ctx.scenario := by
      show ((List.foldl (rankSelStep from_clause) (c1, [])
        node.mappings).1).scenario = ctx.scenario
      rw [foldl_scn _ (rankSelStep_scn from_clause)]
      show ((render_from ctx input_id).1).scenario = ctx.scenario
      rw [render_from_scn]
    split
    · exact hc2
    · exact hc2

theorem render_calculation_scn (ctx : RenderContext) (node : Node) :
    (render_calculation ctx node).1.scenario = ctx.scenario := by
  unfold render_calculation
  split
  · rfl
  · lift_lets
    extract_lets input_id p0 c1 from_clause colStep c2 columns
      select_clause pw c3 wc1 w wc2 sql
    have hc3 : c3.scenario = ctx.scenario := by
      show ((render_filters c2 node.filters (some from_clause)).1).scenario =
        ctx.scenario
      rw [render_filters_scn]
      show ((List.foldl (rankSelStep from_clause) (c1, [])
        node.mappings).1).scenario = ctx.scenario
      rw [foldl_scn _ (rankSelStep_scn from_clause)]
      show ((render_from ctx input_id).1).scenario = ctx.scenario
      rw [render_from_scn]
    split
    · exact hc3
    · exact hc3

theorem render_node_scn (ctx : RenderContext) (node : Node) :
    (render_node ctx node).1.scenario = ctx.scenario := by
  unfold render_node
  repeat' split
  all_goals
    first
      | rfl
      | exact render_projection_scn _ _
      | exact render_join_scn _ _
      | exact render_aggregation_scn _ _
      | exact render_union_scn _ _
      | exact render_rank_scn _ _
      | exact render_calculation_scn _ _


theorem renderNodeStep_scn (scenario : Scenario)
    (st : RenderContext × List String) (a : String) :
    ((renderNodeStep scenario st a).1).scenario = st.1.scenario := by
  unfold renderNodeStep
  repeat' split
  case _ => rfl
  case _ => simp only [warn_scn]
  case _ =>
    rename_i node heq
    simp only [apply_ite
        (Prod.fst : RenderContext × List String → RenderContext),
      apply_ite RenderContext.scenario, get_cte_alias_scn,
      render_node_scn, warn_scn, ite_self]

theorem renderAllNodes_scn (scenario : Scenario) (ordered : List String)
    (ctx : RenderContext) :
    ((renderAllNodes scenario ordered ctx).1).scenario = ctx.scenario := by
  unfold renderAllNodes
  rw [foldl_scn _ (renderNodeStep_scn scenario)]

theorem dsCalcStep_scn (fc : String) (st : RenderContext × List String)
    (a : LogicalCalculatedAttribute) :
    ((dsCalcStep fc st a).1).scenario = st.1.scenario := by
  simp only [dsCalcStep]
  repeat' split
  all_goals simp only [render_expression_scn]

theorem finalSelectForDataSource_scn (scenario : Scenario)
    (ctx : RenderContext) (fc : String) :
    ((finalSelectForDataSource scenario ctx fc).1).scenario = ctx.scenario := by
  unfold finalSelectForDataSource
  split
  · rename_i lm heq
    split
    · lift_lets
      extract_lets items0 step c2 select_items
      have hc2 : c2.scenario = ctx.scenario := by
        show ((List.foldl (dsCalcStep fc) (ctx, items0)
          lm.calculated_attributes).1).scenario = ctx.scenario
        rw [foldl_scn _ (dsCalcStep_scn fc)]
      split
      · exact hc2
      · exact hc2
    · rfl
  · rfl

theorem mainPathStep_scn (ctx : RenderContext) (ctes : List String)
    (final final_alias0 : String) :
    ((mainPathStep ctx ctes final final_alias0).1).scenario =
      ctx.scenario := by
  unfold mainPathStep
  repeat' split
  all_goals rfl

theorem mainPathSqlCtx_scn (scenario : Scenario) (cv : Bool)
    (vn : Option String) (ctx : RenderContext) (ctes : List String)
    (final : String) :
    ((mainPathSqlCtx scenario cv vn ctx ctes final).2).scenario =
      ctx.scenario := by
  unfold mainPathSqlCtx
  lift_lets
  extract_lets final_alias0 step c2 ctes2 final_alias final_select sql
  show ((mainPathStep ctx ctes final final_alias0).1).scenario = ctx.scenario
  exact mainPathStep_scn ctx ctes final final_alias0

theorem mergeValidationWarnings_scn (ctx : RenderContext)
    (results : List ValidationResult) :
    (mergeValidationWarnings ctx results).scenario = ctx.scenario := by
  unfold mergeValidationWarnings
  rw [foldl_scn1]
  intro c r
  lift_lets
  extract_lets cW
  rw [foldl_scn1
    (fun (c : RenderContext) (i : ValidationIssue) =>
      RenderContext.warn c ("Info: " ++ i.message))
    (fun c i => warn_scn c ("Info: " ++ i.message))]
  show (List.foldl (fun c w => RenderContext.warn c w.message) c
    r.warnings).scenario = c.scenario
  rw [foldl_scn1
    (fun (c : RenderContext) (w : ValidationIssue) =>
      RenderContext.warn c w.message)
    (fun c w => warn_scn c w.message)]

/-- Claim C9: rendering never mutates the parsed IR — the scenario carried
through the entire `render_scenario` pipeline is returned unchanged in the
final context, whatever the options and id order. -/
theorem render_scenario_preserves_ir (scenario : Scenario)
    (idOrder : List String) (so : Option (List (String × String)))
    (ts cl lang : Option String) (dbm : DatabaseMode)
    (hv : Option HanaVersion) (xf : Option XMLFormat) (cv : Bool)
    (vn cu cs ct : Option String) (va : Bool)
    (apr : DatabaseMode → String → String) (acr : String → String)
    (gp : String → Option String) :
    (match render_scenario scenario idOrder so ts cl lang dbm hv xf cv vn
        cu cs ct va apr acr gp with
     | .ok r => r.2.scenario = scenario
     | .error _ => True) := by
  unfold render_scenario
  lift_lets
  extract_lets c0 ordered p c1 ctes1 final_node_id finalTruthy error_msg
    c2 fix c3 ctes2 final_select1 sql2 validation_result final pf c4
    from_clause ps c5 final_select2 sql1 q sql0 c6 results c7
  have hc1 : c1.scenario = scenario := by
    show (renderAllNodes scenario ordered c0).1.scenario = scenario
    rw [renderAllNodes_scn]
    show (RenderContext.init scenario so ts cl lang dbm hv xf cu cs ct apr
      acr gp).scenario = scenario
    rfl
  have hc2 : c2.scenario = scenario := by
    show (RenderContext.warn c1 error_msg).scenario = scenario
    rw [warn_scn]
    exact hc1
  have hc3 : c3.scenario = scenario := by
    show ((if ctes1.isEmpty = true then
        ({ c2 with cte_aliases := c2.cte_aliases ++ [("final", "final")] },
          [placeholderCte])
      else (c2, ctes1)).1).scenario = scenario
    split
    · exact hc2
    · exact hc2
  have hc5 : c5.scenario = scenario := by
    show (finalSelectForDataSource scenario c4 from_clause).1.scenario =
      scenario
    rw [finalSelectForDataSource_scn]
    show (render_from c1 final).1.scenario = scenario
    rw [render_from_scn]
    exact hc1
  have hq : (q.2).scenario = scenario := by
    show (mainPathSqlCtx scenario cv vn c1 ctes1 final).2.scenario = scenario
    rw [mainPathSqlCtx_scn]
    exact hc1
  have hc7 : c7.scenario = scenario := by
    show (mergeValidationWarnings c6 results).scenario = scenario
    rw [mergeValidationWarnings_scn]
    exact hq
  split
  case h_2 => trivial
  case h_1 r heq =>
    repeat' split at heq
    all_goals
      first
        | exact Except.noConfusion heq
        | (injection heq with h2
           subst h2
           first
             | exact hc3
             | exact hc5
             | exact hc7
             | exact hq)

/-! Lemmas for the topological-sort proof. -/

theorem alookup_append {α : Type} (a b : List (String × α)) (k : String) :
    alookup (a ++ b) k =
      match alookup a k with
      | some v => some v
      | none => alookup b k := by
  induction a with
  | nil => rfl
  | cons p t ih =>
    by_cases h : p.1 = k
    · simp [alookup, List.find?_cons, h]
    · simpa [alookup, List.find?_cons, h] using ih

theorem alookup_mapSet_self (m : List (String × Int)) (k : String)
    (v : Int) (hmem : amem m k = true) :
    alookup (m.map (fun p => if p.1 = k then (k, v) else p)) k = some v := by
  induction m with
  | nil => simp [amem, alookup] at hmem
  | cons p t ih =>
    by_cases hp : p.1 = k
    · simp [alookup, List.find?_cons, hp]
    · have hmem2 : amem t k = true := by
        simpa [amem, alookup, List.find?_cons, hp] using hmem
      simpa [alookup, List.find?_cons, hp] using ih hmem2

theorem alookup_mapSet_other (m : List (String × Int)) (k k2 : String)
    (v : Int) (h : k2 ≠ k) :
    alookup (m.map (fun p => if p.1 = k then (k, v) else p)) k2 =
      alookup m k2 := by
  induction m with
  | nil => rfl
  | cons p t ih =>
    by_cases hp : p.1 = k
    · have hk2 : ¬(k = k2) := fun hh => h hh.symm
      have hpk2 : ¬(p.1 = k2) := by
        rw [hp]
        exact hk2
      simpa [alookup, List.find?_cons, hp, hk2, hpk2] using ih
    · by_cases h2 : p.1 = k2
      · simp only [alookup, List.map_cons, List.find?_cons, if_neg hp]
        simp [h2]
      · simpa [alookup, List.find?_cons, hp, h2] using ih

theorem dget_dictSet_self (m : List (String × Int)) (k : String) (v : Int) :
    dgetI (dictSet m k v) k = v := by
  unfold dictSet
  split
  · rename_i hmem
    unfold dgetI
    rw [alookup_mapSet_self m k v hmem]
    rfl
  · rename_i hmem
    unfold dgetI
    rw [alookup_append]
    have : alookup m k = none := by
      rcases ho : alookup m k with _ | w
      · rfl
      · exfalso
        apply hmem
        simp [amem, ho]
    rw [this]
    simp [alookup, List.find?_cons]

theorem dget_dictSet_other (m : List (String × Int)) (k k2 : String)
    (v : Int) (h : k2 ≠ k) : dgetI (dictSet m k v) k2 = dgetI m k2 := by
  unfold dictSet
  split
  · unfold dgetI
    rw [alookup_mapSet_other m k k2 v h]
  · unfold dgetI
    rw [alookup_append]
    rcases ho : alookup m k2 with _ | w
    · simp [alookup, List.find?_cons, Ne.symm h]
    · simp

theorem contains_eq (l : List String) (x : String) :
    l.contains x = decide (x ∈ l) := by
  induction l with
  | nil => rfl
  | cons a t ih =>
    by_cases h : x = a <;> simp [List.contains_cons, ih, h]

theorem countP_mono_mem {α : Type} (p q : α → Bool) (l : List α)
    (h : ∀ x ∈ l, p x = true → q x = true) : l.countP p ≤ l.countP q := by
  induction l with
  | nil => exact Nat.le_refl _
  | cons a t ih =>
    have ht := ih (fun x hx => h x (List.mem_cons_of_mem a hx))
    rcases hp : p a with _ | _
    · rw [List.countP_cons_of_neg p t (by simp [hp])]
      rcases hq : q a with _ | _
      · rw [List.countP_cons_of_neg q t (by simp [hq])]
        exact ht
      · rw [List.countP_cons_of_pos q t hq]
        omega
    · have hqa := h a (List.mem_cons_self a t) hp
      rw [List.countP_cons_of_pos p t hp,
        List.countP_cons_of_pos q t hqa]
      omega

theorem countP_sandwich {α : Type} (p q : α → Bool) (l : List α)
    (himp : ∀ x ∈ l, p x = true → q x = true)
    (heq : l.countP p = l.countP q) : ∀ x ∈ l, q x = true → p x = true := by
  induction l with
  | nil => intro x hx; exact absurd hx (List.not_mem_nil x)
  | cons a t ih =>
    have hmono := countP_mono_mem p q t
      (fun x hx => himp x (List.mem_cons_of_mem a hx))
    rcases hp : p a with _ | _
    · rcases hq : q a with _ | _
      · rw [List.countP_cons_of_neg p t (by simp [hp]),
          List.countP_cons_of_neg q t (by simp [hq])] at heq
        intro x hx hqx
        rcases List.mem_cons.mp hx with rfl | hx2
        · exact absurd hqx (by simp [hq])
        · exact ih (fun y hy => himp y (List.mem_cons_of_mem a hy)) heq x
            hx2 hqx
      · rw [List.countP_cons_of_neg p t (by simp [hp]),
          List.countP_cons_of_pos q t hq] at heq
        exfalso
        omega
    · have hqa := himp a (List.mem_cons_self a t) hp
      rw [List.countP_cons_of_pos p t hp,
        List.countP_cons_of_pos q t hqa] at heq
      have heq2 : t.countP p = t.countP q := by omega
      intro x hx hqx
      rcases List.mem_cons.mp hx with rfl | hx2
      · exact hp
      · exact ih (fun y hy => himp y (List.mem_cons_of_mem a hy)) heq2 x
          hx2 hqx

theorem cntFromInto_nil (g : List (String × String)) (v : String) :
    cntFromInto g [] v = 0 := by
  unfold cntFromInto
  rw [List.countP_eq_zero]
  intro e he
  simp [List.contains]

theorem cntFromInto_le (g : List (String × String)) (R : List String)
    (v : String) : cntFromInto g R v ≤ cntInto g v := by
  unfold cntFromInto cntInto
  apply countP_mono_mem
  intro e he h
  simp only [Bool.and_eq_true] at h
  exact h.2

theorem cntFromInto_append_single (g : List (String × String))
    (R : List String) (c : String) (hc : c ∉ R) (v : String) :
    cntFromInto g (R ++ [c]) v =
      cntFromInto g R v + cntFromInto g [c] v := by
  unfold cntFromInto
  induction g with
  | nil => rfl
  | cons e t ih =>
    rw [List.countP_cons, List.countP_cons, List.countP_cons, ih]
    have hsplit :
        ((if ((R ++ [c]).contains e.1 && decide (e.2 = v)) = true
          then 1 else 0) : Nat) =
          (if (R.contains e.1 && decide (e.2 = v)) = true then 1 else 0) +
            (if ([c].contains e.1 && decide (e.2 = v)) = true then 1
              else 0) := by
      simp only [contains_eq]
      by_cases h1 : e.1 ∈ R <;> by_cases h2 : e.1 = c <;>
        by_cases h3 : e.2 = v
      all_goals
        try
          (exfalso
           apply hc
           rw [← h2]
           exact h1)
      all_goals
        simp [h1, h2, h3, List.mem_append, List.mem_singleton]
      all_goals exact hc
    omega

theorem kahnFold (deps : List String) :
    ∀ (ind : List (String × Int)) (acc : List String),
      (∀ v, dgetI ((deps.foldl kahnStep (ind, acc)).1) v =
          dgetI ind v - (deps.count v : Int)) ∧
      (∀ v, v ∈ (deps.foldl kahnStep (ind, acc)).2 ↔
          (v ∈ acc ∨
            (0 < dgetI ind v ∧ dgetI ind v ≤ (deps.count v : Int)))) ∧
      (acc.Nodup → (∀ v ∈ acc, dgetI ind v ≤ 0) →
        (deps.foldl kahnStep (ind, acc)).2.Nodup) := by
  induction deps with
  | nil =>
    intro ind acc
    refine ⟨fun v => by simp, fun v => ?_, fun h _ => h⟩
    simp only [List.foldl_nil, List.count_nil]
    constructor
    · exact Or.inl
    · rintro (h | ⟨h1, h2⟩)
      · exact h
      · omega
  | cons dep rest ih =>
    intro ind acc
    rw [List.foldl_cons]
    show _ ∧ _ ∧ _
    by_cases hd : dgetI ind dep - 1 = 0
    · have hstep : kahnStep (ind, acc) dep =
          (dictSet ind dep (dgetI ind dep - 1), acc ++ [dep]) := by
        unfold kahnStep
        rw [if_pos hd]
      rw [hstep]
      obtain ⟨ih1, ih2, ih3⟩ := ih (dictSet ind dep (dgetI ind dep - 1))
        (acc ++ [dep])
      refine ⟨fun v => ?_, fun v => ?_, fun hnd hle => ?_⟩
      · rw [ih1 v]
        by_cases hv : v = dep
        · subst hv
          rw [dget_dictSet_self, List.count_cons_self]
          push_cast
          omega
        · rw [dget_dictSet_other ind dep v _ hv,
            List.count_cons_of_ne hv]
      · rw [ih2 v]
        by_cases hv : v = dep
        · subst hv
          rw [dget_dictSet_self, List.count_cons_self]
          constructor
          · intro _
            right
            constructor
            · omega
            · push_cast
              omega
          · intro _
            left
            simp
        · rw [dget_dictSet_other ind dep v _ hv,
            List.count_cons_of_ne hv]
          constructor
          · rintro (hm | hrest)
            · rcases List.mem_append.mp hm with hm2 | hm2
              · exact Or.inl hm2
              · exact absurd (List.mem_singleton.mp hm2) hv
            · exact Or.inr hrest
          · rintro (hm | hrest)
            · exact Or.inl (List.mem_append_left _ hm)
            · exact Or.inr hrest
      · apply ih3
        · have hdep_notmem : dep ∉ acc := by
            intro hin
            have := hle dep hin
            omega
          exact List.Nodup.append hnd (List.nodup_singleton dep)
            (by
              intro x hx hx2
              rw [List.mem_singleton.mp hx2] at hx
              exact hdep_notmem hx)
        · intro v hv
          rcases List.mem_append.mp hv with hm | hm
          · by_cases hvd : v = dep
            · subst hvd
              rw [dget_dictSet_self]
              omega
            · rw [dget_dictSet_other ind dep v _ hvd]
              exact hle v hm
          · rw [List.mem_singleton.mp hm, dget_dictSet_self]
            omega
    · have hstep : kahnStep (ind, acc) dep =
          (dictSet ind dep (dgetI ind dep - 1), acc) := by
        unfold kahnStep
        rw [if_neg hd]
      rw [hstep]
      obtain ⟨ih1, ih2, ih3⟩ := ih (dictSet ind dep (dgetI ind dep - 1)) acc
      refine ⟨fun v => ?_, fun v => ?_, fun hnd hle => ?_⟩
      · rw [ih1 v]
        by_cases hv : v = dep
        · subst hv
          rw [dget_dictSet_self, List.count_cons_self]
          push_cast
          omega
        · rw [dget_dictSet_other ind dep v _ hv,
            List.count_cons_of_ne hv]
      · rw [ih2 v]
        by_cases hv : v = dep
        · subst hv
          rw [dget_dictSet_self, List.count_cons_self]
          constructor
          · rintro (hm | ⟨h1, h2⟩)
            · exact Or.inl hm
            · refine Or.inr ⟨by omega, by push_cast at h2 ⊢; omega⟩
          · rintro (hm | ⟨h1, h2⟩)
            · exact Or.inl hm
            · refine Or.inr ⟨by omega, by push_cast at h2 ⊢; omega⟩
        · rw [dget_dictSet_other ind dep v _ hv,
            List.count_cons_of_ne hv]
      · apply ih3 hnd
        intro v hv
        by_cases hvd : v = dep
        · have h0 := hle v hv
          rw [hvd] at h0 ⊢
          rw [dget_dictSet_self]
          omega
        · rw [dget_dictSet_other ind dep v _ hvd]
          exact hle v hv

theorem kahnLoop_nil (g : List (String × String)) (fuel : Nat)
    (ind : List (String × Int)) (res : List String) :
    kahnLoop g fuel [] ind res = res := by
  cases fuel <;> rfl

theorem count_deps (g : List (String × String)) (c v : String) :
    ((g.filter (fun e => e.1 = c)).map (fun e => e.2)).count v =
      cntFromInto g [c] v := by
  unfold cntFromInto
  induction g with
  | nil => rfl
  | cons e t ih =>
    by_cases h1 : e.1 = c <;> by_cases h2 : e.2 = v <;>
      simp [List.filter_cons, h1, h2, List.count_cons, List.countP_cons,
        List.contains_cons, ih]

theorem nodup_sub_length (l V : List String) (hn : l.Nodup)
    (hsub : ∀ x ∈ l, x ∈ V) : l.length ≤ V.length :=
  (List.subperm_of_subset hn (fun {x} hx => hsub x hx)).length_le

theorem amem_iff_mem_keys {α : Type} (l : List (String × α)) (k : String) :
    amem l k = true ↔ k ∈ l.map (fun p => p.1) := by
  induction l with
  | nil => simp [amem, alookup]
  | cons p t ih =>
    by_cases h : p.1 = k
    · simp [amem, alookup, List.find?_cons, h]
    · simp only [amem, alookup] at ih ⊢
      rw [List.find?_cons_of_neg _ (by simpa using h)]
      simp only [List.map_cons, List.mem_cons]
      rw [ih]
      constructor
      · exact Or.inr
      · rintro (hh | hh)
        · exact absurd hh.symm h
        · exact hh

theorem alookup_map_pair {α β : Type} (l : List (String × α))
    (f : String × α → β) (k : String) :
    alookup (l.map (fun p => (p.1, f p))) k =
      (l.find? (fun p => p.1 = k)).map f := by
  induction l with
  | nil => rfl
  | cons p t ih =>
    by_cases h : p.1 = k
    · simp [alookup, List.find?_cons, h]
    · simpa [alookup, List.find?_cons, h] using ih

theorem setAdd_mem (acc : List String) (a x : String) :
    x ∈ setAdd acc a ↔ x ∈ acc ∨ x = a := by
  unfold setAdd
  split
  · rename_i h
    rw [contains_eq, decide_eq_true_eq] at h
    constructor
    · exact Or.inl
    · rintro (hh | rfl)
      · exact hh
      · exact h
  · simp [List.mem_append]

theorem setAdd_nodup (acc : List String) (a : String) (h : acc.Nodup) :
    (setAdd acc a).Nodup := by
  unfold setAdd
  split
  · exact h
  · rename_i hc
    rw [contains_eq, decide_eq_true_eq] at hc
    simpa [List.nodup_append] using ⟨h, hc⟩

theorem setAdd_foldl_mem (l : List String) :
    ∀ (acc : List String) (x : String),
      x ∈ l.foldl setAdd acc ↔ x ∈ acc ∨ x ∈ l := by
  induction l with
  | nil => simp
  | cons a t ih =>
    intro acc x
    rw [List.foldl_cons, ih, setAdd_mem]
    simp only [List.mem_cons]
    tauto

theorem setAdd_foldl_nodup (l : List String) :
    ∀ (acc : List String), acc.Nodup → (l.foldl setAdd acc).Nodup := by
  induction l with
  | nil => exact fun acc h => h
  | cons a t ih =>
    intro acc h
    exact ih (setAdd acc a) (setAdd_nodup acc a h)

theorem allIds_nodup (s : Scenario) : (allIds s).Nodup :=
  setAdd_foldl_nodup _ [] List.nodup_nil

theorem allIds_mem (s : Scenario) (x : String) :
    x ∈ allIds s ↔ memIds s x = true := by
  unfold allIds memIds
  rw [setAdd_foldl_mem]
  simp only [List.not_mem_nil, false_or, List.mem_append, Bool.or_eq_true,
    amem_iff_mem_keys]

theorem mem_topoEdges (s : Scenario) (e : String × String)
    (he : e ∈ topoEdges s) :
    memIds s e.1 = true ∧ e.2 ∈ s.nodes.map (fun p => p.1) := by
  unfold topoEdges at he
  simp only [List.mem_flatMap, List.mem_filterMap] at he
  obtain ⟨p, hp, input_id, hin, hsome⟩ := he
  by_cases hm : memIds s (cleanInputRef input_id) = true
  · rw [if_pos hm] at hsome
    injection hsome with hpair
    constructor
    · rw [← hpair]
      exact hm
    · rw [← hpair]
      exact List.mem_map.mpr ⟨p, hp, rfl⟩
  · rw [if_neg hm] at hsome
    exact absurd hsome (by simp)

theorem indegInit_dget (s : Scenario)
    (hDisj : s.data_sources.all (fun p => !amem s.nodes p.1) = true)
    (v : String) :
    dgetI (indegInit s) v = (cntInto (topoEdges s) v : Int) := by
  have hds := alookup_map_pair s.data_sources (fun _ => (0 : Int)) v
  have hns := alookup_map_pair s.nodes
      (fun p => (Int.ofNat ((topoEdges s).countP (fun e => e.2 = p.1)))) v
  unfold indegInit dgetI
  rw [alookup_append, hds, hns]
  rcases hfd : s.data_sources.find? (fun p => p.1 = v) with _ | p0
  · rw [hfd]
    rcases hfn : s.nodes.find? (fun p => p.1 = v) with _ | q0
    · rw [hfn]
      have hkeys : v ∉ s.nodes.map (fun p => p.1) := by
        intro hv
        obtain ⟨q, hq, hq1⟩ := List.mem_map.mp hv
        have := List.find?_eq_none.mp hfn q hq
        simp [hq1] at this
      have hz : (topoEdges s).countP (fun e => decide (e.2 = v)) = 0 := by
        rw [List.countP_eq_zero]
        intro e hee hev
        apply hkeys
        rw [← show e.2 = v by simpa using hev]
        exact (mem_topoEdges s e hee).2
      simp [cntInto, hz]
    · rw [hfn]
      have hq1 : q0.1 = v := by
        have := List.find?_some hfn
        simpa using this
      simp [cntInto, hq1]
  · rw [hfd]
    have hp1 : p0.1 = v := by
      have := List.find?_some hfd
      simpa using this
    have hpm : p0 ∈ s.data_sources := List.mem_of_find?_eq_some hfd
    have hnv : amem s.nodes v = false := by
      have := (List.all_eq_true.mp hDisj) p0 hpm
      rw [hp1] at this
      simpa using this
    have hkeys : v ∉ s.nodes.map (fun p => p.1) := by
      intro hv
      rw [(amem_iff_mem_keys s.nodes v).mpr hv] at hnv
      exact Bool.true_eq_false.mp hnv
    have hz : (topoEdges s).countP (fun e => decide (e.2 = v)) = 0 := by
      rw [List.countP_eq_zero]
      intro e hee hev
      apply hkeys
      rw [← show e.2 = v by simpa using hev]
      exact (mem_topoEdges s e hee).2
    simp [cntInto, hz]

theorem kahnLoop_spec (graphE : List (String × String)) (V : List String)
    (hTgt : ∀ e ∈ graphE, e.2 ∈ V) :
    ∀ (fuel : Nat) (queue result : List String)
      (indeg : List (String × Int)),
      (result ++ queue).Nodup →
      (∀ v ∈ result ++ queue, v ∈ V) →
      (∀ v, dgetI indeg v =
        (cntInto graphE v : Int) - (cntFromInto graphE result v : Int)) →
      (∀ v ∈ V, dgetI indeg v ≤ 0 → v ∈ result ++ queue) →
      (∀ v ∈ result ++ queue, dgetI indeg v ≤ 0) →
      (∀ v ∈ queue, cntFromInto graphE result v = cntInto graphE v) →
      orderedOk graphE result →
      V.length + 1 ≤ result.length + fuel →
      (kahnLoop graphE fuel queue indeg result).Nodup ∧
      (∀ v ∈ kahnLoop graphE fuel queue indeg result, v ∈ V) ∧
      (∀ v ∈ result ++ queue, v ∈ kahnLoop graphE fuel queue indeg result) ∧
      (∀ v ∈ V,
        cntInto graphE v ≤
          cntFromInto graphE (kahnLoop graphE fuel queue indeg result) v →
        v ∈ kahnLoop graphE fuel queue indeg result) ∧
      orderedOk graphE (kahnLoop graphE fuel queue indeg result) := by
  intro fuel
  induction fuel with
  | zero =>
    intro queue result indeg h1 h2 h3 h4 h5 h6 h7 h8
    cases queue with
    | nil =>
      rw [kahnLoop_nil]
      simp only [List.append_nil] at h1 h2 h4 h5 ⊢
      refine ⟨h1, h2, fun v hv => hv, fun v hv hc => h4 v hv ?_, h7⟩
      rw [h3 v]
      have := cntFromInto_le graphE result v
      omega
    | cons current rest =>
      exfalso
      have hlen := nodup_sub_length _ V h1 h2
      simp only [List.length_append, List.length_cons] at hlen
      omega
  | succ fuel ih =>
    intro queue result indeg h1 h2 h3 h4 h5 h6 h7 h8
    cases queue with
    | nil =>
      rw [kahnLoop_nil]
      simp only [List.append_nil] at h1 h2 h4 h5 ⊢
      refine ⟨h1, h2, fun v hv => hv, fun v hv hc => h4 v hv ?_, h7⟩
      rw [h3 v]
      have := cntFromInto_le graphE result v
      omega
    | cons current rest =>
      have hunf : kahnLoop graphE (fuel + 1) (current :: rest) indeg result =
          kahnLoop graphE fuel
            (rest ++
              (((graphE.filter (fun e => e.1 = current)).map
                (fun e => e.2)).foldl kahnStep (indeg, [])).2)
            (((graphE.filter (fun e => e.1 = current)).map
              (fun e => e.2)).foldl kahnStep (indeg, [])).1
            (result ++ [current]) := rfl
      rw [hunf]
      set deps := (graphE.filter (fun e => e.1 = current)).map (fun e => e.2)
        with hdeps
      obtain ⟨hKF1, hKF2, hKF3⟩ := kahnFold deps indeg []
      set st := deps.foldl kahnStep (indeg, []) with hst
      have h1' := h1
      rw [List.nodup_append] at h1'
      obtain ⟨hres_nd, hcr_nd, hdisjr⟩ := h1'
      have hcur_nr : current ∉ result := fun hc =>
        (hdisjr hc) (List.mem_cons_self current rest)
      have hcnt : ∀ v, deps.count v = cntFromInto graphE [current] v := by
        intro v
        rw [hdeps]
        exact count_deps graphE current v
      have hsplit : ∀ v, cntFromInto graphE (result ++ [current]) v =
          cntFromInto graphE result v + cntFromInto graphE [current] v :=
        fun v => cntFromInto_append_single graphE result current hcur_nr v
      have h3' : ∀ v, dgetI st.1 v =
          (cntInto graphE v : Int) -
            (cntFromInto graphE (result ++ [current]) v : Int) := by
        intro v
        rw [hKF1 v, h3 v, hcnt v, hsplit v]
        push_cast
        ring
      have hnn : ∀ v, 0 ≤ dgetI st.1 v := by
        intro v
        rw [h3' v]
        have := cntFromInto_le graphE (result ++ [current]) v
        omega
      have hchar : ∀ v, v ∈ st.2 ↔
          (0 < dgetI indeg v ∧ dgetI indeg v ≤ (deps.count v : Int)) := by
        intro v
        rw [hKF2 v]
        simp
      have hzero : ∀ v ∈ st.2, dgetI st.1 v = 0 := by
        intro v hv
        obtain ⟨ha, hb⟩ := (hchar v).mp hv
        have hk := hKF1 v
        have hn := hnn v
        omega
      have hdep_mem : ∀ v ∈ st.2, v ∈ deps := by
        intro v hv
        obtain ⟨ha, hb⟩ := (hchar v).mp hv
        have hcpos : 0 < deps.count v := by
          rcases Nat.eq_zero_or_pos (deps.count v) with hz | hp
          · rw [hz] at hb
            omega
          · exact hp
        exact List.count_pos_iff.mp hcpos
      have hdeps_V : ∀ v ∈ deps, v ∈ V := by
        intro v hv
        rw [hdeps] at hv
        obtain ⟨e, he, hev⟩ := List.mem_map.mp hv
        have he2 := (List.mem_filter.mp he).1
        rw [← hev]
        exact hTgt e he2
      have hfresh : ∀ v ∈ st.2, v ∉ result ++ current :: rest := by
        intro v hv hmem
        obtain ⟨ha, hb⟩ := (hchar v).mp hv
        have := h5 v hmem
        omega
      have hst2_nd : st.2.Nodup :=
        hKF3 List.nodup_nil (fun v hv => absurd hv (List.not_mem_nil v))
      have h1'' := h1
      rw [List.append_cons] at h1''
      have H1 : ((result ++ [current]) ++ (rest ++ st.2)).Nodup := by
        rw [← List.append_assoc]
        refine List.Nodup.append h1'' hst2_nd ?_
        intro a ha hb
        refine hfresh a hb ?_
        rw [List.append_cons]
        exact ha
      have H2 : ∀ v ∈ (result ++ [current]) ++ (rest ++ st.2), v ∈ V := by
        intro v hv
        simp only [List.mem_append, List.mem_singleton] at hv
        rcases hv with (hv | hv) | (hv | hv)
        · exact h2 v (List.mem_append.mpr (Or.inl hv))
        · exact h2 v (List.mem_append.mpr (Or.inr
            (by rw [hv]; exact List.mem_cons_self _ _)))
        · exact h2 v (List.mem_append.mpr (Or.inr (List.mem_cons_of_mem _ hv)))
        · exact hdeps_V v (hdep_mem v hv)
      have H4 : ∀ v ∈ V, dgetI st.1 v ≤ 0 →
          v ∈ (result ++ [current]) ++ (rest ++ st.2) := by
        intro v hvV hle
        by_cases hold : dgetI indeg v ≤ 0
        · have hmem := h4 v hvV hold
          simp only [List.mem_append, List.mem_cons] at hmem
          simp only [List.mem_append, List.mem_singleton]
          tauto
        · push_neg at hold
          have hv2 : v ∈ st.2 := by
            rw [hchar v]
            refine ⟨hold, ?_⟩
            have hk := hKF1 v
            omega
          simp only [List.mem_append]
          right
          right
          exact hv2
      have H5 : ∀ v ∈ (result ++ [current]) ++ (rest ++ st.2),
          dgetI st.1 v ≤ 0 := by
        intro v hv
        simp only [List.mem_append, List.mem_singleton] at hv
        have hk := hKF1 v
        have hcc : (0 : Int) ≤ (deps.count v : Int) := Int.ofNat_nonneg _
        rcases hv with (hv | hv) | (hv | hv)
        · have := h5 v (List.mem_append.mpr (Or.inl hv))
          omega
        · have := h5 v (List.mem_append.mpr (Or.inr
            (by rw [hv]; exact List.mem_cons_self _ _)))
          omega
        · have := h5 v (List.mem_append.mpr (Or.inr (List.mem_cons_of_mem _ hv)))
          omega
        · rw [hzero v hv]
      have H6 : ∀ v ∈ rest ++ st.2,
          cntFromInto graphE (result ++ [current]) v = cntInto graphE v := by
        intro v hv
        rcases List.mem_append.mp hv with hv | hv
        · have h6v := h6 v (List.mem_cons_of_mem _ hv)
          have hle := cntFromInto_le graphE (result ++ [current]) v
          have hs := hsplit v
          omega
        · have hz := hzero v hv
          have h3v := h3' v
          omega
      have H7 : orderedOk graphE (result ++ [current]) := by
        intro e he htgt
        rcases List.mem_append.mp htgt with h2r | h2c
        · obtain ⟨hin, hlt⟩ := h7 e he h2r
          refine ⟨List.mem_append.mpr (Or.inl hin), ?_⟩
          rw [List.indexOf_append_of_mem hin, List.indexOf_append_of_mem h2r]
          exact hlt
        · have h2c' : e.2 = current := by simpa using h2c
          have h6c := h6 current (List.mem_cons_self _ _)
          have hin : e.1 ∈ result := by
            have h6c' : graphE.countP
                  (fun x => result.contains x.1 && decide (x.2 = current)) =
                graphE.countP (fun x => decide (x.2 = current)) := h6c
            have hc := countP_sandwich
              (fun x => result.contains x.1 && decide (x.2 = current))
              (fun x => decide (x.2 = current)) graphE
              (fun x _ h => by
                simp only [Bool.and_eq_true] at h
                exact h.2) h6c' e he
              (by simp [h2c'])
            simp only [Bool.and_eq_true] at hc
            have hcc := hc.1
            rw [contains_eq, decide_eq_true_eq] at hcc
            exact hcc
          refine ⟨List.mem_append.mpr (Or.inl hin), ?_⟩
          rw [h2c', List.indexOf_append_of_mem hin,
            List.indexOf_append_of_not_mem hcur_nr, List.indexOf_cons_self]
          have := List.indexOf_lt_length.mpr hin
          omega
      have H8 : V.length + 1 ≤ (result ++ [current]).length + fuel := by
        simp only [List.length_append, List.length_singleton]
        omega
      obtain ⟨C1, C2, C3, C4, C5⟩ := ih (rest ++ st.2) (result ++ [current])
        st.1 H1 H2 h3' H4 H5 H6 H7 H8
      refine ⟨C1, C2, ?_, C4, C5⟩
      intro v hv
      apply C3
      simp only [List.mem_append, List.mem_cons] at hv
      simp only [List.mem_append, List.mem_singleton]
      tauto

/-- Claim C1: for any admissible enumeration of the id set and disjoint
data-source and node keys, `_topological_sort` returns a list containing
exactly the data-source and node ids with no duplicates, and — when the
cleaned dependency graph is acyclic — every vertex is placed strictly
after everything it transitively depends on; when the graph has a cycle
the unsorted remainder is still appended, so the membership and
no-duplicate guarantees hold unconditionally. -/
theorem topological_sort_correct (s : Scenario) (idOrder : List String)
    (hPerm : List.Perm idOrder (allIds s))
    (hDisj : s.data_sources.all (fun p => !amem s.nodes p.1) = true) :
    (∀ x, x ∈ topological_sort s idOrder ↔ memIds s x = true) ∧
    (topological_sort s idOrder).Nodup ∧
    ((∃ rk : String → Nat, ∀ e ∈ topoEdges s, rk e.1 < rk e.2) →
      ∀ u v, Relation.TransGen (fun a b => (a, b) ∈ topoEdges s) u v →
        List.indexOf u (topological_sort s idOrder) <
          List.indexOf v (topological_sort s idOrder)) := by
  have hVnd := allIds_nodup s
  have hIOnd : idOrder.Nodup := (hPerm.nodup_iff).mpr hVnd
  have hTgt : ∀ e ∈ topoEdges s, e.2 ∈ allIds s := by
    intro e he
    rw [allIds_mem]
    have hmk := (mem_topoEdges s e he).2
    have h2 : amem s.nodes e.2 = true := (amem_iff_mem_keys s.nodes e.2).mpr hmk
    simp [memIds, h2]
  have hSrc : ∀ e ∈ topoEdges s, e.1 ∈ allIds s := by
    intro e he
    rw [allIds_mem]
    exact (mem_topoEdges s e he).1
  set queue0 := idOrder.filter (fun id => dgetI (indegInit s) id = 0) with hq0
  have hinit := fun v => indegInit_dget s hDisj v
  have inv1 : (([] : List String) ++ queue0).Nodup := by
    simp only [List.nil_append]
    exact hIOnd.filter _
  have inv2 : ∀ v ∈ ([] : List String) ++ queue0, v ∈ allIds s := by
    intro v hv
    simp only [List.nil_append] at hv
    exact hPerm.mem_iff.mp (List.mem_of_mem_filter hv)
  have inv3 : ∀ v, dgetI (indegInit s) v =
      (cntInto (topoEdges s) v : Int) -
        (cntFromInto (topoEdges s) [] v : Int) := by
    intro v
    rw [hinit v, cntFromInto_nil]
    simp
  have inv4 : ∀ v ∈ allIds s, dgetI (indegInit s) v ≤ 0 →
      v ∈ ([] : List String) ++ queue0 := by
    intro v hv hle
    simp only [List.nil_append]
    rw [hq0]
    apply List.mem_filter.mpr
    refine ⟨hPerm.mem_iff.mpr hv, ?_⟩
    have hiv := hinit v
    simp only [decide_eq_true_eq]
    omega
  have inv5 : ∀ v ∈ ([] : List String) ++ queue0,
      dgetI (indegInit s) v ≤ 0 := by
    intro v hv
    simp only [List.nil_append] at hv
    have hfv := (List.mem_filter.mp hv).2
    simp only [decide_eq_true_eq] at hfv
    omega
  have inv6 : ∀ v ∈ queue0, cntFromInto (topoEdges s) [] v =
      cntInto (topoEdges s) v := by
    intro v hv
    have h0 := (List.mem_filter.mp hv).2
    simp only [decide_eq_true_eq] at h0
    have hiv := hinit v
    rw [cntFromInto_nil]
    omega
  have inv7 : orderedOk (topoEdges s) [] := by
    intro e he h2
    exact absurd h2 (List.not_mem_nil _)
  have inv8 : (allIds s).length + 1 ≤
      ([] : List String).length + (idOrder.length + 1) := by
    have := hPerm.length_eq
    simp only [List.length_nil]
    omega
  obtain ⟨hRnd, hRsub, hRsup, hRcomp, hRord⟩ :=
    kahnLoop_spec (topoEdges s) (allIds s) hTgt (idOrder.length + 1) queue0 []
      (indegInit s) inv1 inv2 inv3 inv4 inv5 inv6 inv7 inv8
  set R := kahnLoop (topoEdges s) (idOrder.length + 1) queue0 (indegInit s) []
    with hR
  have hts : topological_sort s idOrder =
      if R.length < idOrder.length then
        R ++ idOrder.filter (fun id => !R.contains id)
      else R := rfl
  have hcomplete : (∃ rk : String → Nat, ∀ e ∈ topoEdges s, rk e.1 < rk e.2) →
      ∀ v ∈ allIds s, v ∈ R := by
    rintro ⟨rk, hrk⟩
    have main : ∀ n (v : String), rk v ≤ n → v ∈ allIds s → v ∈ R := by
      intro n
      induction n with
      | zero =>
        intro v hv hvV
        apply hRcomp v hvV
        unfold cntInto cntFromInto
        apply countP_mono_mem
        intro e he hq
        exfalso
        have h2 : e.2 = v := by simpa using hq
        have hlt := hrk e he
        rw [h2] at hlt
        omega
      | succ n ihn =>
        intro v hv hvV
        apply hRcomp v hvV
        unfold cntInto cntFromInto
        apply countP_mono_mem
        intro e he hq
        have h2 : e.2 = v := by simpa using hq
        have hlt := hrk e he
        have h1R : e.1 ∈ R := ihn e.1 (by rw [h2] at hlt; omega) (hSrc e he)
        simp only [Bool.and_eq_true]
        refine ⟨?_, hq⟩
        rw [contains_eq, decide_eq_true_eq]
        exact h1R
    intro v hvV
    exact main (rk v) v (Nat.le_refl _) hvV
  have hnotlt : (∃ rk : String → Nat, ∀ e ∈ topoEdges s, rk e.1 < rk e.2) →
      ¬(R.length < idOrder.length) := by
    intro hac
    have hsub := hcomplete hac
    have hlen := nodup_sub_length (allIds s) R hVnd hsub
    have hlen2 := hPerm.length_eq
    omega
  by_cases hlt : R.length < idOrder.length
  · rw [hts, if_pos hlt]
    refine ⟨?_, ?_, ?_⟩
    · intro x
      constructor
      · intro hx
        rw [← allIds_mem]
        rcases List.mem_append.mp hx with hx | hx
        · exact hRsub x hx
        · exact hPerm.mem_iff.mp (List.mem_of_mem_filter hx)
      · intro hx
        rw [← allIds_mem] at hx
        have hio : x ∈ idOrder := hPerm.mem_iff.mpr hx
        by_cases hxR : x ∈ R
        · exact List.mem_append.mpr (Or.inl hxR)
        · refine List.mem_append.mpr (Or.inr (List.mem_filter.mpr ⟨hio, ?_⟩))
          simp [contains_eq, hxR]
    · refine List.Nodup.append hRnd (hIOnd.filter _) ?_
      intro a ha hb
      have hfb := (List.mem_filter.mp hb).2
      simp only [contains_eq, Bool.not_eq_true', decide_eq_false_iff_not]
        at hfb
      exact hfb ha
    · intro hac
      exact absurd hlt (hnotlt hac)
  · rw [hts, if_neg hlt]
    refine ⟨?_, hRnd, ?_⟩
    · intro x
      constructor
      · intro hx
        rw [← allIds_mem]
        exact hRsub x hx
      · intro hx
        rw [← allIds_mem] at hx
        have hsp : List.Subperm R (allIds s) :=
          List.subperm_of_subset hRnd (fun {y} hy => hRsub y hy)
        have hperm : List.Perm R (allIds s) := hsp.perm_of_length_le
          (by have := hPerm.length_eq; omega)
        exact hperm.mem_iff.mpr hx
    · intro hac u v htg
      have hedge : ∀ a b, (a, b) ∈ topoEdges s →
          List.indexOf a R < List.indexOf b R := by
        intro a b hab
        have hbR : b ∈ R := hcomplete hac _ (hTgt (a, b) hab)
        exact (hRord (a, b) hab hbR).2
      induction htg with
      | single h => exact hedge _ _ h
      | tail h1 h2 ih => exact Nat.lt_trans ih (hedge _ _ h2)

/-- Witness for the topological-sort correctness on the two-table join
scenario. -/
theorem topological_sort_correct_witness :
    (∀ x, x ∈ topological_sort exJoinScenario (allIds exJoinScenario) ↔
      memIds exJoinScenario x = true) ∧
    (topological_sort exJoinScenario (allIds exJoinScenario)).Nodup ∧
    ((∃ rk : String → Nat, ∀ e ∈ topoEdges exJoinScenario,
        rk e.1 < rk e.2) →
      ∀ u v, Relation.TransGen
          (fun a b => (a, b) ∈ topoEdges exJoinScenario) u v →
        List.indexOf u (topological_sort exJoinScenario
            (allIds exJoinScenario)) <
          List.indexOf v (topological_sort exJoinScenario
            (allIds exJoinScenario))) :=
  topological_sort_correct exJoinScenario (allIds exJoinScenario)
    (List.Perm.refl _) (by decide)
